import Mathlib

/-! # AmpdeckPlus: playback-state mirror, reconciliation and reconnecting transport

A shallow embedding of the state container (`src/core/stateManager.js`), the
reconciler (`src/plex/metadataCache.js`), the command executor
(`src/plex/playbackController.js`), the poll / render loop (`src/plugin.js`) and
the reconnecting transport (`src/core/connectionManager.js`).

Conventions of the embedding.

* JavaScript numbers that the program handles (milliseconds, volume, rating on
  the 0..10 scale, counters) are integers here.
* A value that may be `null` / `undefined` is an `Option`.
* An `async` function is run to completion in one step; what the remote
  side answers is an explicit argument (`Response`, `Remote`).
* `Date.now()` is an explicit argument `now`; a synchronous function that
  reads the clock more than once reads the same instant.
* `displayProgress`, a double in the source, is kept as an exact rational.
* `Math.pow(2, n)` is the exact power of two.
* Host timers, intervals and workers are tables of the `Plugin` / `Host` record;
  a callback is a `Task` that runs when an event fires its handle.
* Requests sent to the player and the server are appended to a log.
* Logging is not part of the state.
-/

namespace Ampdeck

/-! ## JavaScript value helpers -/

/-- JavaScript truthiness of a string-or-null value: `null` and the empty
string are falsy. -/
def truthy (x : Option String) : Bool :=
  match x with
  | none => false
  | some v => v != ""

/-- The expression `x || d` for a number-or-null `x`: `null` and `0` select `d`. -/
def orElse (x : Option Int) (d : Int) : Int :=
  match x with
  | none => d
  | some v => if v = 0 then d else v

/-- The expression `x ?? d` for a number-or-null `x`: only `null` selects `d`. -/
def nullish (x : Option Int) (d : Int) : Int :=
  match x with
  | none => d
  | some v => v

/-- Property key used when a string-or-null value indexes an object
(`obj[null]` is `obj["null"]`). -/
def propKey (k : Option String) : String :=
  match k with
  | none => "null"
  | some v => v

/-- Read `obj[k]`; `none` is `undefined`. -/
def objGet (obj : List (String × Int)) (k : String) : Option Int :=
  match obj with
  | [] => none
  | (k', v) :: rest => if k' = k then some v else objGet rest k

/-- Assignment `obj[k] = v`: an existing property keeps its place. -/
def objSet (obj : List (String × Int)) (k : String) (v : Int) : List (String × Int) :=
  match obj with
  | [] => [(k, v)]
  | (k', v') :: rest => if k' = k then (k, v) :: rest else (k', v') :: objSet rest k v

/-- Statement `delete obj[k]`. -/
def objDelete (obj : List (String × Int)) (k : String) : List (String × Int) :=
  match obj with
  | [] => []
  | (k', v') :: rest => if k' = k then objDelete rest k else (k', v') :: objDelete rest k

/-- Read `obj[k]` of an object keyed by context; `none` is `undefined`. -/
def entryGet {α : Type} (obj : List (String × α)) (k : String) : Option α :=
  match obj with
  | [] => none
  | (k', v) :: rest => if k' = k then some v else entryGet rest k

/-- Assignment `obj[k] = v` on an object keyed by context. -/
def entrySet {α : Type} (obj : List (String × α)) (k : String) (v : α) : List (String × α) :=
  match obj with
  | [] => [(k, v)]
  | (k', v') :: rest => if k' = k then (k, v) :: rest else (k', v') :: entrySet rest k v

/-- Statement `delete obj[k]` on an object keyed by context. -/
def entryDelete {α : Type} (obj : List (String × α)) (k : String) : List (String × α) :=
  match obj with
  | [] => []
  | (k', v') :: rest => if k' = k then entryDelete rest k else (k', v') :: entryDelete rest k

/-! ## `src/utils/helpers.js` -/

/-- The helper `clamp(value, min, max) = Math.max(min, Math.min(max, value))`. -/
def clamp (value lo hi : Int) : Int := max lo (min hi value)

/-! ## `src/core/constants.js` -/

def VOLUME_MIN : Int := 0

def VOLUME_MAX : Int := 100

def RECONNECT_DELAY : Nat := 3000

def RECONNECT_MAX_DELAY : Nat := 30000

def HOLD_THRESHOLD : Int := 400

def SEEK_INTERVAL : Int := 500

def SEEK_AMOUNT : Int := 10000

def VOLUME_STEP : Int := 5

def RATING_HALF_STAR : Int := 1

def RATING_FULL_STAR : Int := 2

def RATING_MAX : Int := 10

def ACTIONS_ALBUM_ART : String := "com.dreadheadhippy.ampdeckplus.album-art"

def ACTIONS_PLAY_PAUSE : String := "com.dreadheadhippy.ampdeckplus.play-pause"

def ACTIONS_PLAY : String := "com.dreadheadhippy.ampdeckplus.play"

def ACTIONS_PAUSE : String := "com.dreadheadhippy.ampdeckplus.pause"

def ACTIONS_NEXT : String := "com.dreadheadhippy.ampdeckplus.next"

def ACTIONS_PREVIOUS : String := "com.dreadheadhippy.ampdeckplus.previous"

def ACTIONS_RATING : String := "com.dreadheadhippy.ampdeckplus.rating"

def ACTIONS_SHUFFLE : String := "com.dreadheadhippy.ampdeckplus.shuffle"

def ACTIONS_REPEAT : String := "com.dreadheadhippy.ampdeckplus.repeat"

def ACTIONS_STRIP : String := "com.dreadheadhippy.ampdeckplus.strip"

def DEFAULT_PLAYER_URL : String := "http://localhost:32500"

/-! ## Data exchanged with the player and the server -/

/-- Result of `parseMetadataXML` when a `Track` element is present. -/
structure Metadata where
  ratingKey : Option String
  key : Option String
  parentRatingKey : Option String
  grandparentRatingKey : Option String
  title : Option String
  parentTitle : Option String
  grandparentTitle : Option String
  userRating : Option Int
  thumb : Option String
  parentThumb : Option String
  grandparentThumb : Option String
  duration : Int
  index : Option Int
  audioCodec : Option String
  bitrate : Option Int
  deriving DecidableEq, Repr

/-- Value stored in `state.currentTrack`: the metadata plus
`Player.machineIdentifier`. -/
structure Track where
  metadata : Metadata
  machineIdentifier : Option String
  deriving DecidableEq, Repr

/-- Timeline object handed to `updateFromTimeline` (fields the core consumes). -/
structure Timeline where
  state : Option String
  time : Option Int
  duration : Option Int
  ratingKey : Option String
  volume : Option Int
  shuffle : Option Int
  repeat_ : Option Int
  machineIdentifier : Option String
  deriving DecidableEq, Repr

/-- Outcome of one remote request: it throws / rejects, or it yields a value. -/
inductive Response (α : Type) where
  | failed : Response α
  | ok (value : α) : Response α
  deriving DecidableEq, Repr

/-- What the remote side answers during one poll. `timeline` is the HTTP
exchange of `fetchTimeline` followed by `parseTimelineXML`, `metadata` the one
of `fetchMetadata` followed by `parseMetadataXML`, `albumTrackCount` the value
of `fetchAlbumTrackCount` (`null` on failure), `albumArt` the data URL of
`fetchAlbumArt`, `dominantColor` the colour `extractDominantColor` resolves to. -/
structure Remote where
  timeline : Response (Option Timeline)
  metadata : Response (Option Metadata)
  albumTrackCount : Option Int
  albumArt : Response String
  dominantColor : String
  deriving Repr

/-- Settings of the `PlexConnection` singleton. -/
structure PlexConnection where
  playerUrl : String
  serverUrl : Option String
  token : Option String
  deriving DecidableEq, Repr

/-! ## `src/core/stateManager.js` -/

/-- Settings of a display context, as carried by `payload.settings` (the fields
the core reads; colours, client name and debug mode only concern rendering and
logging). -/
structure Settings where
  plexServerUrl : Option String
  plexToken : Option String
  playerUrl : Option String
  syncOffset : Option Int
  dialAction : Option String
  ratingMode : Option String
  deriving DecidableEq, Repr

/-- The empty settings object `{}`. -/
def Settings.empty : Settings :=
  { plexServerUrl := none, plexToken := none, playerUrl := none, syncOffset := none,
    dialAction := none, ratingMode := none }

/-- Entry of `state.actions`: `{ action, settings }`. -/
structure ActionEntry where
  action : String
  settings : Settings
  deriving DecidableEq, Repr

/-- Entry of `state.buttonHoldState`; `animationFrame` and `targetPosition` are
`undefined` until the hold threshold fires, `seekInterval` is the handle of the
repeat interval. -/
structure HoldState where
  pressTime : Int
  action : String
  seekInterval : Option Nat
  didSeek : Bool
  animationFrame : Option Int
  targetPosition : Option Int
  deriving DecidableEq, Repr

/-- Fields of `StateManager` read or written by the reconciler, the command
executor and the poll / render loop. The global settings the core reads are the
fields `syncOffset`, `plexServerUrl`, `plexToken` and `playerUrl`; `pollWorker`
and `renderWorker` hold the identity of the worker object, `ratingSaveTimer` the
handle of the timeout. -/
structure StateManager where
  syncOffset : Option Int
  currentTrack : Option Track
  currentAlbumArt : Option String
  dominantColor : String
  lastArtPath : Option String
  playbackState : String
  currentPosition : Int
  trackDuration : Int
  displayProgress : ℚ
  lastPositionTimestamp : Int
  albumTrackCount : Option Int
  lastParentRatingKey : Option String
  lastTimelineRatingKey : Option String
  currentVolume : Int
  currentShuffle : Int
  currentRepeat : Int
  currentRating : Int
  muteRestoreVolume : Option Int
  lastVolumeCommandTime : Int
  userSetRatings : List (String × Int)
  localCommandID : Int
  plexServerUrl : Option String
  plexToken : Option String
  playerUrl : Option String
  actions : List (String × ActionEntry)
  buttonHoldState : List (String × HoldState)
  ratingSaveTimer : Option Nat
  pollWorker : Option Nat
  renderWorker : Option Nat
  deriving DecidableEq

/-- State built by `reset()`. -/
def StateManager.reset : StateManager where
  syncOffset := none
  currentTrack := none
  currentAlbumArt := none
  dominantColor := "#E5A00D"
  lastArtPath := none
  playbackState := "stopped"
  currentPosition := 0
  trackDuration := 0
  displayProgress := 0
  lastPositionTimestamp := 0
  albumTrackCount := none
  lastParentRatingKey := none
  lastTimelineRatingKey := none
  currentVolume := 50
  currentShuffle := 0
  currentRepeat := 0
  currentRating := 0
  muteRestoreVolume := none
  lastVolumeCommandTime := 0
  userSetRatings := []
  localCommandID := 0
  plexServerUrl := none
  plexToken := none
  playerUrl := none
  actions := []
  buttonHoldState := []
  ratingSaveTimer := none
  pollWorker := none
  renderWorker := none

/-- Method `updateTrack(track)` for a non-null track. -/
def StateManager.updateTrack (s : StateManager) (track : Track) : StateManager :=
  let s1 := { s with currentTrack := some track }
  if truthy track.metadata.ratingKey then
    { s1 with lastTimelineRatingKey := track.metadata.ratingKey }
  else s1

/-- Method `clearTrack()`. -/
def StateManager.clearTrack (s : StateManager) : StateManager :=
  { s with
    currentTrack := none
    playbackState := "stopped"
    currentPosition := 0
    trackDuration := 0
    lastPositionTimestamp := 0
    albumTrackCount := none
    lastParentRatingKey := none
    lastTimelineRatingKey := none
    lastArtPath := none
    currentAlbumArt := none
    dominantColor := "#E5A00D"
    currentRating := 0
    userSetRatings := [] }

/-- Method `updatePosition(position, timestamp)`. -/
def StateManager.updatePosition (s : StateManager) (position timestamp : Int) : StateManager :=
  { s with currentPosition := position, lastPositionTimestamp := timestamp }

/-- Method `setUserRating(ratingKey, rating)`. -/
def StateManager.setUserRating (s : StateManager) (ratingKey : Option String) (rating : Int) :
    StateManager :=
  { s with userSetRatings := objSet s.userSetRatings (propKey ratingKey) rating }

/-- Method `getUserRating(ratingKey)`. -/
def StateManager.getUserRating (s : StateManager) (ratingKey : Option String) : Option Int :=
  objGet s.userSetRatings (propKey ratingKey)

/-- Method `clearUserRating(ratingKey)`. -/
def StateManager.clearUserRating (s : StateManager) (ratingKey : Option String) : StateManager :=
  { s with userSetRatings := objDelete s.userSetRatings (propKey ratingKey) }

/-- Method `addAction(context, action, settings)`. -/
def StateManager.addAction (s : StateManager) (context action : String) (settings : Settings) :
    StateManager :=
  { s with actions := entrySet s.actions context ⟨action, settings⟩ }

/-- Method `removeAction(context)` (the per-context display maps are not part of
the embedding). -/
def StateManager.removeAction (s : StateManager) (context : String) : StateManager :=
  { s with
    actions := entryDelete s.actions context
    buttonHoldState := entryDelete s.buttonHoldState context }

/-- Method `getAction(context)`. -/
def StateManager.getAction (s : StateManager) (context : String) : Option ActionEntry :=
  entryGet s.actions context

/-- Method `hasActions()`. -/
def StateManager.hasActions (s : StateManager) : Bool :=
  decide (s.actions.length > 0)

/-- Method `getActionSettings(context)`: `this.actions[context]?.settings || {}`. -/
def StateManager.getActionSettings (s : StateManager) (context : String) : Settings :=
  match entryGet s.actions context with
  | some entry => entry.settings
  | none => Settings.empty

/-- Method `setWorkers(pollWorker, renderWorker)`. -/
def StateManager.setWorkers (s : StateManager) (pollWorker renderWorker : Nat) : StateManager :=
  { s with pollWorker := some pollWorker, renderWorker := some renderWorker }

/-- Method `clearWorkers()`. -/
def StateManager.clearWorkers (s : StateManager) : StateManager :=
  { s with pollWorker := none, renderWorker := none }

/-- Method `getNextCommandID()`: the incremented counter is stored and returned. -/
def StateManager.getNextCommandID (s : StateManager) : StateManager × Int :=
  ({ s with localCommandID := s.localCommandID + 1 }, s.localCommandID + 1)

/-! ## `src/plex/plexConnection.js` -/

/-- Method `getClientId()`: `state.currentTrack?.Player?.machineIdentifier || null`. -/
def getClientId (s : StateManager) : Option String :=
  match s.currentTrack with
  | none => none
  | some track => if truthy track.machineIdentifier then track.machineIdentifier else none

/-- Method `serverCommand(path, extraParams)`: it throws without sending when the
machine identifier, the server URL or the token is missing; otherwise its
outcome is the one of the HTTP request, `server`. -/
def PlexConnection.serverCommand (plex : PlexConnection) (server : Response Unit)
    (s : StateManager) : Response Unit :=
  if !truthy (getClientId s) || !truthy plex.serverUrl || !truthy plex.token then
    Response.failed
  else server

/-- Method `playerCommand(path, extraParams)`: a command id is drawn, the local
player is tried (`loc`), and on any failure the server is tried. -/
def PlexConnection.playerCommand (plex : PlexConnection) (loc server : Response Unit)
    (s : StateManager) : StateManager × Response Unit :=
  let s1 := s.getNextCommandID.1
  match loc with
  | Response.ok r => (s1, Response.ok r)
  | Response.failed => (s1, plex.serverCommand server s1)

/-- Command carried by a request to the player or the server: the path below
`/player/playback/` with its parameter, or the rating write `/:/rate` with its `key`
and `rating`. -/
inductive Command where
  | play : Command
  | pause : Command
  | skipNext : Command
  | skipPrevious : Command
  | seekTo (offset : Int) : Command
  | setVolume (volume : Int) : Command
  | setShuffle (shuffle : Int) : Command
  | setRepeat (repeat_ : Int) : Command
  | rate (key : Option String) (rating : Int) : Command
  deriving DecidableEq, Repr

/-- Where a request is sent: the local player or the server. -/
inductive Target where
  | player : Target
  | server : Target
  deriving DecidableEq, Repr

/-- Requests `serverCommand` sends for command `c`: none when the machine
identifier, the server URL or the token is missing, otherwise one. -/
def PlexConnection.serverRequests (plex : PlexConnection) (s : StateManager) (c : Command) :
    List (Target × Command) :=
  if !truthy (getClientId s) || !truthy plex.serverUrl || !truthy plex.token then []
  else [(Target.server, c)]

/-- Requests `playerCommand` sends for command `c`: the request to the local
player, and after its failure the requests of `serverCommand`. -/
def PlexConnection.playerRequests (plex : PlexConnection) (loc : Response Unit)
    (s : StateManager) (c : Command) : List (Target × Command) :=
  match loc with
  | Response.ok _ => [(Target.player, c)]
  | Response.failed => (Target.player, c) :: plex.serverRequests s c

/-- Method `configure(serverUrl, token, playerUrl)`. -/
def PlexConnection.configure (plex : PlexConnection) (serverUrl token playerUrl : Option String) :
    PlexConnection :=
  { serverUrl := serverUrl
    token := token
    playerUrl :=
      match playerUrl with
      | some url => if url = "" then plex.playerUrl else url
      | none => plex.playerUrl }

/-- Method `fetchTimeline()`: `null` when not configured; otherwise a command id
is drawn and the request is made; every failure is caught and gives `null`. -/
def PlexConnection.fetchTimeline (plex : PlexConnection) (resp : Response (Option Timeline))
    (s : StateManager) : StateManager × Option Timeline :=
  if !truthy plex.token || !truthy plex.serverUrl then (s, none)
  else
    let s1 := s.getNextCommandID.1
    match resp with
    | Response.failed => (s1, none)
    | Response.ok parsed => (s1, parsed)

/-- Method `fetchMetadata(ratingKey)`: throws when not configured or when the
request fails, otherwise the parsed track or `null`. -/
def PlexConnection.fetchMetadata (plex : PlexConnection) (resp : Response (Option Metadata)) :
    Response (Option Metadata) :=
  if !truthy plex.serverUrl || !truthy plex.token then Response.failed else resp

/-- Method `fetchAlbumTrackCount(parentRatingKey)`: `null` when not configured
or on failure. -/
def PlexConnection.fetchAlbumTrackCount (plex : PlexConnection) (resp : Option Int) :
    Option Int :=
  if !truthy plex.serverUrl || !truthy plex.token then none else resp

/-! ## `src/plex/metadataCache.js` -/

/-- The expression `a || b` on string-or-null values. -/
def orStr (a b : Option String) : Option String := if truthy a then a else b

/-- The expression `x || d` for a string-or-null `x` and a string `d`. -/
def strOr (x : Option String) (d : String) : String :=
  match x with
  | none => d
  | some v => if v = "" then d else v

/-- Method `loadAlbumArt(thumbPath)`: on a failed fetch nothing is stored. -/
def loadAlbumArt (art : Response String) (color : String) (s : StateManager) : StateManager :=
  match art with
  | Response.failed => s
  | Response.ok dataUrl => { s with currentAlbumArt := some dataUrl, dominantColor := color }

/-- The block "Handle rating with cache" of `loadTrackData` (lines 66-83). -/
def applyRatingCache (metadata : Metadata) (s : StateManager) : StateManager :=
  let incomingRating := orElse metadata.userRating 0
  match s.getUserRating metadata.ratingKey with
  | some cachedRating =>
    if incomingRating = cachedRating then
      { s.clearUserRating metadata.ratingKey with currentRating := incomingRating }
    else
      { s with currentRating := cachedRating }
  | none => { s with currentRating := incomingRating }

/-- Method `loadTrackData(timelineData)`, run to completion. -/
def loadTrackData (plex : PlexConnection) (env : Remote) (timelineData : Timeline)
    (s : StateManager) : StateManager :=
  if !truthy timelineData.ratingKey then s
  else
    match plex.fetchMetadata env.metadata with
    | Response.failed => s
    | Response.ok none => s
    | Response.ok (some metadata) =>
      let s1 := s.updateTrack
        { metadata := metadata, machineIdentifier := timelineData.machineIdentifier }
      let s2 := applyRatingCache metadata s1
      let s3 :=
        if truthy metadata.parentRatingKey && metadata.parentRatingKey != s2.lastParentRatingKey then
          { s2 with
            lastParentRatingKey := metadata.parentRatingKey
            albumTrackCount := plex.fetchAlbumTrackCount env.albumTrackCount }
        else s2
      let artPath := orStr (orStr metadata.thumb metadata.parentThumb) metadata.grandparentThumb
      if truthy artPath && artPath != s3.lastArtPath then
        loadAlbumArt env.albumArt env.dominantColor { s3 with lastArtPath := artPath }
      else s3

/-- Whether `updateFromTimeline` starts `loadTrackData`: no stored track, or a
stored track whose `ratingKey` differs from the timeline's (lines 36-37). -/
def trackChanged (s : StateManager) (timelineData : Timeline) : Bool :=
  match s.currentTrack with
  | none => true
  | some track => track.metadata.ratingKey != timelineData.ratingKey

/-- Lines 19-33 of `updateFromTimeline`: the fields updated in place from the
timeline, at clock reading `now`. -/
def applyTimeline (now : Int) (tl : Timeline) (s : StateManager) : StateManager :=
  let s1 := { s with playbackState := strOr tl.state "stopped" }
  let s2 := s1.updatePosition (orElse tl.time 0) now
  let s3 := { s2 with trackDuration := orElse tl.duration 0 }
  let timeSinceVolumeCommand := now - s3.lastVolumeCommandTime
  let s4 :=
    if timeSinceVolumeCommand > 2000 then
      { s3 with currentVolume := nullish tl.volume 50 }
    else s3
  let s5 := { s4 with currentShuffle := orElse tl.shuffle 0 }
  { s5 with currentRepeat := orElse tl.repeat_ 0 }

/-- Method `updateFromTimeline(timelineData)` at clock reading `now`; the
`loadTrackData` call it starts is run to completion. -/
def updateFromTimeline (plex : PlexConnection) (env : Remote) (now : Int)
    (timelineData : Option Timeline) (s : StateManager) : StateManager :=
  match timelineData with
  | none => s
  | some tl =>
    let s6 := applyTimeline now tl s
    if trackChanged s6 tl then loadTrackData plex env tl s6 else s6

/-- The condition of `handleNoSession` (line 200): a track is stored or the
playback state is not `'stopped'`. -/
def sessionActive (s : StateManager) : Bool :=
  s.currentTrack.isSome || s.playbackState != "stopped"

/-- Method `handleNoSession()`. -/
def handleNoSession (s : StateManager) : StateManager :=
  if sessionActive s then s.clearTrack else s

/-- Number of `clearTrack` invocations made by `n` consecutive calls of
`handleNoSession`. -/
def clearTrackCalls (n : Nat) (s : StateManager) : Nat :=
  match n with
  | 0 => 0
  | k + 1 => (if sessionActive s then 1 else 0) + clearTrackCalls k (handleNoSession s)

/-! ## `src/plex/playbackController.js` -/

/-- Method `setVolume(level)` called at clock reading `now`; `loc` and `server`
are the outcomes of the local and the fallback request. -/
def setVolume (plex : PlexConnection) (loc server : Response Unit) (now : Int) (level : Int)
    (s : StateManager) : StateManager :=
  let volume := clamp level VOLUME_MIN VOLUME_MAX
  let previousVolume := s.currentVolume
  let s1 := { s with currentVolume := volume, lastVolumeCommandTime := now }
  match plex.playerCommand loc server s1 with
  | (s2, Response.ok _) => s2
  | (s2, Response.failed) =>
    { s2 with currentVolume := previousVolume, lastVolumeCommandTime := 0 }

/-- Method `togglePlayPause()` at clock reading `now`, with the requests it sends. -/
def togglePlayPause (plex : PlexConnection) (loc server : Response Unit) (now : Int)
    (s : StateManager) : StateManager × List (Target × Command) :=
  if s.playbackState = "stopped" then (s, [])
  else
    let command := if s.playbackState = "playing" then Command.pause else Command.play
    match plex.playerCommand loc server s with
    | (s1, Response.ok _) =>
      if s1.playbackState = "playing" then
        ({ s1 with playbackState := "paused", lastPositionTimestamp := 0 },
          plex.playerRequests loc s command)
      else
        ({ s1 with playbackState := "playing", lastPositionTimestamp := now },
          plex.playerRequests loc s command)
    | (s1, Response.failed) => (s1, plex.playerRequests loc s command)

/-- Method `play()`. -/
def play (plex : PlexConnection) (loc server : Response Unit) (now : Int) (s : StateManager) :
    StateManager × List (Target × Command) :=
  match plex.playerCommand loc server s with
  | (s1, Response.ok _) =>
    ({ s1 with playbackState := "playing", lastPositionTimestamp := now },
      plex.playerRequests loc s Command.play)
  | (s1, Response.failed) => (s1, plex.playerRequests loc s Command.play)

/-- Method `pause()`. -/
def pause (plex : PlexConnection) (loc server : Response Unit) (s : StateManager) :
    StateManager × List (Target × Command) :=
  match plex.playerCommand loc server s with
  | (s1, Response.ok _) =>
    ({ s1 with playbackState := "paused", lastPositionTimestamp := 0 },
      plex.playerRequests loc s Command.pause)
  | (s1, Response.failed) => (s1, plex.playerRequests loc s Command.pause)

/-- Method `skipNext()`. -/
def skipNext (plex : PlexConnection) (loc server : Response Unit) (s : StateManager) :
    StateManager × List (Target × Command) :=
  ((plex.playerCommand loc server s).1, plex.playerRequests loc s Command.skipNext)

/-- Method `skipPrevious()`. -/
def skipPrevious (plex : PlexConnection) (loc server : Response Unit) (s : StateManager) :
    StateManager × List (Target × Command) :=
  ((plex.playerCommand loc server s).1, plex.playerRequests loc s Command.skipPrevious)

/-- Method `seekTo(positionMs)` at clock reading `now`: the position is clamped,
sent as `offset`, and stored on success. -/
def seekTo (plex : PlexConnection) (loc server : Response Unit) (now : Int) (positionMs : Int)
    (s : StateManager) : StateManager × List (Target × Command) :=
  let newPos := clamp positionMs 0 s.trackDuration
  match plex.playerCommand loc server s with
  | (s1, Response.ok _) =>
    (s1.updatePosition newPos now, plex.playerRequests loc s (Command.seekTo newPos))
  | (s1, Response.failed) => (s1, plex.playerRequests loc s (Command.seekTo newPos))

/-- Method `seek(offsetMs)`. -/
def seek (plex : PlexConnection) (loc server : Response Unit) (now : Int) (offsetMs : Int)
    (s : StateManager) : StateManager × List (Target × Command) :=
  let newPos := clamp (s.currentPosition + offsetMs) 0 s.trackDuration
  seekTo plex loc server now newPos s

/-- Method `toggleShuffle()`. -/
def toggleShuffle (plex : PlexConnection) (loc server : Response Unit) (s : StateManager) :
    StateManager × List (Target × Command) :=
  let newShuffle : Int := if s.currentShuffle ≠ 0 then 0 else 1
  match plex.playerCommand loc server s with
  | (s1, Response.ok _) =>
    ({ s1 with currentShuffle := newShuffle },
      plex.playerRequests loc s (Command.setShuffle newShuffle))
  | (s1, Response.failed) => (s1, plex.playerRequests loc s (Command.setShuffle newShuffle))

/-- Method `toggleRepeat()`; `%` is the remainder with the sign of the dividend. -/
def toggleRepeat (plex : PlexConnection) (loc server : Response Unit) (s : StateManager) :
    StateManager × List (Target × Command) :=
  let newRepeat : Int := Int.tmod (s.currentRepeat + 1) 3
  match plex.playerCommand loc server s with
  | (s1, Response.ok _) =>
    ({ s1 with currentRepeat := newRepeat },
      plex.playerRequests loc s (Command.setRepeat newRepeat))
  | (s1, Response.failed) => (s1, plex.playerRequests loc s (Command.setRepeat newRepeat))

/-- The expression `state.currentTrack?.ratingKey`. -/
def currentRatingKey (s : StateManager) : Option String :=
  match s.currentTrack with
  | none => none
  | some track => track.metadata.ratingKey

/-- Method `setRating(rating, ratingKeyOverride)`; `server` is the outcome of the
request to the server. -/
def setRating (plex : PlexConnection) (server : Response Unit) (rating : Int)
    (ratingKeyOverride : Option String) (s : StateManager) :
    StateManager × List (Target × Command) :=
  let ratingKey := orStr ratingKeyOverride (currentRatingKey s)
  if !truthy ratingKey then (s, [])
  else
    match plex.serverCommand server s with
    | Response.ok _ =>
      let s1 := s.setUserRating ratingKey rating
      let s2 := if ratingKey = currentRatingKey s1 then { s1 with currentRating := rating } else s1
      (s2, plex.serverRequests s (Command.rate ratingKey rating))
    | Response.failed => (s, plex.serverRequests s (Command.rate ratingKey rating))

/-- Method `adjustRating(delta)`. -/
def adjustRating (plex : PlexConnection) (server : Response Unit) (delta : Int)
    (s : StateManager) : StateManager × List (Target × Command) :=
  let newRating := clamp (s.currentRating + delta) 0 10
  setRating plex server newRating none s

/-! ## `src/plugin.js`: poll and render loop -/

/-- Function `pollTimeline()` at clock reading `now`. -/
def pollTimeline (plex : PlexConnection) (env : Remote) (now : Int) (s : StateManager) :
    StateManager :=
  match plex.fetchTimeline env.timeline s with
  | (s1, some timeline) =>
    if timeline.state != some "stopped" then
      updateFromTimeline plex env now (some timeline) s1
    else handleNoSession s1
  | (s1, none) => handleNoSession s1

/-- Function `updateDisplayPosition()` at clock reading `now`. -/
def updateDisplayPosition (now : Int) (s : StateManager) : StateManager :=
  let s1 :=
    if s.playbackState = "playing" ∧ s.lastPositionTimestamp > 0 then
      let elapsed := now - s.lastPositionTimestamp
      let syncOffset := nullish s.syncOffset 0
      { s with
        currentPosition := min (s.currentPosition + elapsed + syncOffset) s.trackDuration
        lastPositionTimestamp := now }
    else s
  { s1 with
    displayProgress :=
      if s1.trackDuration > 0 then
        ((s1.currentPosition : ℚ) / (s1.trackDuration : ℚ)) * 100
      else 0 }

/-- Render ticks at the clock readings `ticks`, in order, with nothing in
between. -/
def renderTicks (ticks : List Int) (s : StateManager) : StateManager :=
  match ticks with
  | [] => s
  | t :: rest => renderTicks rest (updateDisplayPosition t s)

/-- Consecutive polls: each entry gives what the remote side answers and the
clock reading of that poll. -/
def pollRun (plex : PlexConnection) (polls : List (Remote × Int)) (s : StateManager) :
    StateManager :=
  match polls with
  | [] => s
  | (env, now) :: rest => pollRun plex rest (pollTimeline plex env now s)

/-- The poll answered by `env` reports track `K` in a state other than
`'stopped'`. -/
def reportsTrack (K : Option String) (env : Remote) : Bool :=
  match env.timeline with
  | Response.ok (some tl) => tl.ratingKey == K && tl.state != some "stopped"
  | _ => false

/-! ## `src/plugin.js`: event handlers, timers and workers -/

/-- Callbacks that `plugin.js` hands to `setTimeout` / `setInterval`, with the
values their closures capture: the hold-threshold timeout of `onKeyDown`, the
seek-repeat interval it starts, and the debounced rating save. -/
inductive Task where
  | holdThreshold (context action : String) : Task
  | seekRepeat (context action : String) : Task
  | ratingSave (newRating : Int) : Task
  deriving DecidableEq, Repr

/-- The plugin in its host: the state container, the `PlexConnection` settings,
the host's pending timeouts (handle, due time, callback), its active intervals
(handle, callback), the live workers, the next handle the host hands out, and the
requests sent so far to the player and the server. -/
structure Plugin where
  state : StateManager
  plex : PlexConnection
  timeouts : List (Nat × Int × Task)
  intervals : List (Nat × Task)
  workers : List Nat
  nextHandle : Nat
  requests : List (Target × Command)
  deriving DecidableEq

/-- The plugin after module load. -/
def Plugin.initial : Plugin :=
  { state := StateManager.reset
    plex := { playerUrl := DEFAULT_PLAYER_URL, serverUrl := none, token := none }
    timeouts := []
    intervals := []
    workers := []
    nextHandle := 1
    requests := [] }

/-- Host call `setTimeout(task, delay)` at clock reading `now`; returns the handle. -/
def Plugin.setTimeout (p : Plugin) (task : Task) (delay now : Int) : Plugin × Nat :=
  ({ p with
      timeouts := p.timeouts ++ [(p.nextHandle, now + delay, task)]
      nextHandle := p.nextHandle + 1 },
    p.nextHandle)

/-- Host call `clearTimeout(handle)`. -/
def Plugin.clearTimeout (p : Plugin) (handle : Nat) : Plugin :=
  { p with timeouts := p.timeouts.filter fun t => t.1 != handle }

/-- Host call `setInterval(task, period)`; returns the handle. -/
def Plugin.setInterval (p : Plugin) (task : Task) : Plugin × Nat :=
  ({ p with
      intervals := p.intervals ++ [(p.nextHandle, task)]
      nextHandle := p.nextHandle + 1 },
    p.nextHandle)

/-- Host call `clearInterval(handle)` for a handle-or-null value. -/
def Plugin.clearInterval (p : Plugin) (handle : Option Nat) : Plugin :=
  match handle with
  | none => p
  | some h => { p with intervals := p.intervals.filter fun t => t.1 != h }

/-- Helper `terminateWorker(worker)`. -/
def Plugin.terminateWorker (p : Plugin) (worker : Option Nat) : Plugin :=
  match worker with
  | none => p
  | some w => { p with workers := p.workers.filter fun x => x != w }

/-- Direction of the hold-to-seek of a control: `-1` for PREVIOUS, else `1`. -/
def seekDirection (action : String) : Int :=
  if action = ACTIONS_PREVIOUS then -1 else 1

/-- Function `onKeyDown(data)` at clock reading `now`. -/
def onKeyDown (context action : String) (now : Int) (p : Plugin) : Plugin :=
  let holdState : HoldState :=
    { pressTime := now, action := action, seekInterval := none, didSeek := false,
      animationFrame := none, targetPosition := none }
  let p1 :=
    { p with
      state :=
        { p.state with
          buttonHoldState := entrySet p.state.buttonHoldState context holdState } }
  if action = ACTIONS_PREVIOUS ∨ action = ACTIONS_NEXT then
    (p1.setTimeout (Task.holdThreshold context action) HOLD_THRESHOLD now).1
  else p1

/-- Callback of the hold-threshold timeout set by `onKeyDown` (lines 155-213). -/
def holdThresholdFired (context action : String) (loc server : Response Unit) (now : Int)
    (p : Plugin) : Plugin :=
  match entryGet p.state.buttonHoldState context with
  | none => p
  | some holdState =>
    if holdState.didSeek then p
    else
      let direction := seekDirection action
      let targetPosition := p.state.currentPosition + direction * SEEK_AMOUNT
      let sought :=
        seekTo p.plex loc server now (max 0 (min targetPosition p.state.trackDuration)) p.state
      let held : HoldState :=
        { holdState with
          didSeek := true
          animationFrame := some 0
          targetPosition := some targetPosition
          seekInterval := some p.nextHandle }
      let p1 :=
        { p with
          state :=
            { sought.1 with
              buttonHoldState := entrySet sought.1.buttonHoldState context held }
          requests := p.requests ++ sought.2 }
      (p1.setInterval (Task.seekRepeat context action)).1

/-- Callback of the seek-repeat interval (lines 177-211). -/
def seekRepeatFired (context action : String) (loc server : Response Unit) (now : Int)
    (p : Plugin) : Plugin :=
  match entryGet p.state.buttonHoldState context with
  | none => p
  | some hs =>
    match hs.targetPosition with
    | none => p
    | some previousTarget =>
      let direction := seekDirection action
      let animationFrame := orElse hs.animationFrame 0 + 1
      let targetPosition := previousTarget + direction * SEEK_AMOUNT
      let clampedPos := max 0 (min targetPosition p.state.trackDuration)
      if clampedPos = targetPosition then
        let sought := seekTo p.plex loc server now clampedPos p.state
        { p with
          state :=
            { sought.1 with
              buttonHoldState :=
                entrySet sought.1.buttonHoldState context
                  { hs with
                    animationFrame := some animationFrame
                    targetPosition := some targetPosition } }
          requests := p.requests ++ sought.2 }
      else
        let p1 := p.clearInterval hs.seekInterval
        { p1 with
          state :=
            { p1.state with
              buttonHoldState :=
                entrySet p1.state.buttonHoldState context
                  { hs with
                    animationFrame := some animationFrame
                    targetPosition := some targetPosition
                    seekInterval := none } } }

/-- The debounce at the end of a rating adjustment (lines 291-299 and 377-385): a
pending rating-save timeout is cleared and a new one, carrying `newRating`, is set
2000 ms ahead. -/
def debounceRatingSave (newRating : Int) (now : Int) (p : Plugin) : Plugin :=
  let p1 :=
    match p.state.ratingSaveTimer with
    | some handle => p.clearTimeout handle
    | none => p
  let p2 := p1.setTimeout (Task.ratingSave newRating) 2000 now
  { p2.1 with state := { p2.1.state with ratingSaveTimer := some p2.2 } }

/-- Callback of the rating-save timeout: `setRating(newRating)` is called, then
`ratingSaveTimer` is set to `null`. -/
def ratingSaveFired (newRating : Int) (server : Response Unit) (p : Plugin) : Plugin :=
  let saved := setRating p.plex server newRating none p.state
  { p with
    state := { saved.1 with ratingSaveTimer := none }
    requests := p.requests ++ saved.2 }

/-- The steps common to the two rating adjustments (lines 279-299 and 369-385):
the new rating is stored in `currentRating`, cached for the current track when
it has a rating key, and its save is debounced. -/
def storeRating (newRating : Int) (now : Int) (p : Plugin) : Plugin :=
  let s1 := { p.state with currentRating := newRating }
  let s2 :=
    if truthy (currentRatingKey s1) then s1.setUserRating (currentRatingKey s1) newRating
    else s1
  debounceRatingSave newRating now { p with state := s2 }

/-- A controller call made from a handler: its state and its requests are taken
over. -/
def Plugin.apply (p : Plugin) (r : StateManager × List (Target × Command)) : Plugin :=
  { p with state := r.1, requests := p.requests ++ r.2 }

/-- The `RATING` case of `handleButtonAction` (lines 352-386). -/
def ratingButton (context : String) (now : Int) (p : Plugin) : Plugin :=
  match p.state.currentTrack with
  | none => p
  | some _ =>
    let settings := p.state.getActionSettings context
    let ratingMode := strOr settings.ratingMode "half"
    let step := if ratingMode = "half" then RATING_HALF_STAR else RATING_FULL_STAR
    let newRating :=
      if p.state.currentRating + step > RATING_MAX then 0 else p.state.currentRating + step
    storeRating newRating now p

/-- Function `handleButtonAction(action, context)` at clock reading `now` (the
display refresh it schedules is not part of the embedding). -/
def handleButtonAction (action context : String) (loc server : Response Unit) (now : Int)
    (p : Plugin) : Plugin :=
  if action = ACTIONS_ALBUM_ART then p.apply (togglePlayPause p.plex loc server now p.state)
  else if action = ACTIONS_PLAY_PAUSE then
    p.apply (togglePlayPause p.plex loc server now p.state)
  else if action = ACTIONS_PLAY then p.apply (play p.plex loc server now p.state)
  else if action = ACTIONS_PAUSE then p.apply (pause p.plex loc server p.state)
  else if action = ACTIONS_NEXT then p.apply (skipNext p.plex loc server p.state)
  else if action = ACTIONS_PREVIOUS then p.apply (skipPrevious p.plex loc server p.state)
  else if action = ACTIONS_SHUFFLE then p.apply (toggleShuffle p.plex loc server p.state)
  else if action = ACTIONS_REPEAT then p.apply (toggleRepeat p.plex loc server p.state)
  else if action = ACTIONS_RATING then ratingButton context now p
  else p

/-- Function `onKeyUp(data)` at clock reading `now`. -/
def onKeyUp (context action : String) (loc server : Response Unit) (now : Int) (p : Plugin) :
    Plugin :=
  match entryGet p.state.buttonHoldState context with
  | none => p
  | some holdState =>
    let p1 := p.clearInterval holdState.seekInterval
    let p2 :=
      { p1 with
        state :=
          { p1.state with buttonHoldState := entryDelete p1.state.buttonHoldState context } }
    if holdState.didSeek then p2
    else handleButtonAction action context loc server now p2

/-- Function `onDialRotate(data)` at clock reading `now`, with `ticks` the value of
`payload.ticks || 0` (the strip overlay it shows is not part of the embedding). -/
def onDialRotate (context : String) (ticks : Int) (loc server : Response Unit) (now : Int)
    (p : Plugin) : Plugin :=
  match p.state.getAction context with
  | none => p
  | some entry =>
    if entry.action ≠ ACTIONS_STRIP then p
    else
      let settings := p.state.getActionSettings context
      let dialAction := strOr settings.dialAction "none"
      if dialAction = "skip" then
        if ticks > 0 then p.apply (skipNext p.plex loc server p.state)
        else if ticks < 0 then p.apply (skipPrevious p.plex loc server p.state)
        else p
      else if dialAction = "volume" then
        let newVolume := max 0 (min 100 (p.state.currentVolume + ticks * VOLUME_STEP))
        { p with
          state := setVolume p.plex loc server now newVolume p.state
          requests :=
            p.requests ++
              p.plex.playerRequests loc p.state
                (Command.setVolume (clamp newVolume VOLUME_MIN VOLUME_MAX)) }
      else if dialAction = "rating" then
        match p.state.currentTrack with
        | none => p
        | some _ =>
          let ratingMode := strOr settings.ratingMode "half"
          let step := if ratingMode = "half" then RATING_HALF_STAR else RATING_FULL_STAR
          let newRating := max 0 (min 10 (p.state.currentRating + ticks * step))
          storeRating newRating now p
      else p

/-- Function `configurePlexConnection()`. -/
def configurePlexConnection (p : Plugin) : Plugin :=
  if truthy p.state.plexServerUrl && truthy p.state.plexToken then
    { p with
      plex := p.plex.configure p.state.plexServerUrl p.state.plexToken p.state.playerUrl }
  else p

/-- Function `applySettingsToGlobal(settings)` (for the settings the core reads). -/
def applySettingsToGlobal (settings : Settings) (p : Plugin) : Plugin :=
  let s := p.state
  let s1 :=
    if truthy settings.plexServerUrl then { s with plexServerUrl := settings.plexServerUrl }
    else s
  let s2 := if truthy settings.plexToken then { s1 with plexToken := settings.plexToken } else s1
  let s3 := if truthy settings.playerUrl then { s2 with playerUrl := settings.playerUrl } else s2
  let s4 :=
    if settings.syncOffset.isSome then { s3 with syncOffset := settings.syncOffset } else s3
  configurePlexConnection { p with state := s4 }

/-- Function `startPolling()` at clock reading `now`; the initial poll is answered
by `env`. -/
def startPolling (env : Remote) (now : Int) (p : Plugin) : Plugin :=
  if p.state.pollWorker.isSome then p
  else
    let pollWorker := p.nextHandle
    let renderWorker := p.nextHandle + 1
    { p with
      workers := p.workers ++ [pollWorker, renderWorker]
      nextHandle := p.nextHandle + 2
      state := pollTimeline p.plex env now (p.state.setWorkers pollWorker renderWorker) }

/-- Function `stopPolling()`. -/
def stopPolling (p : Plugin) : Plugin :=
  let p1 := p.terminateWorker p.state.pollWorker
  let p2 := p1.terminateWorker p1.state.renderWorker
  { p2 with state := p2.state.clearWorkers }

/-- Function `onWillAppear(data)` (the initial render is not part of the
embedding). -/
def onWillAppear (context action : String) (settings : Settings) (env : Remote) (now : Int)
    (p : Plugin) : Plugin :=
  let p1 := { p with state := p.state.addAction context action settings }
  startPolling env now (applySettingsToGlobal settings p1)

/-- Function `onWillDisappear(data)`. -/
def onWillDisappear (context : String) (p : Plugin) : Plugin :=
  let p1 :=
    match entryGet p.state.buttonHoldState context with
    | some holdState =>
      let q := p.clearInterval holdState.seekInterval
      { q with
        state :=
          { q.state with buttonHoldState := entryDelete q.state.buttonHoldState context } }
    | none => p
  let p2 := { p1 with state := p1.state.removeAction context }
  if !p2.state.hasActions then stopPolling p2 else p2

/-- What happens to the plugin: the host's messages, the firing of a pending
timeout or of an active interval, and the ticks of the poll and render workers;
`loc` and `server` are the outcomes of the requests the handler makes, `env` the
answers to a poll. -/
inductive PluginEvent where
  | willAppear (context action : String) (settings : Settings) (env : Remote) (now : Int) :
      PluginEvent
  | willDisappear (context : String) : PluginEvent
  | keyDown (context action : String) (now : Int) : PluginEvent
  | keyUp (context action : String) (loc server : Response Unit) (now : Int) : PluginEvent
  | dialRotate (context : String) (ticks : Int) (loc server : Response Unit) (now : Int) :
      PluginEvent
  | timeout (handle : Nat) (loc server : Response Unit) (now : Int) : PluginEvent
  | interval (handle : Nat) (loc server : Response Unit) (now : Int) : PluginEvent
  | poll (env : Remote) (now : Int) : PluginEvent
  | renderTick (now : Int) : PluginEvent

/-- Run the callback `task`. -/
def runTask (task : Task) (loc server : Response Unit) (now : Int) (p : Plugin) : Plugin :=
  match task with
  | Task.holdThreshold context action => holdThresholdFired context action loc server now p
  | Task.seekRepeat context action => seekRepeatFired context action loc server now p
  | Task.ratingSave newRating => ratingSaveFired newRating server p

/-- One event. A timeout fires only when it is pending and due, and leaves the
host's table before its callback runs; an interval fires only while it is active. -/
def pluginStep (p : Plugin) (e : PluginEvent) : Plugin :=
  match e with
  | PluginEvent.willAppear context action settings env now =>
    onWillAppear context action settings env now p
  | PluginEvent.willDisappear context => onWillDisappear context p
  | PluginEvent.keyDown context action now => onKeyDown context action now p
  | PluginEvent.keyUp context action loc server now => onKeyUp context action loc server now p
  | PluginEvent.dialRotate context ticks loc server now =>
    onDialRotate context ticks loc server now p
  | PluginEvent.timeout handle loc server now =>
    match p.timeouts.find? fun t => t.1 == handle && decide (t.2.1 ≤ now) with
    | some t => runTask t.2.2 loc server now (p.clearTimeout handle)
    | none => p
  | PluginEvent.interval handle loc server now =>
    match p.intervals.find? fun t => t.1 == handle with
    | some t => runTask t.2 loc server now p
    | none => p
  | PluginEvent.poll env now => { p with state := pollTimeline p.plex env now p.state }
  | PluginEvent.renderTick now => { p with state := updateDisplayPosition now p.state }

/-- A sequence of events, in order. -/
def pluginRun (events : List PluginEvent) (p : Plugin) : Plugin :=
  match events with
  | [] => p
  | e :: rest => pluginRun rest (pluginStep p e)

/-! ## `src/core/connectionManager.js` -/

/-- Values of `WebSocket.readyState`. -/
inductive ReadyState where
  | CONNECTING : ReadyState
  | OPEN : ReadyState
  | CLOSING : ReadyState
  | CLOSED : ReadyState
  deriving DecidableEq, Repr

/-- Messages the manager sends: `event` with `uuid` (registration) or with
`context` (`getGlobalSettings`). -/
structure Message where
  event : Option String
  uuid : Option String
  context : Option String
  deriving DecidableEq, Repr

/-- Fields of `ConnectionManager`. `websocket` holds the `readyState` of the socket
the manager refers to, `reconnectTimer` the handle of the timeout (handles are
positive integers, so a stored handle is truthy). -/
structure ConnectionManager where
  websocket : Option ReadyState
  pluginUUID : Option String
  port : Option Nat
  registerEvent : Option String
  reconnectAttempts : Nat
  reconnectTimer : Option Nat
  isIntentionalClose : Bool
  deriving DecidableEq, Repr

/-- The manager in its host: `timers` is the host's table of pending timeouts
created by the manager, as pairs (handle, delay in ms); `nextTimer` is the handle
the next `setTimeout` returns; `sent` are the messages dispatched on the socket. -/
structure Host where
  manager : ConnectionManager
  timers : List (Nat × Nat)
  nextTimer : Nat
  sent : List Message
  deriving DecidableEq, Repr

/-- State after `new ConnectionManager(messageHandler)`. -/
def Host.initial : Host :=
  { manager :=
      { websocket := none, pluginUUID := none, port := none, registerEvent := none,
        reconnectAttempts := 0, reconnectTimer := none, isIntentionalClose := false }
    timers := []
    nextTimer := 1
    sent := [] }

/-- JavaScript truthiness of the stored port: `null` and `0` are falsy. -/
def portTruthy (p : Option Nat) : Bool :=
  match p with
  | none => false
  | some n => n != 0

/-- Method `send(data)`: dispatches and returns `true` when a socket exists and is
`OPEN`, otherwise returns `false`. -/
def send (data : Message) (h : Host) : Host × Bool :=
  match h.manager.websocket with
  | some ReadyState.OPEN => ({ h with sent := h.sent ++ [data] }, true)
  | _ => (h, false)

/-- Method `scheduleReconnect()`. The delay is
`Math.min(RECONNECT_DELAY * Math.pow(2, reconnectAttempts - 1), RECONNECT_MAX_DELAY)`. -/
def scheduleReconnect (h : Host) : Host :=
  if h.manager.isIntentionalClose || h.manager.reconnectTimer.isSome then h
  else
    let attempts := h.manager.reconnectAttempts + 1
    let delay := min (RECONNECT_DELAY * 2 ^ (attempts - 1)) RECONNECT_MAX_DELAY
    { h with
      manager :=
        { h.manager with reconnectAttempts := attempts, reconnectTimer := some h.nextTimer }
      timers := h.timers ++ [(h.nextTimer, delay)]
      nextTimer := h.nextTimer + 1 }

/-- Method `connect(port, pluginUUID, registerEvent)`; `created` tells whether
`new WebSocket(...)` returns (a socket in state `CONNECTING`) or throws. -/
def connect (port : Option Nat) (pluginUUID registerEvent : Option String) (created : Bool)
    (h : Host) : Host :=
  let h1 :=
    { h with
      manager :=
        { h.manager with
          port := port, pluginUUID := pluginUUID, registerEvent := registerEvent,
          isIntentionalClose := false } }
  if created then
    { h1 with manager := { h1.manager with websocket := some ReadyState.CONNECTING } }
  else scheduleReconnect h1

/-- Handler `websocket.onopen`. -/
def onopen (h : Host) : Host :=
  let h1 := { h with manager := { h.manager with reconnectAttempts := 0 } }
  let h2 := (send ⟨h1.manager.registerEvent, h1.manager.pluginUUID, none⟩ h1).1
  (send ⟨some "getGlobalSettings", none, h2.manager.pluginUUID⟩ h2).1

/-- Handler `websocket.onclose`. -/
def onclose (h : Host) : Host :=
  if h.manager.isIntentionalClose then h
  else scheduleReconnect { h with manager := { h.manager with websocket := none } }

/-- Callback of the reconnect timeout. -/
def reconnectCallback (created : Bool) (h : Host) : Host :=
  let h1 := { h with manager := { h.manager with reconnectTimer := none } }
  if portTruthy h1.manager.port && truthy h1.manager.pluginUUID &&
      truthy h1.manager.registerEvent then
    connect h1.manager.port h1.manager.pluginUUID h1.manager.registerEvent created h1
  else h1

/-- Method `close()`: `clearTimeout` removes the timeout from the host's table. -/
def close (h : Host) : Host :=
  let h1 := { h with manager := { h.manager with isIntentionalClose := true } }
  let h2 :=
    match h1.manager.reconnectTimer with
    | some id =>
      { h1 with
        timers := h1.timers.filter (fun t => t.1 != id)
        manager := { h1.manager with reconnectTimer := none } }
    | none => h1
  match h2.manager.websocket with
  | some _ => { h2 with manager := { h2.manager with websocket := none } }
  | none => h2

/-- What happens to the manager: a call of `connect`, the open event of its socket,
a close event of a socket it created, the host firing the pending timeout `id`, a
call of `close()`, a call of `scheduleReconnect()`. -/
inductive Event where
  | connect (port : Option Nat) (pluginUUID registerEvent : Option String) (created : Bool) :
      Event
  | socketOpen : Event
  | socketClose : Event
  | timeout (id : Nat) (created : Bool) : Event
  | close : Event
  | scheduleReconnect : Event
  deriving DecidableEq, Repr

/-- One event. On `socketOpen` the socket is `OPEN` when `onopen` runs; a timeout
that fires leaves the host's table before its callback runs. -/
def step (h : Host) (e : Event) : Host :=
  match e with
  | Event.connect port pluginUUID registerEvent created =>
    connect port pluginUUID registerEvent created h
  | Event.socketOpen =>
    onopen
      { h with
        manager :=
          { h.manager with websocket := h.manager.websocket.map fun _ => ReadyState.OPEN } }
  | Event.socketClose => onclose h
  | Event.timeout id created =>
    if h.timers.any (fun t => t.1 == id) then
      reconnectCallback created { h with timers := h.timers.filter (fun t => t.1 != id) }
    else h
  | Event.close => close h
  | Event.scheduleReconnect => scheduleReconnect h

/-- A sequence of events, in order. -/
def run (events : List Event) (h : Host) : Host :=
  match events with
  | [] => h
  | e :: rest => run rest (step h e)

/-- Delay of the pending reconnect timeout, if one is pending. -/
def pendingDelay (h : Host) : Option Nat :=
  match h.manager.reconnectTimer with
  | none => none
  | some id => (h.timers.find? fun t => t.1 == id).map fun t => t.2

/-- The pending reconnect timeout, if any, fires and the socket is created. -/
def firePending (h : Host) : Host :=
  match h.manager.reconnectTimer with
  | none => h
  | some id => step h (Event.timeout id true)

/-- State after the `k`-th unexpected close: before each close the pending
reconnect timeout (if any) has fired and created the socket that closes. -/
def unexpectedCloses (k : Nat) (h : Host) : Host :=
  match k with
  | 0 => h
  | n + 1 => step (firePending (unexpectedCloses n h)) Event.socketClose

/-- The event is a call of `connect`. -/
def Event.isConnect (e : Event) : Bool :=
  match e with
  | Event.connect _ _ _ _ => true
  | _ => false

/-- The event is a socket close event, a call of `scheduleReconnect()`, a timer
firing or a call of `close()`. -/
def Event.isCloseOrSchedule (e : Event) : Bool :=
  match e with
  | Event.socketClose => true
  | Event.scheduleReconnect => true
  | Event.timeout _ _ => true
  | Event.close => true
  | _ => false

/-- A manager connected on port 28196 whose socket is open. -/
def sampleHost : Host :=
  step (step Host.initial (Event.connect (some 28196) (some "UUID") (some "registerPlugin") true))
    Event.socketOpen

/-- The host's table of pending timeouts holds exactly the timeout whose handle the
manager stores, and nothing when it stores none. -/
def timerConsistent (h : Host) : Prop :=
  h.timers.map Prod.fst = h.manager.reconnectTimer.toList

instance instDecidableTimerConsistent (h : Host) : Decidable (timerConsistent h) := by
  unfold timerConsistent
  infer_instance

/-- A rating adjustment by the user: a rotation of the dial of a touch strip, or a
press of a rating button (its tap action). -/
inductive RatingAdjustment where
  | dial (context : String) (ticks : Int) (loc server : Response Unit) (now : Int) :
      RatingAdjustment
  | button (context : String) (loc server : Response Unit) (now : Int) : RatingAdjustment

/-- Clock reading of the adjustment. -/
def RatingAdjustment.time (a : RatingAdjustment) : Int :=
  match a with
  | RatingAdjustment.dial _ _ _ _ now => now
  | RatingAdjustment.button _ _ _ now => now

/-- A dial rotation counts as a rating adjustment when its context is a touch strip
whose dial is set to adjust the rating. -/
def RatingAdjustment.inRatingMode (a : RatingAdjustment) (s : StateManager) : Bool :=
  match a with
  | RatingAdjustment.dial context _ _ _ _ =>
    match s.getAction context with
    | some entry => entry.action == ACTIONS_STRIP && entry.settings.dialAction == some "rating"
    | none => false
  | RatingAdjustment.button _ _ _ _ => true

/-- The handler a rating adjustment runs: `onDialRotate`, or `handleButtonAction`
with the action of a rating button. -/
def adjustRatingBy (p : Plugin) (a : RatingAdjustment) : Plugin :=
  match a with
  | RatingAdjustment.dial context ticks loc server now =>
    onDialRotate context ticks loc server now p
  | RatingAdjustment.button context loc server now =>
    handleButtonAction ACTIONS_RATING context loc server now p

/-- A sequence of rating adjustments, in order, with nothing in between. -/
def adjustAll (adjustments : List RatingAdjustment) (p : Plugin) : Plugin :=
  match adjustments with
  | [] => p
  | a :: rest => adjustAll rest (adjustRatingBy p a)

/-- Whether a callback is a rating save. -/
def Task.isRatingSave (task : Task) : Bool :=
  match task with
  | Task.ratingSave _ => true
  | _ => false

/-- The pending rating-save timeouts. -/
def ratingTimeouts (p : Plugin) : List (Nat × Int × Task) :=
  p.timeouts.filter fun t => t.2.2.isRatingSave

/-- Handles of pending timeouts were handed out before: they are below the next
handle of the host. -/
def handlesFresh (p : Plugin) : Prop :=
  ∀ t ∈ p.timeouts, t.1 < p.nextHandle

/-- The pending rating-save timeouts are exactly the one whose handle
`ratingSaveTimer` stores, and none when it stores `null`. -/
def ratingTimerConsistent (p : Plugin) : Prop :=
  (ratingTimeouts p).map Prod.fst = p.state.ratingSaveTimer.toList

instance instDecidableHandlesFresh (p : Plugin) : Decidable (handlesFresh p) := by
  unfold handlesFresh
  infer_instance

instance instDecidableRatingTimerConsistent (p : Plugin) :
    Decidable (ratingTimerConsistent p) := by
  unfold ratingTimerConsistent
  infer_instance

/-- The fields of the state container that belong to the display contexts, the
held keys, the rating-save timer and the workers. -/
def StateManager.hostFields (s : StateManager) :
    List (String × ActionEntry) × List (String × HoldState) × Option Nat × Option Nat ×
      Option Nat :=
  (s.actions, s.buttonHoldState, s.ratingSaveTimer, s.pollWorker, s.renderWorker)

/-- The event is `willAppear` or `willDisappear`. -/
def PluginEvent.isLifecycle (e : PluginEvent) : Bool :=
  match e with
  | PluginEvent.willAppear _ _ _ _ _ => true
  | PluginEvent.willDisappear _ => true
  | _ => false

/-- The live workers are exactly the stored poll and render worker: either none is
stored and none is alive, or both are stored and they are the two live workers. -/
def workersConsistent (p : Plugin) : Prop :=
  (p.state.pollWorker = none ∧ p.state.renderWorker = none ∧ p.workers = []) ∨
    ∃ w, p.state.pollWorker = some w ∧ p.state.renderWorker = some (w + 1) ∧
      p.workers = [w, w + 1]

/-- Offsets of the seek requests sent to the local player, in order. -/
def playerSeeks (requests : List (Target × Command)) : List Int :=
  requests.filterMap fun r =>
    match r with
    | (Target.player, Command.seekTo offset) => some offset
    | _ => none

/-- One period of the seek repeat of the hold on `context`: in the meantime
`state.currentPosition` has become `position` (by polls, render ticks and
completed seeks); the interval whose handle the hold state stores fires if it is
still active. -/
def holdTick (context : String) (position : Int) (loc server : Response Unit) (now : Int)
    (p : Plugin) : Plugin :=
  let p1 := { p with state := { p.state with currentPosition := position } }
  match (entryGet p1.state.buttonHoldState context).bind fun hs => hs.seekInterval with
  | some handle => pluginStep p1 (PluginEvent.interval handle loc server now)
  | none => p1

/-- Consecutive periods of the seek repeat; each entry gives the position the
state has reached, the outcomes of the requests and the clock reading. -/
def holdTicks (context : String) (ticks : List (Int × Response Unit × Response Unit × Int))
    (p : Plugin) : Plugin :=
  match ticks with
  | [] => p
  | (position, loc, server, now) :: rest =>
    holdTicks context rest (holdTick context position loc server now p)

/-- The hold on `context` is seeking: its local target is `target`, its repeat
interval `handle` is active in the host, and the track duration is `duration`. -/
def holdActive (context action : String) (handle : Nat) (target duration : Int) (p : Plugin) :
    Prop :=
  ∃ hs, entryGet p.state.buttonHoldState context = some hs ∧ hs.targetPosition = some target ∧
    hs.seekInterval = some handle ∧
    p.intervals.find? (fun t => t.1 == handle) = some (handle, Task.seekRepeat context action) ∧
    p.state.trackDuration = duration

/-- The hold on `context` has stopped repeating: its local target is `target` and
it stores no interval. -/
def holdCancelled (context : String) (target : Int) (p : Plugin) : Prop :=
  ∃ hs, entryGet p.state.buttonHoldState context = some hs ∧ hs.targetPosition = some target ∧
    hs.seekInterval = none

/-- The position lies between 0 and the track duration. -/
def positionClamped (s : StateManager) : Prop :=
  0 ≤ s.currentPosition ∧ s.currentPosition ≤ s.trackDuration

instance instDecidablePositionClamped (s : StateManager) : Decidable (positionClamped s) := by
  unfold positionClamped
  infer_instance

/-- The playback state is one of `'stopped'`, `'playing'`, `'paused'`. -/
def playbackStateValid (s : StateManager) : Prop :=
  s.playbackState = "stopped" ∨ s.playbackState = "playing" ∨ s.playbackState = "paused"

instance instDecidablePlaybackStateValid (s : StateManager) :
    Decidable (playbackStateValid s) := by
  unfold playbackStateValid
  infer_instance

/-- The fields of the state container that describe the playback: state,
position, duration and the timestamp of the position. -/
def StateManager.playbackFields (s : StateManager) : String × Int × Int × Int :=
  (s.playbackState, s.currentPosition, s.trackDuration, s.lastPositionTimestamp)

/-! ## `src/plex/plexConnection.js`: `parseTimelineXML` -/

/-- Attributes of the element `Timeline[type="music"]` of a poll answer that the
core consumes; `none` is an absent attribute (`getAttribute` returns `null`). -/
structure TimelineElement where
  state : Option String
  time : Option String
  duration : Option String
  ratingKey : Option String
  volume : Option String
  shuffle : Option String
  repeat_ : Option String
  machineIdentifier : Option String
  deriving DecidableEq, Repr

/-- Value of a character as a digit, letters counting from 10. -/
def digitValue (c : Char) : Option Nat :=
  if '0' ≤ c ∧ c ≤ '9' then some (c.toNat - Char.toNat '0')
  else if 'a' ≤ c ∧ c ≤ 'f' then some (c.toNat - Char.toNat 'a' + 10)
  else if 'A' ≤ c ∧ c ≤ 'F' then some (c.toNat - Char.toNat 'A' + 10)
  else none

/-- The longest leading run of digits of base `radix`, read as a number; `acc` is
the value read so far, `none` while no digit has been read. -/
def readDigits (radix : Nat) (cs : List Char) (acc : Option Nat) : Option Nat :=
  match cs with
  | [] => acc
  | c :: rest =>
    match digitValue c with
    | some d => if d < radix then readDigits radix rest (some (acc.getD 0 * radix + d)) else acc
    | none => acc

/-- The call `parseInt(attr)` on an attribute value; `none` is `NaN`. Leading
white space and a sign are skipped, then the longest run of decimal digits is
read (of hexadecimal digits after `0x`); without a digit, and for `null`, the
result is `NaN`. -/
def parseInt (attr : Option String) : Option Int :=
  match attr with
  | none => none
  | some text =>
    let cs := text.toList.dropWhile Char.isWhitespace
    let signed : Bool × List Char :=
      match cs with
      | '-' :: rest => (true, rest)
      | '+' :: rest => (false, rest)
      | _ => (false, cs)
    let based : Nat × List Char :=
      match signed.2 with
      | '0' :: 'x' :: rest => (16, rest)
      | '0' :: 'X' :: rest => (16, rest)
      | _ => (10, signed.2)
    match readDigits based.1 based.2 none with
    | none => none
    | some n => some (if signed.1 then -(n : Int) else (n : Int))

/-- Method `parseTimelineXML(xmlText)`, given the element that
`querySelector('Timeline[type="music"]')` finds (`none` when there is none). -/
def parseTimelineXML (timeline : Option TimelineElement) : Option Timeline :=
  match timeline with
  | none => none
  | some el =>
    some
      { state := el.state
        time := some (orElse (parseInt el.time) 0)
        duration := some (orElse (parseInt el.duration) 0)
        ratingKey := el.ratingKey
        volume := some (orElse (parseInt el.volume) 50)
        shuffle := some (orElse (parseInt el.shuffle) 0)
        repeat_ := some (orElse (parseInt el.repeat_) 0)
        machineIdentifier := el.machineIdentifier }

/-! ## `src/plugin.js`: polls whose request is pending -/

/-- The part of `pollTimeline()` that runs when it is called: `fetchTimeline()` up
to its request. Without a token or server URL no request is made, `fetchTimeline`
returns `null` and the poll ends in `handleNoSession`; otherwise a command id is
drawn and the request is made, and the call waits for its answer. The result
tells whether a request was made. -/
def pollBegin (plex : PlexConnection) (s : StateManager) : StateManager × Bool :=
  if !truthy plex.token || !truthy plex.serverUrl then (handleNoSession s, false)
  else (s.getNextCommandID.1, true)

/-- The part of `pollTimeline()` that runs when its request is answered by `env`
at clock reading `now`: a failed request gives `null`, and the timeline is
reconciled. -/
def pollEnd (plex : PlexConnection) (env : Remote) (now : Int) (s : StateManager) :
    StateManager :=
  let parsed :=
    match env.timeline with
    | Response.failed => none
    | Response.ok timeline => timeline
  match parsed with
  | some timeline =>
    if timeline.state != some "stopped" then
      updateFromTimeline plex env now (some timeline) s
    else handleNoSession s
  | none => handleNoSession s

/-- The poll loop between the events of the host: the state container, the
connection settings, the timeline requests that have been made and not yet
answered (by command id, oldest first), and the number of requests made. -/
structure PollLoop where
  state : StateManager
  plex : PlexConnection
  inFlight : List Int
  started : Nat

/-- What happens to the poll loop: a message of the poll worker, whose handler
is `() => pollTimeline()` (set in `startPolling`), or the answer to the pending
request with command id `commandID`. -/
inductive PollEvent where
  | tick : PollEvent
  | answer (commandID : Int) (env : Remote) (now : Int) : PollEvent

/-- One event of the poll loop. -/
def pollLoopStep (l : PollLoop) (e : PollEvent) : PollLoop :=
  match e with
  | PollEvent.tick =>
    match pollBegin l.plex l.state with
    | (s1, true) =>
      { l with
        state := s1
        inFlight := l.inFlight ++ [s1.localCommandID]
        started := l.started + 1 }
    | (s1, false) => { l with state := s1 }
  | PollEvent.answer commandID env now =>
    if commandID ∈ l.inFlight then
      { l with
        state := pollEnd l.plex env now l.state
        inFlight := l.inFlight.filter fun c => c != commandID }
    else l

/-- A sequence of events of the poll loop, in order. -/
def pollLoopRun (events : List PollEvent) (l : PollLoop) : PollLoop :=
  match events with
  | [] => l
  | e :: rest => pollLoopRun rest (pollLoopStep l e)

/-! ## `src/utils/helpers.js`: `formatTime` and `formatRating` -/

/-- Decimal digits of `n`, least significant first; `fuel` bounds their number. -/
def decimalRev (fuel n : Nat) : List Char :=
  match fuel with
  | 0 => []
  | fuel + 1 =>
    Nat.digitChar (n % 10) :: (if n / 10 = 0 then [] else decimalRev fuel (n / 10))

/-- The call `n.toString()` for a non-negative integer `n`: its decimal digits. -/
def numberToString (n : Nat) : List Char := (decimalRev (n + 1) n).reverse

/-- The call `text.padStart(2, '0')`. -/
def padStart2 (text : List Char) : List Char :=
  List.replicate (2 - text.length) '0' ++ text

/-- Function `formatTime(ms)`; `none` is a missing argument. Past the guard `ms`
is positive, so `sec`, `h`, `m` and `s` are natural numbers. -/
def formatTime (ms : Option Int) : String :=
  match ms with
  | none => "0:00"
  | some v =>
    if v = 0 ∨ v ≤ 0 then "0:00"
    else
      let sec := (v / 1000).toNat
      let h := sec / 3600
      let m := sec % 3600 / 60
      let s := sec % 60
      if h > 0 then
        String.mk
          (numberToString h ++ ':' :: padStart2 (numberToString m) ++
            ':' :: padStart2 (numberToString s))
      else String.mk (numberToString m ++ ':' :: padStart2 (numberToString s))

/-- Function `formatRating(rating, mode)` for an integer rating; `%` is the
remainder with the sign of the dividend, and a loop with a bound below 1 adds
nothing. -/
def formatRating (rating : Int) (mode : String) : String :=
  if rating = 0 then "☆☆☆☆☆"
  else
    let fullStars := rating / 2
    let hasHalfStar : Bool := decide (mode = "half") && decide (Int.tmod rating 2 = 1)
    let emptyStars := 5 - fullStars - (if hasHalfStar then 1 else 0)
    String.mk
      (List.replicate fullStars.toNat '★' ++ (if hasHalfStar then ['⯨'] else []) ++
        List.replicate emptyStars.toNat '☆')

/-- Value of a run of decimal digits given least significant first. -/
def valueRev (cs : List Char) : Nat :=
  match cs with
  | [] => 0
  | c :: rest => (c.toNat - 48) + 10 * valueRev rest

/-- The fields of a text between its colons. -/
def splitColon (cs : List Char) : List (List Char) :=
  match cs with
  | [] => [[]]
  | c :: rest =>
    if c = ':' then [] :: splitColon rest
    else
      match splitColon rest with
      | field :: fields => (c :: field) :: fields
      | [] => [[c]]

/-- The number of seconds that a text of the form `M:SS` or `H:MM:SS` denotes. -/
def readTime (text : String) : Nat :=
  match (splitColon text.toList).map fun field => valueRev field.reverse with
  | [m, s] => m * 60 + s
  | [h, m, s] => h * 3600 + m * 60 + s
  | _ => 0

/-! ## Sample values -/

/-- A configured connection. -/
def samplePlex : PlexConnection :=
  { playerUrl := "http://localhost:32500", serverUrl := some "http://server:32400",
    token := some "tok" }

/-- Metadata of track `"42"` with server rating `r`. -/
def sampleMetadata (r : Option Int) : Metadata :=
  { ratingKey := some "42", key := some "/library/metadata/42",
    parentRatingKey := some "7", grandparentRatingKey := some "3",
    title := some "Song", parentTitle := some "Album", grandparentTitle := some "Artist",
    userRating := r, thumb := some "/thumb/42", parentThumb := none, grandparentThumb := none,
    duration := 180000, index := some 1, audioCodec := some "flac", bitrate := some 900 }

/-- A timeline of track `"42"`, playing at 5 s, volume 30. -/
def sampleTimeline : Timeline :=
  { state := some "playing", time := some 5000, duration := some 180000,
    ratingKey := some "42", volume := some 30, shuffle := some 0, repeat_ := some 0,
    machineIdentifier := some "player-1" }

/-- Answers of the remote side: the timeline above and the metadata with
server rating `r`. -/
def sampleRemote (r : Option Int) : Remote :=
  { timeline := Response.ok (some sampleTimeline),
    metadata := Response.ok (some (sampleMetadata r)),
    albumTrackCount := some 12, albumArt := Response.ok "data:image/png;base64,AA",
    dominantColor := "#336699" }

/-- No stored track, rating 8 pending for track `"42"` and rating 4 pending for
track `"43"`. -/
def samplePending : StateManager :=
  { StateManager.reset with userSetRatings := [("42", 8), ("43", 4)] }

/-- Track `"42"` stored and playing, rating 8 shown and pending for it. -/
def sampleCurrent : StateManager :=
  { StateManager.reset with
    currentTrack := some ⟨sampleMetadata (some 6), some "player-1"⟩
    lastTimelineRatingKey := some "42"
    playbackState := "playing"
    currentPosition := 4000
    trackDuration := 180000
    lastPositionTimestamp := 1000000
    currentRating := 8
    userSetRatings := [("42", 8)] }

/-- Track `"42"` playing at 4 s since clock reading 1000000, with `syncOffset = 500`
configured. -/
def sampleOffset : StateManager :=
  { sampleCurrent with syncOffset := some 500 }

/-- Answers of the remote side when the timeline request fails (network error,
timeout or non-OK status). -/
def sampleFailed : Remote :=
  { sampleRemote none with timeline := Response.failed }

/-- Answers of the remote side when the player reports track `"42"` stopped. -/
def sampleStopped : Remote :=
  { sampleRemote none with
    timeline := Response.ok (some { sampleTimeline with state := some "stopped" }) }

/-- A plugin whose state is `sampleCurrent` (track `"42"` playing at 4 s, duration
180 s), configured, with a touch strip whose dial adjusts the rating and a rating
button registered. -/
def samplePlugin : Plugin :=
  { Plugin.initial with
    state :=
      { sampleCurrent with
        actions :=
          [("strip-1", ⟨ACTIONS_STRIP, { Settings.empty with dialAction := some "rating" }⟩),
            ("rate-1", ⟨ACTIONS_RATING, Settings.empty⟩)] }
    plex := samplePlex }

/-- Two presses of a NEXT key: a tap from 1000000 to 1000100, then a press from
1000200 to 1000450, with the hold-threshold timeout of the first press (handle 1,
due at 1000400) firing in between. -/
def sampleDoublePress : List PluginEvent :=
  [PluginEvent.keyDown "next-1" ACTIONS_NEXT 1000000,
    PluginEvent.keyUp "next-1" ACTIONS_NEXT (Response.ok ()) Response.failed 1000100,
    PluginEvent.keyDown "next-1" ACTIONS_NEXT 1000200,
    PluginEvent.timeout 1 (Response.ok ()) Response.failed 1000400,
    PluginEvent.keyUp "next-1" ACTIONS_NEXT (Response.ok ()) Response.failed 1000450]

/-- Metadata of track `"43"`, the next track of the album, with server rating 4. -/
def sampleNextMetadata : Metadata :=
  { sampleMetadata (some 4) with
    ratingKey := some "43", key := some "/library/metadata/43", title := some "Next song",
    index := some 2 }

/-- Answers of the remote side once the player has moved on to track `"43"`,
playing at 1 s. -/
def sampleNextRemote : Remote :=
  { sampleRemote none with
    timeline :=
      Response.ok (some { sampleTimeline with ratingKey := some "43", time := some 1000 })
    metadata := Response.ok (some sampleNextMetadata) }

/-- The dial sets rating 10 while track `"42"` is current (at 1000000); the poll
at 1000500 finds track `"43"` playing; the rating-save timeout (handle 1) fires
at 1002000 and its request succeeds. -/
def sampleTrackChange : List PluginEvent :=
  [PluginEvent.dialRotate "strip-1" 2 (Response.ok ()) Response.failed 1000000,
    PluginEvent.poll sampleNextRemote 1000500,
    PluginEvent.timeout 1 (Response.ok ()) (Response.ok ()) 1002000]

/-- The `Timeline` element of a poll answer for track `"42"`, playing at 5 s, with
the volume attribute `"0"`. -/
def sampleMutedElement : TimelineElement :=
  { state := some "playing", time := some "5000", duration := some "180000",
    ratingKey := some "42", volume := some "0", shuffle := some "0", repeat_ := some "0",
    machineIdentifier := some "player-1" }

/-- Answers of the remote side whose timeline is parsed from `sampleMutedElement`. -/
def sampleMutedRemote : Remote :=
  { sampleRemote none with timeline := Response.ok (parseTimelineXML (some sampleMutedElement)) }

/-- The poll loop of a configured plugin with track `"42"` stored and no request
pending. -/
def samplePollLoop : PollLoop :=
  { state := sampleCurrent, plex := samplePlex, inFlight := [], started := 0 }

/-- Answers of the remote side for a snapshot of track `"42"` at position `time`. -/
def sampleRemoteAt (time : Int) : Remote :=
  { sampleRemote none with
    timeline := Response.ok (some { sampleTimeline with time := some time }) }

/-! # Properties -/

/-! ## Lemmas on the object helpers -/

theorem objGet_objDelete_self (obj : List (String × Int)) (k : String) :
    objGet (objDelete obj k) k = none := by
  induction obj with
  | nil => rfl
  | cons e rest ih =>
    obtain ⟨k', v'⟩ := e
    by_cases h : k' = k
    · simp [objDelete, h, ih]
    · simp [objDelete, objGet, h, ih]

theorem objGet_objDelete_other (obj : List (String × Int)) (k j : String) (hj : j ≠ k) :
    objGet (objDelete obj k) j = objGet obj j := by
  induction obj with
  | nil => rfl
  | cons e rest ih =>
    obtain ⟨k', v'⟩ := e
    by_cases h : k' = k
    · subst h
      have hne : ¬ k' = j := fun hk => hj hk.symm
      simp [objDelete, objGet, hne, ih]
    · by_cases h2 : k' = j
      · subst h2
        simp [objDelete, objGet, h]
      · simp [objDelete, objGet, h, h2, ih]

/-! ## The three branches of the rating step -/

theorem applyRatingCache_converged (md : Metadata) (s : StateManager) (P : Int)
    (hP : s.getUserRating md.ratingKey = some P) (hS : orElse md.userRating 0 = P) :
    applyRatingCache md s = { s.clearUserRating md.ratingKey with currentRating := P } := by
  simp [applyRatingCache, hP, hS]

theorem applyRatingCache_waiting (md : Metadata) (s : StateManager) (P : Int)
    (hP : s.getUserRating md.ratingKey = some P) (hS : orElse md.userRating 0 ≠ P) :
    applyRatingCache md s = { s with currentRating := P } := by
  simp [applyRatingCache, hP, hS]

theorem applyRatingCache_absent (md : Metadata) (s : StateManager)
    (hN : s.getUserRating md.ratingKey = none) :
    applyRatingCache md s = { s with currentRating := orElse md.userRating 0 } := by
  simp [applyRatingCache, hN]

theorem applyRatingCache_currentTrack (md : Metadata) (s : StateManager) :
    (applyRatingCache md s).currentTrack = s.currentTrack := by
  cases hc : s.getUserRating md.ratingKey with
  | none => rw [applyRatingCache_absent _ _ hc]
  | some c =>
    by_cases hS : orElse md.userRating 0 = c
    · rw [applyRatingCache_converged _ _ _ hc hS]
      rfl
    · rw [applyRatingCache_waiting _ _ _ hc hS]

theorem loadAlbumArt_currentTrack (art : Response String) (color : String) (s : StateManager) :
    (loadAlbumArt art color s).currentTrack = s.currentTrack := by
  cases art <;> simp [loadAlbumArt]

/-! ## Frame lemmas for `loadTrackData` -/

theorem loadAlbumArt_rating (art : Response String) (color : String) (s : StateManager) :
    (loadAlbumArt art color s).currentRating = s.currentRating ∧
      (loadAlbumArt art color s).userSetRatings = s.userSetRatings := by
  cases art <;> simp [loadAlbumArt]

theorem updateTrack_rating (s : StateManager) (track : Track) :
    (s.updateTrack track).currentRating = s.currentRating ∧
      (s.updateTrack track).userSetRatings = s.userSetRatings := by
  unfold StateManager.updateTrack
  split <;> simp

theorem loadTrackData_loaded (plex : PlexConnection) (env : Remote) (tl : Timeline)
    (s : StateManager) (md : Metadata) (hk : truthy tl.ratingKey = true)
    (hf : plex.fetchMetadata env.metadata = Response.ok (some md)) :
    (loadTrackData plex env tl s).currentRating =
        (applyRatingCache md (s.updateTrack ⟨md, tl.machineIdentifier⟩)).currentRating ∧
      (loadTrackData plex env tl s).userSetRatings =
        (applyRatingCache md (s.updateTrack ⟨md, tl.machineIdentifier⟩)).userSetRatings := by
  unfold loadTrackData
  simp only [hk, hf, Bool.not_true, Bool.false_eq_true, if_false]
  split <;> split <;> simp [loadAlbumArt_rating]

/-! ## C1: rating reconciliation step -/

/-- C1: in `loadTrackData`, once the metadata `md` has been fetched, with key
`K = md.ratingKey` and server rating `S = md.userRating || 0`: (1) if a rating
`P` is pending for `K` and `S = P`, the entry for `K` is removed and
`currentRating = S`; (2) if `P` is pending and `S ≠ P`, `currentRating = P` and
the entry is kept; (3) if nothing is pending for `K`, `currentRating = S`; and
in every case the entries of all other keys are unchanged. -/
theorem C1_rating_reconciliation (plex : PlexConnection) (env : Remote) (tl : Timeline)
    (s : StateManager) (md : Metadata) (hk : truthy tl.ratingKey = true)
    (hf : plex.fetchMetadata env.metadata = Response.ok (some md)) :
    (∀ P, s.getUserRating md.ratingKey = some P → orElse md.userRating 0 = P →
        (loadTrackData plex env tl s).getUserRating md.ratingKey = none ∧
          (loadTrackData plex env tl s).currentRating = orElse md.userRating 0) ∧
      (∀ P, s.getUserRating md.ratingKey = some P → orElse md.userRating 0 ≠ P →
        (loadTrackData plex env tl s).currentRating = P ∧
          (loadTrackData plex env tl s).getUserRating md.ratingKey = some P) ∧
      (s.getUserRating md.ratingKey = none →
        (loadTrackData plex env tl s).currentRating = orElse md.userRating 0) ∧
      (∀ k : String, k ≠ propKey md.ratingKey →
        objGet (loadTrackData plex env tl s).userSetRatings k = objGet s.userSetRatings k) := by
  obtain ⟨hr, hu⟩ := loadTrackData_loaded plex env tl s md hk hf
  obtain ⟨_, hu0⟩ := updateTrack_rating s ⟨md, tl.machineIdentifier⟩
  have hget : (s.updateTrack ⟨md, tl.machineIdentifier⟩).getUserRating md.ratingKey =
      s.getUserRating md.ratingKey := by
    simp [StateManager.getUserRating, hu0]
  refine ⟨?_, ?_, ?_, ?_⟩
  · intro P hP hS
    rw [← hget] at hP
    rw [StateManager.getUserRating, hr, hu, applyRatingCache_converged _ _ _ hP hS]
    exact ⟨objGet_objDelete_self _ _, hS.symm⟩
  · intro P hP hS
    have hP' := hP
    rw [← hget] at hP'
    rw [StateManager.getUserRating, hr, hu, applyRatingCache_waiting _ _ _ hP' hS]
    refine ⟨rfl, ?_⟩
    show objGet (s.updateTrack ⟨md, tl.machineIdentifier⟩).userSetRatings _ = some P
    rw [hu0]
    exact hP
  · intro hN
    rw [← hget] at hN
    rw [hr, applyRatingCache_absent _ _ hN]
  · intro k hkne
    rw [hu]
    cases hc : (s.updateTrack ⟨md, tl.machineIdentifier⟩).getUserRating md.ratingKey with
    | none => rw [applyRatingCache_absent _ _ hc]; show objGet (s.updateTrack _).userSetRatings k = _; rw [hu0]
    | some c =>
      by_cases hS : orElse md.userRating 0 = c
      · rw [applyRatingCache_converged _ _ _ hc hS]
        show objGet (objDelete (s.updateTrack _).userSetRatings _) k = _
        rw [objGet_objDelete_other _ _ _ hkne, hu0]
      · rw [applyRatingCache_waiting _ _ _ hc hS]
        show objGet (s.updateTrack _).userSetRatings k = _
        rw [hu0]

/-- C1 at a concrete input: rating 8 is pending for track `"42"` and the server
reports 8. -/
theorem C1_rating_reconciliation_witness :
    truthy sampleTimeline.ratingKey = true ∧
      samplePlex.fetchMetadata (sampleRemote (some 8)).metadata =
        Response.ok (some (sampleMetadata (some 8))) ∧
      (loadTrackData samplePlex (sampleRemote (some 8)) sampleTimeline
          samplePending).getUserRating (some "42") = none ∧
      (loadTrackData samplePlex (sampleRemote (some 8)) sampleTimeline
          samplePending).currentRating = 8 :=
  ⟨by decide, by decide,
    (C1_rating_reconciliation samplePlex (sampleRemote (some 8)) sampleTimeline samplePending
      (sampleMetadata (some 8)) (by decide) (by decide)).1 8 (by decide) (by decide)⟩

/-! ## Polls that reach `updateFromTimeline` -/

theorem fetchTimeline_ok (plex : PlexConnection) (env : Remote) (s : StateManager)
    (tl : Option Timeline) (ht : truthy plex.token = true) (hs : truthy plex.serverUrl = true)
    (he : env.timeline = Response.ok tl) :
    plex.fetchTimeline env.timeline s = (s.getNextCommandID.1, tl) := by
  simp [PlexConnection.fetchTimeline, ht, hs, he]

theorem pollTimeline_active (plex : PlexConnection) (env : Remote) (now : Int)
    (s : StateManager) (tl : Timeline) (ht : truthy plex.token = true)
    (hs : truthy plex.serverUrl = true) (he : env.timeline = Response.ok (some tl))
    (hst : tl.state ≠ some "stopped") :
    pollTimeline plex env now s =
      updateFromTimeline plex env now (some tl) s.getNextCommandID.1 := by
  unfold pollTimeline
  rw [fetchTimeline_ok plex env s (some tl) ht hs he]
  simp [hst]

theorem applyTimeline_frame (now : Int) (tl : Timeline) (s : StateManager) :
    (applyTimeline now tl s).currentTrack = s.currentTrack ∧
      (applyTimeline now tl s).currentRating = s.currentRating ∧
      (applyTimeline now tl s).userSetRatings = s.userSetRatings ∧
      (applyTimeline now tl s).lastVolumeCommandTime = s.lastVolumeCommandTime := by
  unfold applyTimeline
  simp only [StateManager.updatePosition]
  refine ⟨?_, ?_, ?_, ?_⟩ <;> split <;> rfl

theorem applyTimeline_volume (now : Int) (tl : Timeline) (s : StateManager) :
    (applyTimeline now tl s).currentVolume =
      (if now - s.lastVolumeCommandTime > 2000 then nullish tl.volume 50
        else s.currentVolume) := by
  unfold applyTimeline
  simp only [StateManager.updatePosition]
  split <;> rfl

theorem trackChanged_congr (s s' : StateManager) (tl : Timeline)
    (h : s'.currentTrack = s.currentTrack) : trackChanged s' tl = trackChanged s tl := by
  simp [trackChanged, h]

theorem updateFromTimeline_same_track (plex : PlexConnection) (env : Remote) (now : Int)
    (s : StateManager) (tl : Timeline) (h : trackChanged s tl = false) :
    updateFromTimeline plex env now (some tl) s = applyTimeline now tl s := by
  have h6 := (trackChanged_congr s _ tl (applyTimeline_frame now tl s).1).trans h
  simp [updateFromTimeline, h6]

theorem pollTimeline_same_track (plex : PlexConnection) (env : Remote) (now : Int)
    (s : StateManager) (tl : Timeline) (ht : truthy plex.token = true)
    (hs : truthy plex.serverUrl = true) (he : env.timeline = Response.ok (some tl))
    (hst : tl.state ≠ some "stopped") (h : trackChanged s tl = false) :
    (pollTimeline plex env now s).currentTrack = s.currentTrack ∧
      (pollTimeline plex env now s).currentRating = s.currentRating ∧
      (pollTimeline plex env now s).userSetRatings = s.userSetRatings := by
  have h0 : trackChanged s.getNextCommandID.1 tl = false :=
    (trackChanged_congr s _ tl rfl).trans h
  rw [pollTimeline_active plex env now s tl ht hs he hst,
    updateFromTimeline_same_track plex env now _ tl h0]
  obtain ⟨h1, h2, h3, _⟩ := applyTimeline_frame now tl s.getNextCommandID.1
  exact ⟨h1, h2, h3⟩

theorem pollRun_same_track (plex : PlexConnection) (ht : truthy plex.token = true)
    (hs : truthy plex.serverUrl = true) (K : Option String) (polls : List (Remote × Int)) :
    ∀ (s : StateManager) (tr : Track), s.currentTrack = some tr → tr.metadata.ratingKey = K →
      (∀ e ∈ polls, reportsTrack K e.1 = true) →
      (pollRun plex polls s).currentTrack = s.currentTrack ∧
        (pollRun plex polls s).currentRating = s.currentRating ∧
        (pollRun plex polls s).userSetRatings = s.userSetRatings := by
  induction polls with
  | nil => intro s tr _ _ _; exact ⟨rfl, rfl, rfl⟩
  | cons e rest ih =>
    intro s tr htr hK hall
    obtain ⟨env, now⟩ := e
    have he := hall (env, now) (List.mem_cons_self _ _)
    simp only [reportsTrack] at he
    split at he
    · rename_i tl htl
      simp only [Bool.and_eq_true, beq_iff_eq, bne_iff_ne, ne_eq] at he
      have hsame : trackChanged s tl = false := by
        simp [trackChanged, htr, hK, he.1]
      obtain ⟨h1, h2, h3⟩ := pollTimeline_same_track plex env now s tl ht hs htl he.2 hsame
      obtain ⟨g1, g2, g3⟩ := ih (pollTimeline plex env now s) tr (h1.trans htr) hK
        (fun e' he' => hall e' (List.mem_cons_of_mem _ he'))
      show (pollRun plex rest (pollTimeline plex env now s)).currentTrack = _ ∧
        (pollRun plex rest (pollTimeline plex env now s)).currentRating = _ ∧
        (pollRun plex rest (pollTimeline plex env now s)).userSetRatings = _
      exact ⟨g1.trans h1, g2.trans h2, g3.trans h3⟩
    · exact absurd he (by simp)

theorem updateFromTimeline_changed (plex : PlexConnection) (env : Remote) (now : Int)
    (s : StateManager) (tl : Timeline) (h : trackChanged s tl = true) :
    updateFromTimeline plex env now (some tl) s =
      loadTrackData plex env tl (applyTimeline now tl s) := by
  have h6 := (trackChanged_congr s _ tl (applyTimeline_frame now tl s).1).trans h
  simp [updateFromTimeline, h6]

theorem loadTrackData_currentTrack (plex : PlexConnection) (env : Remote) (tl : Timeline)
    (s : StateManager) (md : Metadata) (hk : truthy tl.ratingKey = true)
    (hf : plex.fetchMetadata env.metadata = Response.ok (some md)) :
    (loadTrackData plex env tl s).currentTrack = some ⟨md, tl.machineIdentifier⟩ := by
  unfold loadTrackData
  simp only [hk, hf, Bool.not_true, Bool.false_eq_true, if_false]
  have h1 : (s.updateTrack ⟨md, tl.machineIdentifier⟩).currentTrack =
      some ⟨md, tl.machineIdentifier⟩ := by
    unfold StateManager.updateTrack
    split <;> rfl
  have h2 : (applyRatingCache md (s.updateTrack ⟨md, tl.machineIdentifier⟩)).currentTrack =
      some ⟨md, tl.machineIdentifier⟩ := by
    rw [applyRatingCache_currentTrack]
    exact h1
  split <;> split <;> simp [loadAlbumArt_currentTrack, h2]

theorem fetchMetadata_ok (plex : PlexConnection) (resp : Response (Option Metadata))
    (ht : truthy plex.token = true) (hs : truthy plex.serverUrl = true) :
    plex.fetchMetadata resp = resp := by
  simp [PlexConnection.fetchMetadata, ht, hs]

/-! ## C2: rating convergence over polls -/

/-- C2 as stated fails: track `"42"` is the stored track, rating 8 is pending for it
and shown, the server's rating has become 8, and the poll of track `"42"` still
leaves the pending entry in place (it starts no metadata fetch). -/
theorem C2_counterexample :
    sampleCurrent.getUserRating (some "42") = some 8 ∧
      orElse (sampleMetadata (some 8)).userRating 0 = 8 ∧
      reportsTrack (some "42") (sampleRemote (some 8)) = true ∧
      (pollTimeline samplePlex (sampleRemote (some 8)) 1001000 sampleCurrent).getUserRating
        (some "42") = some 8 := by
  decide

/-- C2, amended: (1) while track `K` is the stored track with rating `P` pending and
shown, every run of polls of `K` leaves `currentRating = P` and the pending entry
in place, whatever rating the server reports; (2) a poll of `K` that loads the
metadata of `K` (no stored track, or a stored track with another key) with server
rating `P` removes the pending entry and shows `P`, and the entry stays absent,
with `currentRating = P`, on every subsequent identical poll. -/
theorem C2_rating_convergence_amended (plex : PlexConnection)
    (ht : truthy plex.token = true) (hs : truthy plex.serverUrl = true)
    (K : Option String) (P : Int) :
    (∀ (s : StateManager) (tr : Track) (polls : List (Remote × Int)),
        s.currentTrack = some tr → tr.metadata.ratingKey = K →
        s.getUserRating K = some P → s.currentRating = P →
        (∀ e ∈ polls, reportsTrack K e.1 = true) →
        (pollRun plex polls s).currentRating = P ∧
          (pollRun plex polls s).getUserRating K = some P) ∧
      (∀ (s : StateManager) (env : Remote) (now : Int) (tl : Timeline) (md : Metadata)
          (times : List Int),
        env.timeline = Response.ok (some tl) → tl.ratingKey = K → truthy K = true →
        tl.state ≠ some "stopped" → trackChanged s tl = true →
        env.metadata = Response.ok (some md) → md.ratingKey = K →
        s.getUserRating K = some P → orElse md.userRating 0 = P →
        (pollTimeline plex env now s).getUserRating K = none ∧
          (pollTimeline plex env now s).currentRating = P ∧
          (pollRun plex (times.map fun t => (env, t))
            (pollTimeline plex env now s)).getUserRating K = none ∧
          (pollRun plex (times.map fun t => (env, t))
            (pollTimeline plex env now s)).currentRating = P) := by
  constructor
  · intro s tr polls htr hK hP hR hall
    obtain ⟨_, h2, h3⟩ := pollRun_same_track plex ht hs K polls s tr htr hK hall
    refine ⟨h2.trans hR, ?_⟩
    rw [StateManager.getUserRating, h3]
    exact hP
  · intro s env now tl md times he hK hKt hst hch hmd hmdK hP hS
    have hch0 : trackChanged s.getNextCommandID.1 tl = true := by
      simpa [trackChanged, StateManager.getNextCommandID] using hch
    obtain ⟨s', heq, hu⟩ : ∃ s' : StateManager,
        updateFromTimeline plex env now (some tl) s.getNextCommandID.1 =
          loadTrackData plex env tl s' ∧ s'.userSetRatings = s.userSetRatings :=
      ⟨_, updateFromTimeline_changed plex env now s.getNextCommandID.1 tl hch0,
        (applyTimeline_frame now tl s.getNextCommandID.1).2.2.1⟩
    have hk : truthy tl.ratingKey = true := by rw [hK]; exact hKt
    have hf : plex.fetchMetadata env.metadata = Response.ok (some md) := by
      rw [fetchMetadata_ok plex _ ht hs, hmd]
    have hpoll : pollTimeline plex env now s = loadTrackData plex env tl s' := by
      rw [pollTimeline_active plex env now s tl ht hs he hst, heq]
    obtain ⟨hr, hur⟩ := loadTrackData_loaded plex env tl s' md hk hf
    have hP' : (s'.updateTrack ⟨md, tl.machineIdentifier⟩).getUserRating md.ratingKey =
        some P := by
      rw [StateManager.getUserRating, (updateTrack_rating s' _).2, hu, hmdK]
      exact hP
    rw [applyRatingCache_converged _ _ _ hP' hS] at hr hur
    have hgone : (pollTimeline plex env now s).getUserRating K = none := by
      rw [hpoll, StateManager.getUserRating, hur, ← hmdK]
      exact objGet_objDelete_self _ _
    have hrate : (pollTimeline plex env now s).currentRating = P := by
      rw [hpoll, hr]
    have htrack : (pollTimeline plex env now s).currentTrack =
        some ⟨md, tl.machineIdentifier⟩ := by
      rw [hpoll]
      exact loadTrackData_currentTrack plex env tl s' md hk hf
    have hall : ∀ e ∈ times.map (fun t => (env, t)), reportsTrack K e.1 = true := by
      intro e hmem
      obtain ⟨t, _, rfl⟩ := List.mem_map.mp hmem
      simp [reportsTrack, he, hK, hst]
    obtain ⟨_, g2, g3⟩ := pollRun_same_track plex ht hs K _ _ _ htrack hmdK hall
    refine ⟨hgone, hrate, ?_, g2.trans hrate⟩
    rw [StateManager.getUserRating, g3]
    exact hgone

/-- C2, amended, at concrete inputs: two polls of the stored track `"42"` (server
rating 6, then 8) keep the pending 8; a poll that loads track `"42"` with server
rating 8 removes the entry, and three more identical polls keep it absent. -/
theorem C2_rating_convergence_amended_witness :
    ((pollRun samplePlex [(sampleRemote (some 6), 1001000), (sampleRemote (some 8), 1002000)]
          sampleCurrent).currentRating = 8 ∧
        (pollRun samplePlex [(sampleRemote (some 6), 1001000), (sampleRemote (some 8), 1002000)]
          sampleCurrent).getUserRating (some "42") = some 8) ∧
      ((pollTimeline samplePlex (sampleRemote (some 8)) 1001000 samplePending).getUserRating
          (some "42") = none ∧
        (pollTimeline samplePlex (sampleRemote (some 8)) 1001000 samplePending).currentRating = 8 ∧
        (pollRun samplePlex ([1002000, 1003000, 1004000].map fun t => (sampleRemote (some 8), t))
          (pollTimeline samplePlex (sampleRemote (some 8)) 1001000
            samplePending)).getUserRating (some "42") = none ∧
        (pollRun samplePlex ([1002000, 1003000, 1004000].map fun t => (sampleRemote (some 8), t))
          (pollTimeline samplePlex (sampleRemote (some 8)) 1001000
            samplePending)).currentRating = 8) :=
  ⟨(C2_rating_convergence_amended samplePlex (by decide) (by decide) (some "42") 8).1
      sampleCurrent ⟨sampleMetadata (some 6), some "player-1"⟩ _ (by decide) (by decide)
      (by decide) (by decide) (by decide),
    (C2_rating_convergence_amended samplePlex (by decide) (by decide) (some "42") 8).2
      samplePending (sampleRemote (some 8)) 1001000 sampleTimeline (sampleMetadata (some 8))
      [1002000, 1003000, 1004000] (by decide) (by decide) (by decide) (by decide) (by decide)
      (by decide) (by decide) (by decide) (by decide)⟩

/-! ## Volume: frame lemmas -/

theorem applyRatingCache_volume (md : Metadata) (s : StateManager) :
    (applyRatingCache md s).currentVolume = s.currentVolume ∧
      (applyRatingCache md s).lastVolumeCommandTime = s.lastVolumeCommandTime := by
  cases hc : s.getUserRating md.ratingKey with
  | none => rw [applyRatingCache_absent _ _ hc]; exact ⟨rfl, rfl⟩
  | some c =>
    by_cases hS : orElse md.userRating 0 = c
    · rw [applyRatingCache_converged _ _ _ hc hS]
      exact ⟨rfl, rfl⟩
    · rw [applyRatingCache_waiting _ _ _ hc hS]
      exact ⟨rfl, rfl⟩

theorem loadAlbumArt_volume (art : Response String) (color : String) (s : StateManager) :
    (loadAlbumArt art color s).currentVolume = s.currentVolume ∧
      (loadAlbumArt art color s).lastVolumeCommandTime = s.lastVolumeCommandTime := by
  cases art <;> simp [loadAlbumArt]

theorem updateTrack_volume (s : StateManager) (track : Track) :
    (s.updateTrack track).currentVolume = s.currentVolume ∧
      (s.updateTrack track).lastVolumeCommandTime = s.lastVolumeCommandTime := by
  unfold StateManager.updateTrack
  split <;> simp

theorem loadTrackData_volume (plex : PlexConnection) (env : Remote) (tl : Timeline)
    (s : StateManager) :
    (loadTrackData plex env tl s).currentVolume = s.currentVolume ∧
      (loadTrackData plex env tl s).lastVolumeCommandTime = s.lastVolumeCommandTime := by
  unfold loadTrackData
  split
  · exact ⟨rfl, rfl⟩
  · split
    · exact ⟨rfl, rfl⟩
    · exact ⟨rfl, rfl⟩
    · dsimp only
      split <;> split <;>
        simp [loadAlbumArt_volume, applyRatingCache_volume, updateTrack_volume]

theorem updateFromTimeline_volume (plex : PlexConnection) (env : Remote) (now : Int)
    (tl : Timeline) (s : StateManager) :
    (updateFromTimeline plex env now (some tl) s).currentVolume =
        (if now - s.lastVolumeCommandTime > 2000 then nullish tl.volume 50
          else s.currentVolume) ∧
      (updateFromTimeline plex env now (some tl) s).lastVolumeCommandTime =
        s.lastVolumeCommandTime := by
  cases h : trackChanged s tl with
  | false =>
    rw [updateFromTimeline_same_track plex env now s tl h]
    exact ⟨applyTimeline_volume now tl s, (applyTimeline_frame now tl s).2.2.2⟩
  | true =>
    rw [updateFromTimeline_changed plex env now s tl h,
      (loadTrackData_volume plex env tl _).1, (loadTrackData_volume plex env tl _).2]
    exact ⟨applyTimeline_volume now tl s, (applyTimeline_frame now tl s).2.2.2⟩

theorem handleNoSession_volume (s : StateManager) :
    (handleNoSession s).currentVolume = s.currentVolume ∧
      (handleNoSession s).lastVolumeCommandTime = s.lastVolumeCommandTime := by
  unfold handleNoSession
  split <;> exact ⟨rfl, rfl⟩

theorem fetchTimeline_volume (plex : PlexConnection) (resp : Response (Option Timeline))
    (s : StateManager) :
    (plex.fetchTimeline resp s).1.currentVolume = s.currentVolume ∧
      (plex.fetchTimeline resp s).1.lastVolumeCommandTime = s.lastVolumeCommandTime := by
  unfold PlexConnection.fetchTimeline
  split
  · exact ⟨rfl, rfl⟩
  · cases resp <;> exact ⟨rfl, rfl⟩

theorem pollTimeline_volume_guarded (plex : PlexConnection) (env : Remote) (now : Int)
    (s : StateManager) (hg : now - s.lastVolumeCommandTime ≤ 2000) :
    (pollTimeline plex env now s).currentVolume = s.currentVolume := by
  obtain ⟨h1, h2⟩ := fetchTimeline_volume plex env.timeline s
  unfold pollTimeline
  split
  · rename_i s1 timeline heq
    rw [heq] at h1 h2
    simp only at h1 h2
    split
    · rw [(updateFromTimeline_volume plex env now timeline s1).1, h2, if_neg (by omega), h1]
    · rw [(handleNoSession_volume s1).1, h1]
  · rename_i s1 heq
    rw [heq] at h1
    simp only at h1
    rw [(handleNoSession_volume s1).1, h1]

/-! ## `setVolume`: outcome of the command and final state -/

theorem playerCommand_outcome (plex : PlexConnection) (loc server : Response Unit)
    (s s' : StateManager) (h : s'.currentTrack = s.currentTrack) :
    (plex.playerCommand loc server s').2 = (plex.playerCommand loc server s).2 := by
  cases loc <;>
    simp [PlexConnection.playerCommand, PlexConnection.serverCommand, getClientId,
      StateManager.getNextCommandID, h]

theorem setVolume_failed (plex : PlexConnection) (loc server : Response Unit) (now level : Int)
    (s : StateManager) (h : (plex.playerCommand loc server s).2 = Response.failed) :
    (setVolume plex loc server now level s).currentVolume = s.currentVolume ∧
      (setVolume plex loc server now level s).lastVolumeCommandTime = 0 := by
  have h' := (playerCommand_outcome plex loc server s
    { s with currentVolume := clamp level VOLUME_MIN VOLUME_MAX, lastVolumeCommandTime := now }
    rfl).trans h
  unfold setVolume
  simp only
  split
  · rename_i heq
    rw [heq] at h'
    exact absurd h' (by simp)
  · exact ⟨rfl, rfl⟩

theorem setVolume_ok (plex : PlexConnection) (loc server : Response Unit) (now level : Int)
    (s : StateManager) (h : (plex.playerCommand loc server s).2 = Response.ok ()) :
    (setVolume plex loc server now level s).currentVolume = clamp level VOLUME_MIN VOLUME_MAX ∧
      (setVolume plex loc server now level s).lastVolumeCommandTime = now := by
  have h' := (playerCommand_outcome plex loc server s
    { s with currentVolume := clamp level VOLUME_MIN VOLUME_MAX, lastVolumeCommandTime := now }
    rfl).trans h
  have hfst : (plex.playerCommand loc server
      { s with currentVolume := clamp level VOLUME_MIN VOLUME_MAX,
               lastVolumeCommandTime := now }).1 =
      ({ s with currentVolume := clamp level VOLUME_MIN VOLUME_MAX,
                lastVolumeCommandTime := now } : StateManager).getNextCommandID.1 := by
    cases loc <;> rfl
  unfold setVolume
  simp only
  split
  · rename_i s2 r heq
    rw [heq] at hfst
    simp only at hfst
    rw [hfst]
    exact ⟨rfl, rfl⟩
  · rename_i heq
    rw [heq] at h'
    exact absurd h' (by simp)

theorem clamp_volume_id (V : Int) (h0 : 0 ≤ V) (h1 : V ≤ 100) :
    clamp V VOLUME_MIN VOLUME_MAX = V := by
  simp only [clamp, VOLUME_MIN, VOLUME_MAX]
  omega

/-! ## C3: volume guard -/

/-- C3: `updateFromTimeline` at time `now` with a snapshot reporting volume `V'`
sets `currentVolume` to `V'` exactly when `now - lastVolumeCommandTime > 2000`, and
otherwise leaves it unchanged. Hence after a successful `setVolume(V)` at time `t`,
any poll at a time `≤ t + 2000` leaves `currentVolume` at the commanded value
(`clamp(V, 0, 100)`, which is `V` for `0 ≤ V ≤ 100`), and a poll at a time
`> t + 2000` sets `currentVolume` to the volume it reports. -/
theorem C3_volume_guard (plex : PlexConnection) :
    (∀ (env : Remote) (now : Int) (tl : Timeline) (s : StateManager) (V' : Int),
        tl.volume = some V' →
        (updateFromTimeline plex env now (some tl) s).currentVolume =
          if now - s.lastVolumeCommandTime > 2000 then V' else s.currentVolume) ∧
      (∀ (loc server : Response Unit) (t V : Int) (s0 : StateManager) (env : Remote)
          (now : Int),
        (plex.playerCommand loc server s0).2 = Response.ok () → now ≤ t + 2000 →
        (pollTimeline plex env now (setVolume plex loc server t V s0)).currentVolume =
            clamp V VOLUME_MIN VOLUME_MAX ∧
          (0 ≤ V → V ≤ 100 →
            (pollTimeline plex env now (setVolume plex loc server t V s0)).currentVolume = V)) ∧
      (∀ (loc server : Response Unit) (t V : Int) (s0 : StateManager) (env : Remote)
          (now : Int) (tl : Timeline) (V' : Int),
        (plex.playerCommand loc server s0).2 = Response.ok () →
        truthy plex.token = true → truthy plex.serverUrl = true →
        env.timeline = Response.ok (some tl) → tl.state ≠ some "stopped" →
        tl.volume = some V' → now > t + 2000 →
        (pollTimeline plex env now (setVolume plex loc server t V s0)).currentVolume = V') := by
  refine ⟨?_, ?_, ?_⟩
  · intro env now tl s V' hV
    rw [(updateFromTimeline_volume plex env now tl s).1, hV]
    rfl
  · intro loc server t V s0 env now hok hnow
    obtain ⟨hv, hc⟩ := setVolume_ok plex loc server t V s0 hok
    have hp := pollTimeline_volume_guarded plex env now (setVolume plex loc server t V s0)
      (by rw [hc]; omega)
    refine ⟨hp.trans hv, fun h0 h1 => ?_⟩
    rw [hp, hv, clamp_volume_id V h0 h1]
  · intro loc server t V s0 env now tl V' hok ht hs he hst hV hnow
    obtain ⟨_, hc⟩ := setVolume_ok plex loc server t V s0 hok
    rw [pollTimeline_active plex env now _ tl ht hs he hst,
      (updateFromTimeline_volume plex env now tl _).1, hV]
    have hc' : (setVolume plex loc server t V s0).getNextCommandID.1.lastVolumeCommandTime = t :=
      hc
    rw [hc', if_pos (by omega)]
    rfl

/-- C3 at concrete inputs: volume 80 commanded at time 1000000; a poll reporting 30
at 1001500 leaves 80, a poll reporting 30 at 1002001 sets 30. -/
theorem C3_volume_guard_witness :
    (samplePlex.playerCommand (Response.ok ()) Response.failed sampleCurrent).2 =
        Response.ok () ∧
      (pollTimeline samplePlex (sampleRemote none) 1001500
        (setVolume samplePlex (Response.ok ()) Response.failed 1000000 80
          sampleCurrent)).currentVolume = 80 ∧
      (pollTimeline samplePlex (sampleRemote none) 1002001
        (setVolume samplePlex (Response.ok ()) Response.failed 1000000 80
          sampleCurrent)).currentVolume = 30 :=
  ⟨by decide,
    ((C3_volume_guard samplePlex).2.1 (Response.ok ()) Response.failed 1000000 80 sampleCurrent
      (sampleRemote none) 1001500 (by decide) (by decide)).2 (by decide) (by decide),
    (C3_volume_guard samplePlex).2.2 (Response.ok ()) Response.failed 1000000 80 sampleCurrent
      (sampleRemote none) 1002001 sampleTimeline 30 (by decide) (by decide) (by decide)
      (by decide) (by decide) (by decide) (by decide)⟩

/-! ## C4: volume rollback -/

/-- C4: for every requested level and every prior state, if the command dispatched
by `setVolume(level)` fails (the local request and the server fallback both fail),
then on return `currentVolume` has its value from before the call and
`lastVolumeCommandTime = 0`; if it succeeds, `currentVolume = clamp(level, 0, 100)`
and `lastVolumeCommandTime` is the time of the call. -/
theorem C4_volume_rollback (plex : PlexConnection) (loc server : Response Unit)
    (now level : Int) (s : StateManager) :
    ((plex.playerCommand loc server s).2 = Response.failed →
        (setVolume plex loc server now level s).currentVolume = s.currentVolume ∧
          (setVolume plex loc server now level s).lastVolumeCommandTime = 0) ∧
      ((plex.playerCommand loc server s).2 = Response.ok () →
        (setVolume plex loc server now level s).currentVolume =
            clamp level VOLUME_MIN VOLUME_MAX ∧
          (setVolume plex loc server now level s).lastVolumeCommandTime = now) :=
  ⟨setVolume_failed plex loc server now level s, setVolume_ok plex loc server now level s⟩

/-- C4 at concrete inputs: level 130 requested at time 1000000 from volume 50; a
failed command restores 50 and drops the guard, a successful one leaves 100. -/
theorem C4_volume_rollback_witness :
    ((samplePlex.playerCommand Response.failed Response.failed sampleCurrent).2 =
        Response.failed ∧
      (setVolume samplePlex Response.failed Response.failed 1000000 130
        sampleCurrent).currentVolume = 50 ∧
      (setVolume samplePlex Response.failed Response.failed 1000000 130
        sampleCurrent).lastVolumeCommandTime = 0) ∧
    ((samplePlex.playerCommand Response.failed (Response.ok ()) sampleCurrent).2 =
        Response.ok () ∧
      (setVolume samplePlex Response.failed (Response.ok ()) 1000000 130
        sampleCurrent).currentVolume = 100 ∧
      (setVolume samplePlex Response.failed (Response.ok ()) 1000000 130
        sampleCurrent).lastVolumeCommandTime = 1000000) :=
  ⟨⟨by decide,
      (C4_volume_rollback samplePlex Response.failed Response.failed 1000000 130
        sampleCurrent).1 (by decide)⟩,
    ⟨by decide,
      (C4_volume_rollback samplePlex Response.failed (Response.ok ()) 1000000 130
        sampleCurrent).2 (by decide)⟩⟩

/-! ## C5: position interpolation -/

theorem updateDisplayPosition_playing (now : Int) (s : StateManager)
    (hp : s.playbackState = "playing") (ht : 0 < s.lastPositionTimestamp) :
    (updateDisplayPosition now s).currentPosition =
        min (s.currentPosition + (now - s.lastPositionTimestamp) + nullish s.syncOffset 0)
          s.trackDuration ∧
      (updateDisplayPosition now s).lastPositionTimestamp = now ∧
      (updateDisplayPosition now s).playbackState = "playing" ∧
      (updateDisplayPosition now s).trackDuration = s.trackDuration ∧
      (updateDisplayPosition now s).syncOffset = s.syncOffset := by
  unfold updateDisplayPosition
  simp only [hp, gt_iff_lt, ht, and_self, if_true]

theorem updateDisplayPosition_not_playing (now : Int) (s : StateManager)
    (hp : s.playbackState ≠ "playing") :
    (updateDisplayPosition now s).currentPosition = s.currentPosition ∧
      (updateDisplayPosition now s).playbackState = s.playbackState := by
  unfold updateDisplayPosition
  simp only [hp, false_and, if_false, and_self]

theorem renderTicks_not_playing (ticks : List Int) :
    ∀ s : StateManager, s.playbackState ≠ "playing" →
      (renderTicks ticks s).currentPosition = s.currentPosition := by
  induction ticks with
  | nil => intro s _; rfl
  | cons t rest ih =>
    intro s hp
    obtain ⟨h1, h2⟩ := updateDisplayPosition_not_playing t s hp
    show (renderTicks rest (updateDisplayPosition t s)).currentPosition = _
    rw [ih _ (by rw [h2]; exact hp), h1]

theorem renderTicks_playing (ticks : List Int) :
    ∀ (hne : ticks ≠ []) (s : StateManager), s.playbackState = "playing" →
      0 < s.lastPositionTimestamp → nullish s.syncOffset 0 = 0 →
      (s.lastPositionTimestamp :: ticks).Sorted (· ≤ ·) →
      (renderTicks ticks s).currentPosition =
        min (s.currentPosition + (ticks.getLast hne - s.lastPositionTimestamp))
          s.trackDuration := by
  induction ticks with
  | nil => intro hne; exact absurd rfl hne
  | cons t rest ih =>
    intro _ s hp ht ho hsort
    obtain ⟨h1, h2, h3, h4, h5⟩ := updateDisplayPosition_playing t s hp ht
    rw [ho, add_zero] at h1
    have hle : s.lastPositionTimestamp ≤ t :=
      List.rel_of_sorted_cons hsort t (List.mem_cons_self _ _)
    have hsort' : (t :: rest).Sorted (· ≤ ·) := List.Sorted.of_cons hsort
    cases rest with
    | nil => exact h1
    | cons t2 r =>
      have hne' : t2 :: r ≠ [] := List.cons_ne_nil _ _
      have hlast : t ≤ (t2 :: r).getLast hne' :=
        List.rel_of_sorted_cons hsort' _ (List.getLast_mem hne')
      have key := ih hne' (updateDisplayPosition t s) h3 (by rw [h2]; omega)
        (by rw [h5]; exact ho) (by rw [h2]; exact hsort')
      show (renderTicks (t2 :: r) (updateDisplayPosition t s)).currentPosition = _
      rw [key, h1, h2, h4, List.getLast_cons hne']
      omega

/-- C5 as stated fails: with `syncOffset = 500`, playing from `p0 = 4000` at
`t0 = 1000000` with duration 180000, one tick at `t0 + 200` gives 4700 and two ticks
(at `t0 + 100` and `t0 + 200`) give 5200, not `min(p0 + 200, D) = 4200`. -/
theorem C5_counterexample :
    sampleOffset.playbackState = "playing" ∧ sampleOffset.currentPosition = 4000 ∧
      sampleOffset.lastPositionTimestamp = 1000000 ∧ sampleOffset.trackDuration = 180000 ∧
      (renderTicks [1000200] sampleOffset).currentPosition = 4700 ∧
      (renderTicks [1000100, 1000200] sampleOffset).currentPosition = 5200 ∧
      min (4000 + 200 : Int) 180000 = 4200 := by
  decide

/-- C5, amended: with `playbackState = 'playing'`, `currentPosition = p0` made
authoritative at timestamp `t0 > 0`, `trackDuration = D` and `syncOffset` unset or
0, after one or more render ticks at non-decreasing times from `t0` on, the last
at `t0 + Δt`, `currentPosition = min(p0 + Δt, D)` whatever the number of ticks;
with `playbackState = 'paused'`, `currentPosition` stays exactly `p0` after any
number of ticks, whatever the `syncOffset`. -/
theorem C5_position_interpolation_amended (s : StateManager) :
    (∀ (ticks : List Int) (hne : ticks ≠ []), s.playbackState = "playing" →
        0 < s.lastPositionTimestamp → nullish s.syncOffset 0 = 0 →
        (s.lastPositionTimestamp :: ticks).Sorted (· ≤ ·) →
        (renderTicks ticks s).currentPosition =
          min (s.currentPosition + (ticks.getLast hne - s.lastPositionTimestamp))
            s.trackDuration) ∧
      (∀ ticks : List Int, s.playbackState = "paused" →
        (renderTicks ticks s).currentPosition = s.currentPosition) :=
  ⟨fun ticks hne => renderTicks_playing ticks hne s,
    fun ticks hp => renderTicks_not_playing ticks s (by rw [hp]; decide)⟩

/-- C5, amended, at concrete inputs: playing from 4000 at 1000000, three ticks, the
last at 1000600, give 4600; paused, the position stays 4000. -/
theorem C5_position_interpolation_amended_witness :
    (renderTicks [1000200, 1000400, 1000600] sampleCurrent).currentPosition = 4600 ∧
      (renderTicks [1000200, 1000400, 1000600]
        { sampleOffset with playbackState := "paused" }).currentPosition = 4000 :=
  ⟨(C5_position_interpolation_amended sampleCurrent).1 [1000200, 1000400, 1000600]
      (by decide) (by decide) (by decide) (by decide) (by decide),
    (C5_position_interpolation_amended { sampleOffset with playbackState := "paused" }).2
      [1000200, 1000400, 1000600] (by decide)⟩

/-! ## C6, C7: session clear -/

theorem sessionActive_of_track (s : StateManager) (h : s.currentTrack ≠ none) :
    sessionActive s = true := by
  cases hc : s.currentTrack with
  | none => exact absurd hc h
  | some t => simp [sessionActive, hc]

theorem sessionActive_clearTrack (s : StateManager) : sessionActive s.clearTrack = false := by
  simp [sessionActive, StateManager.clearTrack]

theorem handleNoSession_inactive (s : StateManager) (h : sessionActive s = false) :
    handleNoSession s = s := by
  simp [handleNoSession, h]

theorem handleNoSession_active (s : StateManager) (h : sessionActive s = true) :
    handleNoSession s = s.clearTrack := by
  simp [handleNoSession, h]

theorem fetchTimeline_currentTrack (plex : PlexConnection) (resp : Response (Option Timeline))
    (s : StateManager) :
    (plex.fetchTimeline resp s).1.currentTrack = s.currentTrack ∧
      (plex.fetchTimeline resp s).1.playbackState = s.playbackState := by
  unfold PlexConnection.fetchTimeline
  split
  · exact ⟨rfl, rfl⟩
  · cases resp <;> exact ⟨rfl, rfl⟩

theorem sessionActive_fetchTimeline (plex : PlexConnection) (resp : Response (Option Timeline))
    (s : StateManager) : sessionActive (plex.fetchTimeline resp s).1 = sessionActive s := by
  obtain ⟨h1, h2⟩ := fetchTimeline_currentTrack plex resp s
  simp [sessionActive, h1, h2]

theorem pollTimeline_no_session (plex : PlexConnection) (env : Remote) (now : Int)
    (s : StateManager)
    (h : (plex.fetchTimeline env.timeline s).2 = none ∨
      ∃ tl, (plex.fetchTimeline env.timeline s).2 = some tl ∧ tl.state = some "stopped") :
    pollTimeline plex env now s = handleNoSession (plex.fetchTimeline env.timeline s).1 := by
  unfold pollTimeline
  split
  · rename_i s1 timeline heq
    rw [heq] at h
    rcases h with h | ⟨tl, h, hst⟩
    · exact absurd h (by simp)
    · simp only [Option.some.injEq] at h
      subst h
      simp [hst, heq]
  · rename_i s1 heq
    rw [heq]

theorem clearTrackCalls_inactive (n : Nat) :
    ∀ s : StateManager, sessionActive s = false → clearTrackCalls n s = 0 := by
  induction n with
  | zero => intro s _; rfl
  | succ k ih =>
    intro s h
    simp [clearTrackCalls, h, handleNoSession_inactive s h, ih s h]

/-- C6: for every state with a loaded track, a poll whose snapshot is absent or
reports state `'stopped'` ends with `currentTrack = null`, `playbackState =
'stopped'`, `currentPosition = 0`, `trackDuration = 0`, `currentRating = 0`, album
art and art path `null` and an empty pending-rating cache; the resulting state is
the one `clearTrack` produces in a single step from the state the poll found, so
the track is never null while an old pending rating is still cached. -/
theorem C6_session_clear (plex : PlexConnection) (env : Remote) (now : Int) (s : StateManager)
    (hloaded : s.currentTrack ≠ none)
    (hpoll : (plex.fetchTimeline env.timeline s).2 = none ∨
      ∃ tl, (plex.fetchTimeline env.timeline s).2 = some tl ∧ tl.state = some "stopped") :
    (pollTimeline plex env now s).currentTrack = none ∧
      (pollTimeline plex env now s).playbackState = "stopped" ∧
      (pollTimeline plex env now s).currentPosition = 0 ∧
      (pollTimeline plex env now s).trackDuration = 0 ∧
      (pollTimeline plex env now s).currentRating = 0 ∧
      (pollTimeline plex env now s).currentAlbumArt = none ∧
      (pollTimeline plex env now s).lastArtPath = none ∧
      (pollTimeline plex env now s).userSetRatings = [] ∧
      pollTimeline plex env now s = (plex.fetchTimeline env.timeline s).1.clearTrack := by
  have hact : sessionActive (plex.fetchTimeline env.timeline s).1 = true := by
    rw [sessionActive_fetchTimeline]
    exact sessionActive_of_track s hloaded
  rw [pollTimeline_no_session plex env now s hpoll, handleNoSession_active _ hact]
  exact ⟨rfl, rfl, rfl, rfl, rfl, rfl, rfl, rfl, rfl⟩

/-- C6 at concrete inputs: track `"42"` is loaded with a pending rating and the
player reports `'stopped'`. -/
theorem C6_session_clear_witness :
    sampleCurrent.currentTrack ≠ none ∧ sampleCurrent.userSetRatings = [("42", 8)] ∧
      (pollTimeline samplePlex sampleStopped 1001000 sampleCurrent).currentTrack = none ∧
      (pollTimeline samplePlex sampleStopped 1001000 sampleCurrent).playbackState = "stopped" ∧
      (pollTimeline samplePlex sampleStopped 1001000 sampleCurrent).userSetRatings = [] :=
  ⟨by decide, by decide,
    (C6_session_clear samplePlex sampleStopped 1001000 sampleCurrent (by decide)
      (Or.inr ⟨{ sampleTimeline with state := some "stopped" }, by decide, by decide⟩)).1,
    (C6_session_clear samplePlex sampleStopped 1001000 sampleCurrent (by decide)
      (Or.inr ⟨{ sampleTimeline with state := some "stopped" }, by decide, by decide⟩)).2.1,
    (C6_session_clear samplePlex sampleStopped 1001000 sampleCurrent (by decide)
      (Or.inr ⟨{ sampleTimeline with state := some "stopped" }, by decide, by decide⟩)).2.2.2.2.2.2.2.1⟩

/-- C7: `handleNoSession` is idempotent; on a state that is already cleared
(`currentTrack = null` and `playbackState = 'stopped'`) its guard is false, so it
does not invoke `clearTrack` and changes nothing; and any number of consecutive
`handleNoSession` calls invokes `clearTrack` at most once. -/
theorem C7_clear_idempotent_once :
    (∀ s : StateManager, handleNoSession (handleNoSession s) = handleNoSession s) ∧
      (∀ s : StateManager, s.currentTrack = none → s.playbackState = "stopped" →
        sessionActive s = false ∧ handleNoSession s = s) ∧
      (∀ (n : Nat) (s : StateManager), clearTrackCalls n s ≤ 1) := by
  refine ⟨?_, ?_, ?_⟩
  · intro s
    cases h : sessionActive s with
    | false => rw [handleNoSession_inactive s h, handleNoSession_inactive s h]
    | true =>
      rw [handleNoSession_active s h, handleNoSession_inactive _ (sessionActive_clearTrack s)]
  · intro s ht hp
    have h : sessionActive s = false := by simp [sessionActive, ht, hp]
    exact ⟨h, handleNoSession_inactive s h⟩
  · intro n s
    cases n with
    | zero => simp [clearTrackCalls]
    | succ k =>
      cases h : sessionActive s with
      | false => rw [clearTrackCalls_inactive _ s h]; omega
      | true =>
        simp only [clearTrackCalls, h, if_true, handleNoSession_active s h]
        rw [clearTrackCalls_inactive k _ (sessionActive_clearTrack s)]

/-- C7 at concrete inputs: the cleared initial state is left unchanged, and five
consecutive empty polls of a loaded session invoke `clearTrack` once. -/
theorem C7_clear_idempotent_once_witness :
    (sessionActive StateManager.reset = false ∧
        handleNoSession StateManager.reset = StateManager.reset) ∧
      clearTrackCalls 5 sampleCurrent ≤ 1 ∧ clearTrackCalls 5 sampleCurrent = 1 :=
  ⟨C7_clear_idempotent_once.2.1 StateManager.reset (by decide) (by decide),
    C7_clear_idempotent_once.2.2 5 sampleCurrent, by decide⟩

/-! ## C8: a failed snapshot query -/

theorem fetchTimeline_failed (plex : PlexConnection) (s : StateManager) :
    (plex.fetchTimeline Response.failed s).2 = none := by
  unfold PlexConnection.fetchTimeline
  split <;> rfl

theorem fetchTimeline_session_fields (plex : PlexConnection) (resp : Response (Option Timeline))
    (s : StateManager) :
    (plex.fetchTimeline resp s).1 = s ∨
      (plex.fetchTimeline resp s).1 = { s with localCommandID := s.localCommandID + 1 } := by
  unfold PlexConnection.fetchTimeline
  split
  · exact Or.inl rfl
  · cases resp <;> exact Or.inr rfl

/-- C8 as stated fails: track `"42"` is loaded and playing with a pending rating, the
timeline request of the poll fails, and the poll clears the track, the playback
state, the position, the duration, the rating and the pending-rating cache. -/
theorem C8_counterexample :
    sampleFailed.timeline = Response.failed ∧
      sampleCurrent.currentTrack ≠ none ∧
      (pollTimeline samplePlex sampleFailed 1001000 sampleCurrent).currentTrack = none ∧
      sampleCurrent.playbackState = "playing" ∧
      (pollTimeline samplePlex sampleFailed 1001000 sampleCurrent).playbackState = "stopped" ∧
      sampleCurrent.currentPosition = 4000 ∧
      (pollTimeline samplePlex sampleFailed 1001000 sampleCurrent).currentPosition = 0 ∧
      sampleCurrent.currentRating = 8 ∧
      (pollTimeline samplePlex sampleFailed 1001000 sampleCurrent).currentRating = 0 ∧
      sampleCurrent.userSetRatings = [("42", 8)] ∧
      (pollTimeline samplePlex sampleFailed 1001000 sampleCurrent).userSetRatings = [] := by
  decide

/-- C8, amended: when the snapshot fetch of a poll fails, `fetchTimeline` yields
`null` and the poll is handled as a poll with no session: if the state is already
cleared (`currentTrack = null` and `playbackState = 'stopped'`), `currentTrack`,
`playbackState`, `currentPosition`, `trackDuration`, `currentRating`, album art and
the pending-rating cache are the same after `pollTimeline` as before it; otherwise
the session state is reset by `clearTrack`. -/
theorem C8_failed_fetch_amended (plex : PlexConnection) (env : Remote) (now : Int)
    (s : StateManager) (hfail : env.timeline = Response.failed) :
    pollTimeline plex env now s = handleNoSession (plex.fetchTimeline env.timeline s).1 ∧
      (s.currentTrack = none → s.playbackState = "stopped" →
        (pollTimeline plex env now s).currentTrack = s.currentTrack ∧
          (pollTimeline plex env now s).playbackState = s.playbackState ∧
          (pollTimeline plex env now s).currentPosition = s.currentPosition ∧
          (pollTimeline plex env now s).trackDuration = s.trackDuration ∧
          (pollTimeline plex env now s).currentRating = s.currentRating ∧
          (pollTimeline plex env now s).currentAlbumArt = s.currentAlbumArt ∧
          (pollTimeline plex env now s).userSetRatings = s.userSetRatings) ∧
      (sessionActive s = true →
        pollTimeline plex env now s = (plex.fetchTimeline env.timeline s).1.clearTrack) := by
  have hnone : (plex.fetchTimeline env.timeline s).2 = none := by
    rw [hfail]
    exact fetchTimeline_failed plex s
  have hpoll := pollTimeline_no_session plex env now s (Or.inl hnone)
  refine ⟨hpoll, ?_, ?_⟩
  · intro ht hp
    have hin : sessionActive (plex.fetchTimeline env.timeline s).1 = false := by
      rw [sessionActive_fetchTimeline]
      simp [sessionActive, ht, hp]
    rw [hpoll, handleNoSession_inactive _ hin]
    rcases fetchTimeline_session_fields plex env.timeline s with h | h <;> rw [h] <;>
      exact ⟨rfl, rfl, rfl, rfl, rfl, rfl, rfl⟩
  · intro hact
    rw [hpoll, handleNoSession_active _ (by rw [sessionActive_fetchTimeline]; exact hact)]

/-- C8, amended, at concrete inputs: a failed fetch leaves the cleared initial state's
session fields as they are, and resets a loaded session by `clearTrack`. -/
theorem C8_failed_fetch_amended_witness :
    sampleFailed.timeline = Response.failed ∧
      (pollTimeline samplePlex sampleFailed 1001000 StateManager.reset).currentRating = 0 ∧
      (pollTimeline samplePlex sampleFailed 1001000 StateManager.reset).userSetRatings = [] ∧
      pollTimeline samplePlex sampleFailed 1001000 sampleCurrent =
        (samplePlex.fetchTimeline sampleFailed.timeline sampleCurrent).1.clearTrack :=
  ⟨by decide,
    ((C8_failed_fetch_amended samplePlex sampleFailed 1001000 StateManager.reset
      (by decide)).2.1 (by decide) (by decide)).2.2.2.2.1,
    ((C8_failed_fetch_amended samplePlex sampleFailed 1001000 StateManager.reset
      (by decide)).2.1 (by decide) (by decide)).2.2.2.2.2.2,
    (C8_failed_fetch_amended samplePlex sampleFailed 1001000 sampleCurrent
      (by decide)).2.2 (by decide)⟩

/-! ## Transport: one reconnect timer -/

theorem scheduleReconnect_pending (h : Host) (hp : h.manager.reconnectTimer.isSome = true) :
    scheduleReconnect h = h := by
  simp [scheduleReconnect, hp]

theorem scheduleReconnect_consistent (h : Host) (hc : timerConsistent h) :
    timerConsistent (scheduleReconnect h) := by
  unfold scheduleReconnect
  split
  · exact hc
  · rename_i hg
    simp only [Bool.or_eq_true, not_or, Bool.not_eq_true, Option.not_isSome,
      Option.isNone_iff_eq_none] at hg
    unfold timerConsistent at hc ⊢
    rw [hg.2] at hc
    simp only [Option.toList, List.map_eq_nil_iff] at hc
    simp [hc]

theorem send_frame (data : Message) (h : Host) :
    (send data h).1.manager = h.manager ∧ (send data h).1.timers = h.timers := by
  unfold send
  split <;> exact ⟨rfl, rfl⟩

theorem onopen_frame (h : Host) :
    (onopen h).manager = { h.manager with reconnectAttempts := 0 } ∧
      (onopen h).timers = h.timers := by
  unfold onopen
  simp only [send_frame, and_self]

theorem connect_consistent (port : Option Nat) (u r : Option String) (created : Bool)
    (h : Host) (hc : timerConsistent h) : timerConsistent (connect port u r created h) := by
  unfold connect
  cases created
  · exact scheduleReconnect_consistent _ hc
  · exact hc

theorem onclose_consistent (h : Host) (hc : timerConsistent h) :
    timerConsistent (onclose h) := by
  unfold onclose
  split
  · exact hc
  · exact scheduleReconnect_consistent _ hc

theorem reconnectCallback_consistent (created : Bool) (h : Host) (ht : h.timers = []) :
    timerConsistent (reconnectCallback created h) := by
  have h1 : timerConsistent { h with manager := { h.manager with reconnectTimer := none } } := by
    simp [timerConsistent, ht]
  unfold reconnectCallback
  dsimp only
  split
  · exact connect_consistent _ _ _ _ _ h1
  · exact h1

theorem timers_filter_of_consistent (h : Host) (hc : timerConsistent h) (id : Nat)
    (hany : h.timers.any (fun t => t.1 == id) = true) :
    h.timers.filter (fun t => t.1 != id) = [] := by
  unfold timerConsistent at hc
  cases ht : h.manager.reconnectTimer with
  | none =>
    rw [ht] at hc
    simp only [Option.toList, List.map_eq_nil_iff] at hc
    rw [hc] at hany
    simp at hany
  | some j =>
    rw [ht] at hc
    match htm : h.timers, hc with
    | [(a, d)], hc =>
      rw [htm] at hany
      simp only [List.any_cons, List.any_nil, Bool.or_false, beq_iff_eq] at hany
      simp [hany]

theorem close_consistent (h : Host) (hc : timerConsistent h) : timerConsistent (close h) := by
  have key : timerConsistent
      (match h.manager.reconnectTimer with
        | some id =>
          { h with
            timers := h.timers.filter (fun t => t.1 != id)
            manager := { h.manager with isIntentionalClose := true, reconnectTimer := none } }
        | none => { h with manager := { h.manager with isIntentionalClose := true } }) := by
    cases ht : h.manager.reconnectTimer with
    | none =>
      simp only [timerConsistent, ht] at hc ⊢
      exact hc
    | some id =>
      have hany : h.timers.any (fun t => t.1 == id) = true := by
        unfold timerConsistent at hc
        rw [ht] at hc
        match htm : h.timers, hc with
        | [(a, d)], hc =>
          simp only [List.map_cons, List.map_nil, Option.toList, List.cons.injEq, and_true] at hc
          simp [hc]
      simp [timerConsistent, timers_filter_of_consistent h hc id hany]
  unfold close
  dsimp only
  cases ht : h.manager.reconnectTimer with
  | none =>
    rw [ht] at key
    cases hw : h.manager.websocket <;> simpa [timerConsistent, ht] using key
  | some id =>
    rw [ht] at key
    cases hw : h.manager.websocket <;> simpa [timerConsistent] using key

theorem step_consistent (h : Host) (e : Event) (hc : timerConsistent h) :
    timerConsistent (step h e) := by
  cases e with
  | connect port u r created => exact connect_consistent port u r created h hc
  | socketOpen =>
    show timerConsistent (onopen _)
    unfold timerConsistent
    rw [(onopen_frame _).1, (onopen_frame _).2]
    exact hc
  | socketClose => exact onclose_consistent h hc
  | timeout id created =>
    unfold step
    dsimp only
    split
    · rename_i hany
      exact reconnectCallback_consistent created _ (timers_filter_of_consistent h hc id hany)
    · exact hc
  | close => exact close_consistent h hc
  | scheduleReconnect => exact scheduleReconnect_consistent h hc

theorem run_consistent (events : List Event) :
    ∀ h : Host, timerConsistent h → timerConsistent (run events h) := by
  induction events with
  | nil => intro h hc; exact hc
  | cons e rest ih => intro h hc; exact ih _ (step_consistent h e hc)

theorem timers_length_of_consistent (h : Host) (hc : timerConsistent h) :
    h.timers.length ≤ 1 := by
  unfold timerConsistent at hc
  have := congrArg List.length hc
  rw [List.length_map] at this
  rw [this]
  cases h.manager.reconnectTimer <;> simp [Option.toList]

/-! ## Transport: backoff -/

theorem onclose_idle (h : Host) (hi : h.manager.isIntentionalClose = false)
    (ht : h.manager.reconnectTimer = none) (hl : h.timers = []) :
    (step h Event.socketClose).manager.reconnectAttempts = h.manager.reconnectAttempts + 1 ∧
      (step h Event.socketClose).manager.isIntentionalClose = false ∧
      (step h Event.socketClose).manager.reconnectTimer = some h.nextTimer ∧
      (step h Event.socketClose).timers =
        [(h.nextTimer,
          min (RECONNECT_DELAY * 2 ^ h.manager.reconnectAttempts) RECONNECT_MAX_DELAY)] := by
  simp [step, onclose, scheduleReconnect, hi, ht, hl]

theorem firePending_scheduled (h : Host) (id d : Nat)
    (hi : h.manager.isIntentionalClose = false) (ht : h.manager.reconnectTimer = some id)
    (hl : h.timers = [(id, d)]) :
    (firePending h).manager.reconnectAttempts = h.manager.reconnectAttempts ∧
      (firePending h).manager.isIntentionalClose = false ∧
      (firePending h).manager.reconnectTimer = none ∧
      (firePending h).timers = [] := by
  unfold firePending
  rw [ht]
  simp only [step, hl, List.any_cons, beq_self_eq_true, List.any_nil, Bool.or_false, if_true]
  unfold reconnectCallback
  dsimp only
  split <;> simp [connect, hi]

theorem firePending_idle (h : Host) (ht : h.manager.reconnectTimer = none) :
    firePending h = h := by
  simp [firePending, ht]

theorem socketOpen_frame (h : Host) :
    (step h Event.socketOpen).manager.reconnectAttempts = 0 ∧
      (step h Event.socketOpen).manager.isIntentionalClose = h.manager.isIntentionalClose ∧
      (step h Event.socketOpen).manager.reconnectTimer = h.manager.reconnectTimer ∧
      (step h Event.socketOpen).timers = h.timers := by
  show (onopen _).manager.reconnectAttempts = 0 ∧ (onopen _).manager.isIntentionalClose = _ ∧
    (onopen _).manager.reconnectTimer = _ ∧ (onopen _).timers = _
  rw [(onopen_frame _).1, (onopen_frame _).2]
  exact ⟨rfl, rfl, rfl, rfl⟩

theorem unexpectedCloses_state (k : Nat) :
    ∀ h : Host, h.manager.isIntentionalClose = false → h.manager.reconnectTimer = none →
      h.timers = [] →
      (unexpectedCloses (k + 1) h).manager.reconnectAttempts =
          h.manager.reconnectAttempts + (k + 1) ∧
        (unexpectedCloses (k + 1) h).manager.isIntentionalClose = false ∧
        ∃ id, (unexpectedCloses (k + 1) h).manager.reconnectTimer = some id ∧
          (unexpectedCloses (k + 1) h).timers =
            [(id, min (RECONNECT_DELAY * 2 ^ (h.manager.reconnectAttempts + k))
              RECONNECT_MAX_DELAY)] := by
  induction k with
  | zero =>
    intro h hi ht hl
    show (step (firePending h) Event.socketClose).manager.reconnectAttempts = _ ∧
      (step (firePending h) Event.socketClose).manager.isIntentionalClose = false ∧
      ∃ id, (step (firePending h) Event.socketClose).manager.reconnectTimer = some id ∧
        (step (firePending h) Event.socketClose).timers = _
    rw [firePending_idle h ht]
    obtain ⟨h1, h2, h3, h4⟩ := onclose_idle h hi ht hl
    exact ⟨h1, h2, _, h3, h4⟩
  | succ n ih =>
    intro h hi ht hl
    obtain ⟨a1, a2, id, a3, a4⟩ := ih h hi ht hl
    obtain ⟨b1, b2, b3, b4⟩ := firePending_scheduled _ id _ a2 a3 a4
    obtain ⟨c1, c2, c3, c4⟩ := onclose_idle _ b2 b3 b4
    show (step (firePending (unexpectedCloses (n + 1) h)) Event.socketClose).manager.reconnectAttempts
        = _ ∧
      (step (firePending (unexpectedCloses (n + 1) h)) Event.socketClose).manager.isIntentionalClose
        = false ∧
      ∃ id, (step (firePending (unexpectedCloses (n + 1) h))
          Event.socketClose).manager.reconnectTimer = some id ∧
        (step (firePending (unexpectedCloses (n + 1) h)) Event.socketClose).timers = _
    refine ⟨?_, c2, _, c3, ?_⟩
    · rw [c1, b1, a1]
      omega
    · rw [c4, b1, a1]

theorem pendingDelay_of_timer (h : Host) (id d : Nat) (ht : h.manager.reconnectTimer = some id)
    (hl : h.timers = [(id, d)]) : pendingDelay h = some d := by
  simp [pendingDelay, ht, hl]

theorem backoff_capped (k : Nat) (hk : 5 ≤ k) :
    min (RECONNECT_DELAY * 2 ^ (k - 1)) RECONNECT_MAX_DELAY = 30000 := by
  have h4 : 2 ^ 4 ≤ 2 ^ (k - 1) := Nat.pow_le_pow_right (by decide) (by omega)
  simp only [RECONNECT_DELAY, RECONNECT_MAX_DELAY]
  omega

/-! ## C9: reconnect backoff -/

/-- C9: after a successful open, with no reconnect timer pending and no intentional
close, for every `k ≥ 1` the `k`-th unexpected close schedules the reconnect with
delay `min(RECONNECT_DELAY * 2^(k-1), RECONNECT_MAX_DELAY) = min(3000 * 2^(k-1),
30000)` ms and makes `reconnectAttempts = k`: 3000, 6000, 12000, 24000, then 30000
for every `k ≥ 5`. The open sets the attempt counter to 0, so the next unexpected
close uses 3000 ms whatever the counter was before the open. -/
theorem C9_reconnect_backoff (h : Host) (hi : h.manager.isIntentionalClose = false)
    (ht : h.manager.reconnectTimer = none) (hl : h.timers = []) :
    (∀ k : Nat, 1 ≤ k →
        pendingDelay (unexpectedCloses k (step h Event.socketOpen)) =
            some (min (RECONNECT_DELAY * 2 ^ (k - 1)) RECONNECT_MAX_DELAY) ∧
          pendingDelay (unexpectedCloses k (step h Event.socketOpen)) =
            some (min (3000 * 2 ^ (k - 1)) 30000) ∧
          (unexpectedCloses k (step h Event.socketOpen)).manager.reconnectAttempts = k) ∧
      pendingDelay (unexpectedCloses 1 (step h Event.socketOpen)) = some 3000 ∧
      pendingDelay (unexpectedCloses 2 (step h Event.socketOpen)) = some 6000 ∧
      pendingDelay (unexpectedCloses 3 (step h Event.socketOpen)) = some 12000 ∧
      pendingDelay (unexpectedCloses 4 (step h Event.socketOpen)) = some 24000 ∧
      (∀ k : Nat, 5 ≤ k →
        pendingDelay (unexpectedCloses k (step h Event.socketOpen)) = some 30000) ∧
      (step h Event.socketOpen).manager.reconnectAttempts = 0 ∧
      pendingDelay (step (step h Event.socketOpen) Event.socketClose) = some 3000 := by
  obtain ⟨o1, o2, o3, o4⟩ := socketOpen_frame h
  have main : ∀ k : Nat, 1 ≤ k →
      pendingDelay (unexpectedCloses k (step h Event.socketOpen)) =
          some (min (RECONNECT_DELAY * 2 ^ (k - 1)) RECONNECT_MAX_DELAY) ∧
        (unexpectedCloses k (step h Event.socketOpen)).manager.reconnectAttempts = k := by
    intro k hk
    obtain ⟨n, rfl⟩ : ∃ n, k = n + 1 := ⟨k - 1, by omega⟩
    obtain ⟨a1, _, id, a3, a4⟩ := unexpectedCloses_state n (step h Event.socketOpen)
      (o2.trans hi) (o3.trans ht) (o4.trans hl)
    rw [o1, Nat.zero_add] at a1 a4
    exact ⟨pendingDelay_of_timer _ id _ a3 a4, a1⟩
  refine ⟨fun k hk => ⟨(main k hk).1, (main k hk).1, (main k hk).2⟩, (main 1 (by decide)).1,
    (main 2 (by decide)).1, (main 3 (by decide)).1, (main 4 (by decide)).1, ?_, o1, ?_⟩
  · intro k hk
    rw [(main k (by omega)).1, backoff_capped k hk]
  · have := (main 1 (by decide)).1
    rw [unexpectedCloses, unexpectedCloses, firePending_idle _ (o3.trans ht)] at this
    exact this

/-- C9 at a concrete input: a manager with an open socket; the sixth unexpected
close schedules the reconnect after 30000 ms. -/
theorem C9_reconnect_backoff_witness :
    sampleHost.manager.isIntentionalClose = false ∧ sampleHost.manager.reconnectTimer = none ∧
      sampleHost.timers = [] ∧
      pendingDelay (unexpectedCloses 2 (step sampleHost Event.socketOpen)) = some 6000 ∧
      pendingDelay (unexpectedCloses 6 (step sampleHost Event.socketOpen)) = some 30000 :=
  ⟨by decide, by decide, by decide,
    (C9_reconnect_backoff sampleHost (by decide) (by decide) (by decide)).2.2.1,
    (C9_reconnect_backoff sampleHost (by decide) (by decide) (by decide)).2.2.2.2.2.1 6
      (by decide)⟩

/-! ## C10: single reconnect timer -/

/-- C10: `scheduleReconnect` called while a reconnect timer is pending changes
nothing (the manager, including `reconnectAttempts` and the stored handle, and the
host's table of timeouts are unchanged, so no timer is created); and in every state
reachable from the constructed manager through `connect`, socket open / close
events, timer firings, `close()` and `scheduleReconnect()`, at most one reconnect
timeout is pending, the one whose handle the manager stores. -/
theorem C10_single_reconnect_timer :
    (∀ h : Host, h.manager.reconnectTimer.isSome = true → scheduleReconnect h = h) ∧
      (∀ events : List Event,
        (run events Host.initial).timers.length ≤ 1 ∧
          timerConsistent (run events Host.initial)) := by
  refine ⟨scheduleReconnect_pending, fun events => ?_⟩
  have hc : timerConsistent (run events Host.initial) :=
    run_consistent events Host.initial (by decide)
  exact ⟨timers_length_of_consistent _ hc, hc⟩

/-- C10 at a concrete input: after an unexpected close a timer is pending and a
further `scheduleReconnect` changes nothing. -/
theorem C10_single_reconnect_timer_witness :
    (unexpectedCloses 1 sampleHost).manager.reconnectTimer.isSome = true ∧
      scheduleReconnect (unexpectedCloses 1 sampleHost) = unexpectedCloses 1 sampleHost ∧
      (unexpectedCloses 1 sampleHost).timers = [(1, 3000)] :=
  ⟨by decide, C10_single_reconnect_timer.1 (unexpectedCloses 1 sampleHost) (by decide),
    by decide⟩

/-! ## C11: intentional close -/

theorem close_fields (h : Host) (hc : timerConsistent h) :
    (close h).timers = [] ∧ (close h).manager.reconnectTimer = none ∧
      (close h).manager.isIntentionalClose = true ∧
      (close h).manager.reconnectAttempts = h.manager.reconnectAttempts ∧
      (close h).manager.websocket = none := by
  have hcc := close_consistent h hc
  have hrest : (close h).manager.reconnectTimer = none ∧
      (close h).manager.isIntentionalClose = true ∧
      (close h).manager.reconnectAttempts = h.manager.reconnectAttempts ∧
      (close h).manager.websocket = none := by
    unfold close
    dsimp only
    cases ht : h.manager.reconnectTimer <;> cases hw : h.manager.websocket <;> simp [ht]
  refine ⟨?_, hrest⟩
  unfold timerConsistent at hcc
  rw [hrest.1] at hcc
  simpa using hcc

theorem step_closed_quiet (h : Host) (e : Event) (hi : h.manager.isIntentionalClose = true)
    (ht : h.manager.reconnectTimer = none) (hl : h.timers = [])
    (hw : h.manager.websocket = none) (he : e.isCloseOrSchedule = true) : step h e = h := by
  cases e with
  | connect p u r c => simp [Event.isCloseOrSchedule] at he
  | socketOpen => simp [Event.isCloseOrSchedule] at he
  | socketClose => simp [step, onclose, hi]
  | timeout id c => simp [step, hl]
  | scheduleReconnect => simp [step, scheduleReconnect, hi]
  | close =>
    obtain ⟨m, tm, nt, st⟩ := h
    obtain ⟨w, u, p, r, a, t, i⟩ := m
    simp only at hi ht hl hw
    subst hi ht hl hw
    rfl

theorem run_closed_quiet (later : List Event) :
    ∀ h : Host, h.manager.isIntentionalClose = true → h.manager.reconnectTimer = none →
      h.timers = [] → h.manager.websocket = none →
      (∀ e ∈ later, e.isCloseOrSchedule = true) → run later h = h := by
  induction later with
  | nil => intro h _ _ _ _ _; rfl
  | cons e rest ih =>
    intro h hi ht hl hw hall
    show run rest (step h e) = h
    rw [step_closed_quiet h e hi ht hl hw (hall e (List.mem_cons_self _ _))]
    exact ih h hi ht hl hw (fun e' he' => hall e' (List.mem_cons_of_mem _ he'))

theorem step_closed_no_timer (h : Host) (e : Event) (hi : h.manager.isIntentionalClose = true)
    (ht : h.manager.reconnectTimer = none) (hl : h.timers = [])
    (he : e.isConnect = false) :
    (step h e).manager.isIntentionalClose = true ∧ (step h e).manager.reconnectTimer = none ∧
      (step h e).timers = [] := by
  cases e with
  | connect p u r c => simp [Event.isConnect] at he
  | socketOpen =>
    show (onopen _).manager.isIntentionalClose = true ∧ (onopen _).manager.reconnectTimer = none ∧
      (onopen _).timers = []
    rw [(onopen_frame _).1, (onopen_frame _).2]
    exact ⟨hi, ht, hl⟩
  | socketClose => simp [step, onclose, hi, ht, hl]
  | timeout id c => simp [step, hl, hi, ht]
  | scheduleReconnect => simp [step, scheduleReconnect, hi, ht, hl]
  | close =>
    have hc : timerConsistent h := by simp [timerConsistent, ht, hl]
    obtain ⟨c1, c2, c3, _, _⟩ := close_fields h hc
    exact ⟨c3, c2, c1⟩

theorem run_closed_no_timer (later : List Event) :
    ∀ h : Host, h.manager.isIntentionalClose = true → h.manager.reconnectTimer = none →
      h.timers = [] → (∀ e ∈ later, e.isConnect = false) →
      (run later h).manager.isIntentionalClose = true ∧
        (run later h).manager.reconnectTimer = none ∧ (run later h).timers = [] := by
  induction later with
  | nil => intro h hi ht hl _; exact ⟨hi, ht, hl⟩
  | cons e rest ih =>
    intro h hi ht hl hall
    obtain ⟨s1, s2, s3⟩ := step_closed_no_timer h e hi ht hl (hall e (List.mem_cons_self _ _))
    exact ih (step h e) s1 s2 s3 (fun e' he' => hall e' (List.mem_cons_of_mem _ he'))

/-- C11: in every state reachable from the constructed manager, after `close()` no
reconnect timeout is pending (a pending one is cancelled) and `reconnectAttempts`
is as before the call; from then on a socket close event, a call of
`scheduleReconnect()`, a timer firing or a further `close()` leaves the whole
state unchanged, so no reconnect is scheduled and `reconnectAttempts` does not
change; and as long as `connect` is not called, whatever else happens, no
reconnect timeout becomes pending. -/
theorem C11_intentional_close (events : List Event) :
    (close (run events Host.initial)).timers = [] ∧
      (close (run events Host.initial)).manager.reconnectTimer = none ∧
      (close (run events Host.initial)).manager.reconnectAttempts =
        (run events Host.initial).manager.reconnectAttempts ∧
      step (close (run events Host.initial)) Event.socketClose =
        close (run events Host.initial) ∧
      scheduleReconnect (close (run events Host.initial)) = close (run events Host.initial) ∧
      (∀ later : List Event, (∀ e ∈ later, e.isCloseOrSchedule = true) →
        run later (close (run events Host.initial)) = close (run events Host.initial)) ∧
      (∀ later : List Event, (∀ e ∈ later, e.isConnect = false) →
        (run later (close (run events Host.initial))).timers = [] ∧
          (run later (close (run events Host.initial))).manager.reconnectTimer = none) := by
  have hc : timerConsistent (run events Host.initial) :=
    run_consistent events Host.initial (by decide)
  obtain ⟨c1, c2, c3, c4, c5⟩ := close_fields _ hc
  refine ⟨c1, c2, c4, ?_, ?_, ?_, ?_⟩
  · exact step_closed_quiet _ _ c3 c2 c1 c5 rfl
  · exact step_closed_quiet _ Event.scheduleReconnect c3 c2 c1 c5 rfl
  · intro later hall
    exact run_closed_quiet later _ c3 c2 c1 c5 hall
  · intro later hall
    obtain ⟨_, r2, r3⟩ := run_closed_no_timer later _ c3 c2 c1 hall
    exact ⟨r3, r2⟩

/-- C11 at a concrete input: `close()` is called while the reconnect timeout of an
unexpected close is pending; the close event of the socket, a call of
`scheduleReconnect()` and the firing of the cancelled handle change nothing. -/
theorem C11_intentional_close_witness :
    (run [Event.connect (some 28196) (some "UUID") (some "registerPlugin") true,
        Event.socketOpen, Event.socketClose] Host.initial).timers = [(1, 3000)] ∧
      (close (run [Event.connect (some 28196) (some "UUID") (some "registerPlugin") true,
        Event.socketOpen, Event.socketClose] Host.initial)).timers = [] ∧
      run [Event.socketClose, Event.scheduleReconnect, Event.timeout 1 true]
          (close (run [Event.connect (some 28196) (some "UUID") (some "registerPlugin") true,
            Event.socketOpen, Event.socketClose] Host.initial)) =
        close (run [Event.connect (some 28196) (some "UUID") (some "registerPlugin") true,
          Event.socketOpen, Event.socketClose] Host.initial) :=
  ⟨by decide,
    (C11_intentional_close [Event.connect (some 28196) (some "UUID") (some "registerPlugin") true,
      Event.socketOpen, Event.socketClose]).1,
    (C11_intentional_close [Event.connect (some 28196) (some "UUID") (some "registerPlugin") true,
      Event.socketOpen, Event.socketClose]).2.2.2.2.2.1
      [Event.socketClose, Event.scheduleReconnect, Event.timeout 1 true] (by decide)⟩

/-! ## C12: `send` -/

/-- C12: `send(data)` returns `true` exactly when a socket exists and its
`readyState` is `OPEN`; in that case exactly one message, `data`, is dispatched and
nothing else changes; in every other case it returns `false` and the state of the
manager and of its host is unchanged: nothing is dispatched and nothing is kept
for later delivery. -/
theorem C12_send (data : Message) (h : Host) :
    ((send data h).2 = true ↔ h.manager.websocket = some ReadyState.OPEN) ∧
      (h.manager.websocket = some ReadyState.OPEN →
        (send data h).1 = { h with sent := h.sent ++ [data] }) ∧
      (h.manager.websocket ≠ some ReadyState.OPEN →
        (send data h).2 = false ∧ (send data h).1 = h) := by
  unfold send
  cases hw : h.manager.websocket with
  | none => simp
  | some r => cases r <;> simp

/-- C12 at concrete inputs: on the open socket the message is dispatched, on the
freshly constructed manager (no socket) nothing happens. -/
theorem C12_send_witness :
    sampleHost.manager.websocket = some ReadyState.OPEN ∧
      (send ⟨some "setGlobalSettings", none, some "UUID"⟩ sampleHost).1.sent =
        sampleHost.sent ++ [⟨some "setGlobalSettings", none, some "UUID"⟩] ∧
      Host.initial.manager.websocket ≠ some ReadyState.OPEN ∧
      (send ⟨some "setGlobalSettings", none, some "UUID"⟩ Host.initial).2 = false ∧
      (send ⟨some "setGlobalSettings", none, some "UUID"⟩ Host.initial).1 = Host.initial :=
  ⟨by decide,
    congrArg Host.sent
      ((C12_send ⟨some "setGlobalSettings", none, some "UUID"⟩ sampleHost).2.1 (by decide)),
    by decide,
    (C12_send ⟨some "setGlobalSettings", none, some "UUID"⟩ Host.initial).2.2 (by decide)⟩

/-! ## C20: unchanged identity, no refetch -/

theorem applyTimeline_eq (now : Int) (tl : Timeline) (s : StateManager) :
    applyTimeline now tl s =
      { s with
        playbackState := strOr tl.state "stopped"
        currentPosition := orElse tl.time 0
        lastPositionTimestamp := now
        trackDuration := orElse tl.duration 0
        currentVolume :=
          if now - s.lastVolumeCommandTime > 2000 then nullish tl.volume 50
          else s.currentVolume
        currentShuffle := orElse tl.shuffle 0
        currentRepeat := orElse tl.repeat_ 0 } := by
  unfold applyTimeline
  simp only [StateManager.updatePosition]
  split <;> rfl

/-- C20: for every state with a stored track and every snapshot whose `ratingKey`
equals the stored track's `ratingKey`, the guard of `updateFromTimeline` (lines
36-37) is false, so `loadTrackData` is not called and the result does not depend
on what the server would answer; `currentTrack`, `currentRating`, the
pending-rating cache, album art and `albumTrackCount` are unchanged, and the new
state differs from the old one at most in `playbackState`, `currentPosition`,
`lastPositionTimestamp`, `trackDuration`, `currentVolume`, `currentShuffle` and
`currentRepeat`. -/
theorem C20_no_refetch (plex : PlexConnection) (env : Remote) (now : Int) (tl : Timeline)
    (s : StateManager) (track : Track) (ht : s.currentTrack = some track)
    (hk : track.metadata.ratingKey = tl.ratingKey) :
    trackChanged (applyTimeline now tl s) tl = false ∧
      (∀ env' : Remote, updateFromTimeline plex env' now (some tl) s =
        updateFromTimeline plex env now (some tl) s) ∧
      (updateFromTimeline plex env now (some tl) s).currentTrack = some track ∧
      (updateFromTimeline plex env now (some tl) s).currentRating = s.currentRating ∧
      (updateFromTimeline plex env now (some tl) s).userSetRatings = s.userSetRatings ∧
      (updateFromTimeline plex env now (some tl) s).currentAlbumArt = s.currentAlbumArt ∧
      (updateFromTimeline plex env now (some tl) s).albumTrackCount = s.albumTrackCount ∧
      updateFromTimeline plex env now (some tl) s =
        { s with
          playbackState := (updateFromTimeline plex env now (some tl) s).playbackState
          currentPosition := (updateFromTimeline plex env now (some tl) s).currentPosition
          lastPositionTimestamp :=
            (updateFromTimeline plex env now (some tl) s).lastPositionTimestamp
          trackDuration := (updateFromTimeline plex env now (some tl) s).trackDuration
          currentVolume := (updateFromTimeline plex env now (some tl) s).currentVolume
          currentShuffle := (updateFromTimeline plex env now (some tl) s).currentShuffle
          currentRepeat := (updateFromTimeline plex env now (some tl) s).currentRepeat } := by
  have hsame : trackChanged s tl = false := by simp [trackChanged, ht, hk]
  have hu : ∀ env' : Remote,
      updateFromTimeline plex env' now (some tl) s = applyTimeline now tl s :=
    fun env' => updateFromTimeline_same_track plex env' now s tl hsame
  refine ⟨(trackChanged_congr s _ tl (applyTimeline_frame now tl s).1).trans hsame,
    fun env' => (hu env').trans (hu env).symm, ?_, ?_, ?_, ?_, ?_, ?_⟩
  all_goals rw [hu env, applyTimeline_eq]
  · exact ht

/-- C20 at a concrete input: track `"42"` is stored and the snapshot reports track
`"42"`. -/
theorem C20_no_refetch_witness :
    sampleCurrent.currentTrack = some ⟨sampleMetadata (some 6), some "player-1"⟩ ∧
      (updateFromTimeline samplePlex (sampleRemote (some 8)) 1001000 (some sampleTimeline)
        sampleCurrent).currentTrack = some ⟨sampleMetadata (some 6), some "player-1"⟩ ∧
      (updateFromTimeline samplePlex (sampleRemote (some 8)) 1001000 (some sampleTimeline)
        sampleCurrent).userSetRatings = [("42", 8)] ∧
      (updateFromTimeline samplePlex (sampleRemote (some 8)) 1001000 (some sampleTimeline)
        sampleCurrent).currentPosition = 5000 :=
  ⟨by decide,
    (C20_no_refetch samplePlex (sampleRemote (some 8)) 1001000 sampleTimeline sampleCurrent
      ⟨sampleMetadata (some 6), some "player-1"⟩ (by decide) (by decide)).2.2.1,
    (C20_no_refetch samplePlex (sampleRemote (some 8)) 1001000 sampleTimeline sampleCurrent
      ⟨sampleMetadata (some 6), some "player-1"⟩ (by decide) (by decide)).2.2.2.2.1,
    by decide⟩

/-! ## C15: clamp-then-send for seeks -/

theorem clamp_range (x D : Int) (hD : 0 ≤ D) : 0 ≤ clamp x 0 D ∧ clamp x 0 D ≤ D := by
  simp only [clamp]
  omega

theorem clamp_idem (x D : Int) (hD : 0 ≤ D) : clamp (clamp x 0 D) 0 D = clamp x 0 D := by
  simp only [clamp]
  omega

theorem serverRequests_command (plex : PlexConnection) (s : StateManager) (c : Command) :
    ∀ r ∈ plex.serverRequests s c, r = (Target.server, c) := by
  intro r hr
  unfold PlexConnection.serverRequests at hr
  split at hr
  · simp at hr
  · simpa using hr

theorem playerRequests_command (plex : PlexConnection) (loc : Response Unit) (s : StateManager)
    (c : Command) :
    (Target.player, c) ∈ plex.playerRequests loc s c ∧
      ∀ r ∈ plex.playerRequests loc s c, r.2 = c := by
  cases loc with
  | ok u => simp [PlexConnection.playerRequests]
  | failed =>
    refine ⟨by simp [PlexConnection.playerRequests], ?_⟩
    intro r hr
    simp only [PlexConnection.playerRequests, List.mem_cons] at hr
    rcases hr with hr | hr
    · rw [hr]
    · rw [serverRequests_command plex s c r hr]

theorem seekTo_requests (plex : PlexConnection) (loc server : Response Unit) (now x : Int)
    (s : StateManager) :
    (seekTo plex loc server now x s).2 =
      plex.playerRequests loc s (Command.seekTo (clamp x 0 s.trackDuration)) := by
  unfold seekTo
  dsimp only
  split <;> rfl

theorem playerCommand_fst (plex : PlexConnection) (loc server : Response Unit)
    (s : StateManager) : (plex.playerCommand loc server s).1 = s.getNextCommandID.1 := by
  cases loc <;> rfl

theorem seekTo_ok (plex : PlexConnection) (loc server : Response Unit) (now x : Int)
    (s : StateManager) (h : (plex.playerCommand loc server s).2 = Response.ok ()) :
    (seekTo plex loc server now x s).1 =
      s.getNextCommandID.1.updatePosition (clamp x 0 s.trackDuration) now := by
  have h1 := playerCommand_fst plex loc server s
  unfold seekTo
  dsimp only
  split
  · rename_i s1 r heq
    rw [heq] at h1
    simp only at h1
    rw [h1]
  · rename_i s1 heq
    rw [heq] at h
    exact absurd h (by simp)

theorem seekTo_failed (plex : PlexConnection) (loc server : Response Unit) (now x : Int)
    (s : StateManager) (h : (plex.playerCommand loc server s).2 = Response.failed) :
    (seekTo plex loc server now x s).1 = s.getNextCommandID.1 := by
  have h1 := playerCommand_fst plex loc server s
  unfold seekTo
  dsimp only
  split
  · rename_i s1 r heq
    rw [heq] at h
    exact absurd h (by simp)
  · rename_i s1 heq
    rw [heq] at h1
    exact h1

/-- C15: for every requested absolute position `x` (`seekTo`) or relative offset
`x` (`seek`) and every `trackDuration ≥ 0`, a request is sent, every request sent
carries the clamped position (`clamp(x, 0, trackDuration)`, respectively
`clamp(currentPosition + x, 0, trackDuration)`), which lies in `[0, trackDuration]`;
when the command succeeds `currentPosition` is that clamped value, and when it
fails `currentPosition` is unchanged. -/
theorem C15_clamp_then_send (plex : PlexConnection) (loc server : Response Unit) (now x : Int)
    (s : StateManager) (hD : 0 ≤ s.trackDuration) :
    ((seekTo plex loc server now x s).2 ≠ [] ∧
        (∀ r ∈ (seekTo plex loc server now x s).2,
          r.2 = Command.seekTo (clamp x 0 s.trackDuration)) ∧
        0 ≤ clamp x 0 s.trackDuration ∧ clamp x 0 s.trackDuration ≤ s.trackDuration ∧
        ((plex.playerCommand loc server s).2 = Response.ok () →
          (seekTo plex loc server now x s).1.currentPosition = clamp x 0 s.trackDuration) ∧
        ((plex.playerCommand loc server s).2 = Response.failed →
          (seekTo plex loc server now x s).1.currentPosition = s.currentPosition)) ∧
      ((seek plex loc server now x s).2 ≠ [] ∧
        (∀ r ∈ (seek plex loc server now x s).2,
          r.2 = Command.seekTo (clamp (s.currentPosition + x) 0 s.trackDuration)) ∧
        0 ≤ clamp (s.currentPosition + x) 0 s.trackDuration ∧
        clamp (s.currentPosition + x) 0 s.trackDuration ≤ s.trackDuration ∧
        ((plex.playerCommand loc server s).2 = Response.ok () →
          (seek plex loc server now x s).1.currentPosition =
            clamp (s.currentPosition + x) 0 s.trackDuration) ∧
        ((plex.playerCommand loc server s).2 = Response.failed →
          (seek plex loc server now x s).1.currentPosition = s.currentPosition)) := by
  have main : ∀ y : Int,
      (seekTo plex loc server now y s).2 ≠ [] ∧
        (∀ r ∈ (seekTo plex loc server now y s).2,
          r.2 = Command.seekTo (clamp y 0 s.trackDuration)) ∧
        0 ≤ clamp y 0 s.trackDuration ∧ clamp y 0 s.trackDuration ≤ s.trackDuration ∧
        ((plex.playerCommand loc server s).2 = Response.ok () →
          (seekTo plex loc server now y s).1.currentPosition = clamp y 0 s.trackDuration) ∧
        ((plex.playerCommand loc server s).2 = Response.failed →
          (seekTo plex loc server now y s).1.currentPosition = s.currentPosition) := by
    intro y
    obtain ⟨hmem, hall⟩ :=
      playerRequests_command plex loc s (Command.seekTo (clamp y 0 s.trackDuration))
    refine ⟨?_, ?_, (clamp_range y _ hD).1, (clamp_range y _ hD).2, ?_, ?_⟩
    · rw [seekTo_requests]
      exact List.ne_nil_of_mem hmem
    · rw [seekTo_requests]
      exact hall
    · intro hok
      rw [seekTo_ok plex loc server now y s hok]
      rfl
    · intro hfail
      rw [seekTo_failed plex loc server now y s hfail]
      rfl
  refine ⟨main x, ?_⟩
  have hs := main (clamp (s.currentPosition + x) 0 s.trackDuration)
  rw [clamp_idem _ _ hD] at hs
  exact hs

/-- C15 at concrete inputs: with duration 180000 and position 4000, `seekTo(-500)`
sends offset 0 and `seek(500000)` sends offset 180000. -/
theorem C15_clamp_then_send_witness :
    0 ≤ sampleCurrent.trackDuration ∧
      (∀ r ∈ (seekTo samplePlex (Response.ok ()) Response.failed 1001000 (-500)
        sampleCurrent).2, r.2 = Command.seekTo 0) ∧
      (seekTo samplePlex (Response.ok ()) Response.failed 1001000 (-500)
        sampleCurrent).1.currentPosition = 0 ∧
      (∀ r ∈ (seek samplePlex Response.failed Response.failed 1001000 500000
        sampleCurrent).2, r.2 = Command.seekTo 180000) ∧
      (seek samplePlex Response.failed Response.failed 1001000 500000
        sampleCurrent).1.currentPosition = 4000 :=
  ⟨by decide,
    (C15_clamp_then_send samplePlex (Response.ok ()) Response.failed 1001000 (-500)
      sampleCurrent (by decide)).1.2.1,
    (C15_clamp_then_send samplePlex (Response.ok ()) Response.failed 1001000 (-500)
      sampleCurrent (by decide)).1.2.2.2.2.1 (by decide),
    (C15_clamp_then_send samplePlex Response.failed Response.failed 1001000 500000
      sampleCurrent (by decide)).2.2.1,
    (C15_clamp_then_send samplePlex Response.failed Response.failed 1001000 500000
      sampleCurrent (by decide)).2.2.2.2.2.2 (by decide)⟩

/-! ## C13: hold versus tap -/

/-- C13 evaluated at two presses of a NEXT key. The first press is a tap (100 ms),
which sends `skipNext`. The second press lasts 250 ms, less than `HOLD_THRESHOLD`;
while it is down the hold-threshold timeout of the first press comes due, finds
the hold state of the second press and sends a seek to 14000; the release of the
second press then sends no `skipNext`. -/
theorem C13_stale_hold_timer :
    (1000450 : Int) - 1000200 < HOLD_THRESHOLD ∧
      (pluginRun (sampleDoublePress.take 1) samplePlugin).timeouts =
        [(1, 1000400, Task.holdThreshold "next-1" ACTIONS_NEXT)] ∧
      (pluginRun (sampleDoublePress.take 2) samplePlugin).requests =
        [(Target.player, Command.skipNext)] ∧
      (pluginRun (sampleDoublePress.take 3) samplePlugin).requests =
        [(Target.player, Command.skipNext)] ∧
      (pluginRun (sampleDoublePress.take 4) samplePlugin).requests =
        [(Target.player, Command.skipNext), (Target.player, Command.seekTo 14000)] ∧
      (pluginRun sampleDoublePress samplePlugin).requests =
        [(Target.player, Command.skipNext), (Target.player, Command.seekTo 14000)] := by
  decide

/-! ## C18: session clear and the pending rating write -/

theorem handleNoSession_ratingSaveTimer (s : StateManager) :
    (handleNoSession s).ratingSaveTimer = s.ratingSaveTimer := by
  unfold handleNoSession
  split <;> rfl

theorem setRating_no_track (plex : PlexConnection) (server : Response Unit) (rating : Int)
    (s : StateManager) (h : s.currentTrack = none) :
    setRating plex server rating none s = (s, []) := by
  simp [setRating, currentRatingKey, h, orStr, truthy]

/-- C18 as stated fails: the dial sets rating 10 for track `"42"` at 1000000, which
leaves a rating-save timeout (handle 1, due at 1002000) pending; the poll at
1000500 finds the player stopped and clears the session, and afterwards
`ratingSaveTimer` still holds handle 1 and the timeout is still pending. -/
theorem C18_counterexample :
    (pluginRun
        [PluginEvent.dialRotate "strip-1" 2 (Response.ok ()) Response.failed 1000000,
          PluginEvent.poll sampleStopped 1000500] samplePlugin).state.currentTrack = none ∧
      (pluginRun
        [PluginEvent.dialRotate "strip-1" 2 (Response.ok ()) Response.failed 1000000,
          PluginEvent.poll sampleStopped 1000500] samplePlugin).state.ratingSaveTimer =
        some 1 ∧
      (pluginRun
        [PluginEvent.dialRotate "strip-1" 2 (Response.ok ()) Response.failed 1000000,
          PluginEvent.poll sampleStopped 1000500] samplePlugin).timeouts =
        [(1, 1002000, Task.ratingSave 10)] := by
  decide

/-- C18, amended: clearing the session does not cancel the pending rating write:
`clearTrack` and `handleNoSession` leave `ratingSaveTimer` as it is, and a
no-session poll leaves the host's pending timeouts as they are. When the
rating-save timeout then fires while no track is stored, `setRating` finds no
rating key: no request is sent, the pending-rating cache and `currentRating` are
unchanged, and `ratingSaveTimer` becomes `null`. -/
theorem C18_clear_keeps_rating_timer_amended :
    (∀ s : StateManager, s.clearTrack.ratingSaveTimer = s.ratingSaveTimer ∧
        (handleNoSession s).ratingSaveTimer = s.ratingSaveTimer) ∧
      (∀ (p : Plugin) (env : Remote) (now : Int),
        ((p.plex.fetchTimeline env.timeline p.state).2 = none ∨
          ∃ tl, (p.plex.fetchTimeline env.timeline p.state).2 = some tl ∧
            tl.state = some "stopped") →
        (pluginStep p (PluginEvent.poll env now)).timeouts = p.timeouts ∧
          (pluginStep p (PluginEvent.poll env now)).state.ratingSaveTimer =
            p.state.ratingSaveTimer) ∧
      (∀ (p : Plugin) (newRating : Int) (server : Response Unit),
        p.state.currentTrack = none →
        (ratingSaveFired newRating server p).requests = p.requests ∧
          (ratingSaveFired newRating server p).state.ratingSaveTimer = none ∧
          (ratingSaveFired newRating server p).state.userSetRatings = p.state.userSetRatings ∧
          (ratingSaveFired newRating server p).state.currentRating = p.state.currentRating) := by
  refine ⟨fun s => ⟨rfl, handleNoSession_ratingSaveTimer s⟩, ?_, ?_⟩
  · intro p env now hpoll
    refine ⟨rfl, ?_⟩
    show (pollTimeline p.plex env now p.state).ratingSaveTimer = _
    rw [pollTimeline_no_session p.plex env now p.state hpoll, handleNoSession_ratingSaveTimer]
    rcases fetchTimeline_session_fields p.plex env.timeline p.state with h | h <;> rw [h]
  · intro p newRating server hnone
    unfold ratingSaveFired
    simp [setRating_no_track p.plex server newRating p.state hnone]

/-- C18, amended, at concrete inputs: after the dial adjustment and the clearing
poll, the timeout with handle 1 fires at 1002000; no request has been sent and
`ratingSaveTimer` is `null`. -/
theorem C18_clear_keeps_rating_timer_amended_witness :
    (pluginStep
        (pluginStep samplePlugin
          (PluginEvent.dialRotate "strip-1" 2 (Response.ok ()) Response.failed 1000000))
        (PluginEvent.poll sampleStopped 1000500)).timeouts =
        (pluginStep samplePlugin
          (PluginEvent.dialRotate "strip-1" 2 (Response.ok ()) Response.failed 1000000)).timeouts ∧
      (ratingSaveFired 10 (Response.ok ())
        { samplePlugin with state := samplePlugin.state.clearTrack }).requests = [] ∧
      (ratingSaveFired 10 (Response.ok ())
        { samplePlugin with state := samplePlugin.state.clearTrack }).state.ratingSaveTimer =
        none :=
  ⟨(C18_clear_keeps_rating_timer_amended.2.1
      (pluginStep samplePlugin
        (PluginEvent.dialRotate "strip-1" 2 (Response.ok ()) Response.failed 1000000))
      sampleStopped 1000500
      (Or.inr ⟨{ sampleTimeline with state := some "stopped" }, by decide, by decide⟩)).1,
    (C18_clear_keeps_rating_timer_amended.2.2
      { samplePlugin with state := samplePlugin.state.clearTrack } 10 (Response.ok ())
      (by decide)).1,
    (C18_clear_keeps_rating_timer_amended.2.2
      { samplePlugin with state := samplePlugin.state.clearTrack } 10 (Response.ok ())
      (by decide)).2.1⟩

/-! ## Rating adjustments: the debounce and the remote write -/

theorem debounceRatingSave_eq (newRating now : Int) (p : Plugin) :
    debounceRatingSave newRating now p =
      { p with
        state := { p.state with ratingSaveTimer := some p.nextHandle }
        timeouts :=
          (match p.state.ratingSaveTimer with
            | some handle => p.timeouts.filter fun t => t.1 != handle
            | none => p.timeouts) ++ [(p.nextHandle, now + 2000, Task.ratingSave newRating)]
        nextHandle := p.nextHandle + 1 } := by
  unfold debounceRatingSave
  cases h : p.state.ratingSaveTimer <;> rfl

theorem getActionSettings_of_getAction (s : StateManager) (context : String)
    (entry : ActionEntry) (h : s.getAction context = some entry) :
    s.getActionSettings context = entry.settings := by
  unfold StateManager.getAction at h
  simp [StateManager.getActionSettings, h]

/-- Step of a rating adjustment in mode `ratingMode`. -/
theorem ratingStep_cases (ratingMode : Option String) :
    (if strOr ratingMode "half" = "half" then RATING_HALF_STAR else RATING_FULL_STAR) = 1 ∨
      (if strOr ratingMode "half" = "half" then RATING_HALF_STAR else RATING_FULL_STAR) = 2 := by
  split
  · exact Or.inl rfl
  · exact Or.inr rfl

theorem onDialRotate_rating (context : String) (ticks : Int) (loc server : Response Unit)
    (now : Int) (p : Plugin) (entry : ActionEntry) (track : Track)
    (ha : p.state.getAction context = some entry) (hs : entry.action = ACTIONS_STRIP)
    (hd : entry.settings.dialAction = some "rating") (ht : p.state.currentTrack = some track) :
    onDialRotate context ticks loc server now p =
      storeRating
        (max 0 (min 10 (p.state.currentRating + ticks *
          (if strOr entry.settings.ratingMode "half" = "half" then RATING_HALF_STAR
            else RATING_FULL_STAR))))
        now p := by
  have hset := getActionSettings_of_getAction p.state context entry ha
  unfold onDialRotate
  simp only [ha, hs, hset, hd, ht, strOr, ne_eq, not_true_eq_false, if_false]
  simp

theorem ratingButton_track (context : String) (now : Int) (p : Plugin) (track : Track)
    (ht : p.state.currentTrack = some track) :
    ratingButton context now p =
      storeRating
        (if p.state.currentRating +
            (if strOr (p.state.getActionSettings context).ratingMode "half" = "half" then
              RATING_HALF_STAR else RATING_FULL_STAR) > RATING_MAX then 0
          else p.state.currentRating +
            (if strOr (p.state.getActionSettings context).ratingMode "half" = "half" then
              RATING_HALF_STAR else RATING_FULL_STAR))
        now p := by
  unfold ratingButton
  simp only [ht]

theorem ratingButton_no_track (context : String) (now : Int) (p : Plugin)
    (ht : p.state.currentTrack = none) : ratingButton context now p = p := by
  unfold ratingButton
  simp only [ht]

theorem storeRating_fields (newRating now : Int) (p : Plugin) :
    (storeRating newRating now p).state.currentRating = newRating ∧
      (storeRating newRating now p).state.ratingSaveTimer = some p.nextHandle ∧
      (storeRating newRating now p).timeouts =
        (match p.state.ratingSaveTimer with
          | some handle => p.timeouts.filter fun t => t.1 != handle
          | none => p.timeouts) ++ [(p.nextHandle, now + 2000, Task.ratingSave newRating)] ∧
      (storeRating newRating now p).nextHandle = p.nextHandle + 1 ∧
      (storeRating newRating now p).requests = p.requests ∧
      (storeRating newRating now p).plex = p.plex ∧
      (storeRating newRating now p).state.currentTrack = p.state.currentTrack ∧
      (storeRating newRating now p).state.actions = p.state.actions := by
  unfold storeRating
  rw [debounceRatingSave_eq]
  dsimp only
  split <;> exact ⟨rfl, rfl, rfl, rfl, rfl, rfl, rfl, rfl⟩

theorem onDialRotate_rating_no_track (context : String) (ticks : Int)
    (loc server : Response Unit) (now : Int) (p : Plugin) (entry : ActionEntry)
    (ha : p.state.getAction context = some entry) (hs : entry.action = ACTIONS_STRIP)
    (hd : entry.settings.dialAction = some "rating") (ht : p.state.currentTrack = none) :
    onDialRotate context ticks loc server now p = p := by
  have hset := getActionSettings_of_getAction p.state context entry ha
  unfold onDialRotate
  simp only [ha, hs, hset, hd, ht, strOr, ne_eq, not_true_eq_false, if_false]
  simp

theorem handleButtonAction_rating (context : String) (loc server : Response Unit) (now : Int)
    (p : Plugin) :
    handleButtonAction ACTIONS_RATING context loc server now p = ratingButton context now p := by
  have h1 : ¬ ACTIONS_RATING = ACTIONS_ALBUM_ART := by decide
  have h2 : ¬ ACTIONS_RATING = ACTIONS_PLAY_PAUSE := by decide
  have h3 : ¬ ACTIONS_RATING = ACTIONS_PLAY := by decide
  have h4 : ¬ ACTIONS_RATING = ACTIONS_PAUSE := by decide
  have h5 : ¬ ACTIONS_RATING = ACTIONS_NEXT := by decide
  have h6 : ¬ ACTIONS_RATING = ACTIONS_PREVIOUS := by decide
  have h7 : ¬ ACTIONS_RATING = ACTIONS_SHUFFLE := by decide
  have h8 : ¬ ACTIONS_RATING = ACTIONS_REPEAT := by decide
  unfold handleButtonAction
  rw [if_neg h1, if_neg h2, if_neg h3, if_neg h4, if_neg h5, if_neg h6, if_neg h7, if_neg h8,
    if_pos rfl]

theorem setRating_requests (plex : PlexConnection) (server : Response Unit) (rating : Int)
    (override : Option String) (s : StateManager) :
    ∀ r ∈ (setRating plex server rating override s).2,
      r = (Target.server, Command.rate (orStr override (currentRatingKey s)) rating) := by
  intro r hr
  unfold setRating at hr
  dsimp only at hr
  split at hr
  · simp at hr
  · split at hr <;> exact serverRequests_command plex s _ r hr

theorem setRating_currentRating (plex : PlexConnection) (server : Response Unit) (rating : Int)
    (override : Option String) (s : StateManager) :
    (setRating plex server rating override s).1.currentRating = s.currentRating ∨
      (setRating plex server rating override s).1.currentRating = rating := by
  unfold setRating
  dsimp only
  split
  · exact Or.inl rfl
  · split
    · split
      · exact Or.inr rfl
      · exact Or.inl rfl
    · exact Or.inl rfl

theorem ratingSaveFired_requests (newRating : Int) (server : Response Unit) (p : Plugin) :
    (ratingSaveFired newRating server p).requests =
        p.requests ++ (setRating p.plex server newRating none p.state).2 ∧
      (ratingSaveFired newRating server p).state.ratingSaveTimer = none ∧
      (ratingSaveFired newRating server p).timeouts = p.timeouts :=
  ⟨rfl, rfl, rfl⟩

/-! ## C16: rating adjustments stay in range -/

/-- C16: whenever `0 ≤ currentRating ≤ 10`, (1) a dial rotation on a strip whose
dial adjusts the rating, with any tick count and any rating mode, (2) a press of a
rating button in any rating mode, and (3) `adjustRating` with any delta leave
`0 ≤ currentRating ≤ 10`. When a track is stored, (1) and (2) send nothing
themselves and leave a rating-save timeout pending that carries exactly the new
`currentRating`; the firing of a rating-save timeout that carries `v` sends only
rating writes with rating `v`; and every request `adjustRating` sends is a rating
write with rating `clamp(currentRating + delta, 0, 10)`. So no rating outside
`[0, 10]` reaches the remote. -/
theorem C16_rating_in_range (p : Plugin) (h0 : 0 ≤ p.state.currentRating)
    (h1 : p.state.currentRating ≤ 10) :
    (∀ (context : String) (ticks : Int) (loc server : Response Unit) (now : Int)
        (entry : ActionEntry),
        p.state.getAction context = some entry → entry.action = ACTIONS_STRIP →
        entry.settings.dialAction = some "rating" →
        0 ≤ (onDialRotate context ticks loc server now p).state.currentRating ∧
          (onDialRotate context ticks loc server now p).state.currentRating ≤ 10 ∧
          (onDialRotate context ticks loc server now p).requests = p.requests ∧
          (p.state.currentTrack ≠ none →
            (p.nextHandle, now + 2000,
                Task.ratingSave (onDialRotate context ticks loc server now p).state.currentRating) ∈
              (onDialRotate context ticks loc server now p).timeouts ∧
            (onDialRotate context ticks loc server now p).state.ratingSaveTimer =
              some p.nextHandle)) ∧
      (∀ (context : String) (loc server : Response Unit) (now : Int),
        0 ≤ (handleButtonAction ACTIONS_RATING context loc server now p).state.currentRating ∧
          (handleButtonAction ACTIONS_RATING context loc server now p).state.currentRating ≤ 10 ∧
          (handleButtonAction ACTIONS_RATING context loc server now p).requests = p.requests ∧
          (p.state.currentTrack ≠ none →
            (p.nextHandle, now + 2000,
                Task.ratingSave
                  (handleButtonAction ACTIONS_RATING context loc server now
                    p).state.currentRating) ∈
              (handleButtonAction ACTIONS_RATING context loc server now p).timeouts ∧
            (handleButtonAction ACTIONS_RATING context loc server now p).state.ratingSaveTimer =
              some p.nextHandle)) ∧
      (∀ (server : Response Unit) (delta : Int),
        0 ≤ (adjustRating p.plex server delta p.state).1.currentRating ∧
          (adjustRating p.plex server delta p.state).1.currentRating ≤ 10 ∧
          0 ≤ clamp (p.state.currentRating + delta) 0 10 ∧
          clamp (p.state.currentRating + delta) 0 10 ≤ 10 ∧
          ∀ r ∈ (adjustRating p.plex server delta p.state).2,
            ∃ key, r.2 = Command.rate key (clamp (p.state.currentRating + delta) 0 10)) ∧
      (∀ (v : Int) (server : Response Unit) (q : Plugin),
        ∀ r ∈ (ratingSaveFired v server q).requests,
          r ∈ q.requests ∨ ∃ key, r.2 = Command.rate key v) := by
  refine ⟨?_, ?_, ?_, ?_⟩
  · intro context ticks loc server now entry ha hs hd
    cases ht : p.state.currentTrack with
    | none =>
      rw [onDialRotate_rating_no_track context ticks loc server now p entry ha hs hd ht]
      exact ⟨h0, h1, rfl, fun hne => absurd rfl hne⟩
    | some track =>
      rw [onDialRotate_rating context ticks loc server now p entry track ha hs hd ht]
      obtain ⟨f1, f2, f3, _, f5, _, _, _⟩ := storeRating_fields
        (max 0 (min 10 (p.state.currentRating + ticks *
          (if strOr entry.settings.ratingMode "half" = "half" then RATING_HALF_STAR
            else RATING_FULL_STAR)))) now p
      rw [f1, f2, f3, f5]
      refine ⟨by omega, by omega, rfl, fun _ => ⟨?_, rfl⟩⟩
      simp
  · intro context loc server now
    rw [handleButtonAction_rating]
    cases ht : p.state.currentTrack with
    | none =>
      rw [ratingButton_no_track context now p ht]
      exact ⟨h0, h1, rfl, fun hne => absurd rfl hne⟩
    | some track =>
      rw [ratingButton_track context now p track ht]
      obtain ⟨f1, f2, f3, _, f5, _, _, _⟩ := storeRating_fields
        (if p.state.currentRating +
            (if strOr (p.state.getActionSettings context).ratingMode "half" = "half" then
              RATING_HALF_STAR else RATING_FULL_STAR) > RATING_MAX then 0
          else p.state.currentRating +
            (if strOr (p.state.getActionSettings context).ratingMode "half" = "half" then
              RATING_HALF_STAR else RATING_FULL_STAR)) now p
      rw [f1, f2, f3, f5]
      have hstep := ratingStep_cases (p.state.getActionSettings context).ratingMode
      refine ⟨?_, ?_, rfl, fun _ => ⟨by simp, rfl⟩⟩
      · rcases hstep with h | h <;> rw [h] <;> simp only [RATING_MAX] <;> split <;> omega
      · rcases hstep with h | h <;> rw [h] <;> simp only [RATING_MAX] <;> split <;> omega
  · intro server delta
    have hc := clamp_range (p.state.currentRating + delta) 10 (by decide)
    refine ⟨?_, ?_, hc.1, hc.2, ?_⟩
    · rcases setRating_currentRating p.plex server
          (clamp (p.state.currentRating + delta) 0 10) none p.state with h | h
      · exact h ▸ h0
      · exact h ▸ hc.1
    · rcases setRating_currentRating p.plex server
          (clamp (p.state.currentRating + delta) 0 10) none p.state with h | h
      · exact h ▸ h1
      · exact h ▸ hc.2
    · intro r hr
      exact ⟨_, congrArg Prod.snd (setRating_requests p.plex server _ none p.state r hr)⟩
  · intro v server q r hr
    rw [(ratingSaveFired_requests v server q).1, List.mem_append] at hr
    rcases hr with hr | hr
    · exact Or.inl hr
    · exact Or.inr ⟨_, congrArg Prod.snd (setRating_requests q.plex server v none q.state r hr)⟩

/-- C16 at concrete inputs: from rating 8, nine dial ticks give 10 and a press of
the rating button (half mode) gives 9; `adjustRating(-20)` writes 0. -/
theorem C16_rating_in_range_witness :
    (0 ≤ samplePlugin.state.currentRating ∧ samplePlugin.state.currentRating ≤ 10) ∧
      (onDialRotate "strip-1" 9 (Response.ok ()) Response.failed 1000000
        samplePlugin).state.currentRating ≤ 10 ∧
      (onDialRotate "strip-1" 9 (Response.ok ()) Response.failed 1000000
        samplePlugin).state.currentRating = 10 ∧
      (handleButtonAction ACTIONS_RATING "rate-1" (Response.ok ()) Response.failed 1000000
        samplePlugin).state.currentRating ≤ 10 ∧
      (handleButtonAction ACTIONS_RATING "rate-1" (Response.ok ()) Response.failed 1000000
        samplePlugin).timeouts = [(1, 1002000, Task.ratingSave 9)] ∧
      (adjustRating samplePlugin.plex (Response.ok ()) (-20) samplePlugin.state).2 =
        [(Target.server, Command.rate (some "42") 0)] :=
  ⟨⟨by decide, by decide⟩,
    ((C16_rating_in_range samplePlugin (by decide) (by decide)).1 "strip-1" 9 (Response.ok ())
      Response.failed 1000000
      ⟨ACTIONS_STRIP, { Settings.empty with dialAction := some "rating" }⟩ (by decide)
      (by decide) (by decide)).2.1,
    by decide,
    ((C16_rating_in_range samplePlugin (by decide) (by decide)).2.1 "rate-1" (Response.ok ())
      Response.failed 1000000).2.1,
    by decide, by decide⟩

/-! ## C17: rating debounce -/

theorem ratingTimeouts_mem_handle (p : Plugin) (hc : ratingTimerConsistent p)
    (t : Nat × Int × Task) (ht : t ∈ p.timeouts) (hr : t.2.2.isRatingSave = true) :
    p.state.ratingSaveTimer = some t.1 := by
  have hmem : t.1 ∈ (ratingTimeouts p).map Prod.fst :=
    List.mem_map.mpr ⟨t, List.mem_filter.mpr ⟨ht, hr⟩, rfl⟩
  unfold ratingTimerConsistent at hc
  rw [hc] at hmem
  cases hs : p.state.ratingSaveTimer with
  | none => rw [hs] at hmem; simp at hmem
  | some h =>
    rw [hs] at hmem
    simp only [Option.toList, List.mem_singleton] at hmem
    rw [hmem]

theorem storeRating_timers (v now : Int) (p : Plugin) (hf : handlesFresh p)
    (hc : ratingTimerConsistent p) :
    ratingTimeouts (storeRating v now p) = [(p.nextHandle, now + 2000, Task.ratingSave v)] ∧
      handlesFresh (storeRating v now p) ∧ ratingTimerConsistent (storeRating v now p) ∧
      ∃ old, (storeRating v now p).timeouts =
          old ++ [(p.nextHandle, now + 2000, Task.ratingSave v)] ∧
        ∀ t ∈ old, t.1 < p.nextHandle := by
  obtain ⟨_, f2, f3, f4, _, _, _, _⟩ := storeRating_fields v now p
  have hold : ∀ t : Nat × Int × Task, t ∈ (match p.state.ratingSaveTimer with
      | some handle => p.timeouts.filter fun (t : Nat × Int × Task) => t.1 != handle
      | none => p.timeouts) → t ∈ p.timeouts ∧ t.2.2.isRatingSave = false := by
    intro t ht
    cases hs : p.state.ratingSaveTimer with
    | none =>
      rw [hs] at ht
      refine ⟨ht, ?_⟩
      cases hr : t.2.2.isRatingSave with
      | false => rfl
      | true =>
        have := ratingTimeouts_mem_handle p hc t ht hr
        rw [hs] at this
        exact absurd this (by simp)
    | some h =>
      rw [hs] at ht
      simp only [List.mem_filter, bne_iff_ne, ne_eq] at ht
      refine ⟨ht.1, ?_⟩
      cases hr : t.2.2.isRatingSave with
      | false => rfl
      | true =>
        have := ratingTimeouts_mem_handle p hc t ht.1 hr
        rw [hs] at this
        exact absurd (Option.some.inj this).symm ht.2
  have hrt : ratingTimeouts (storeRating v now p) =
      [(p.nextHandle, now + 2000, Task.ratingSave v)] := by
    unfold ratingTimeouts
    rw [f3, List.filter_append]
    have hnil : List.filter (fun t : Nat × Int × Task => t.2.2.isRatingSave)
        (match p.state.ratingSaveTimer with
          | some handle => p.timeouts.filter fun (t : Nat × Int × Task) => t.1 != handle
          | none => p.timeouts) = [] := by
      rw [List.filter_eq_nil_iff]
      intro t ht
      rw [(hold t ht).2]
      simp
    rw [hnil]
    rfl
  refine ⟨hrt, ?_, ?_, _, f3, fun t ht => hf t (hold t ht).1⟩
  · intro t ht
    rw [f3, List.mem_append] at ht
    rw [f4]
    rcases ht with ht | ht
    · exact Nat.lt_succ_of_lt (hf t (hold t ht).1)
    · simp only [List.mem_singleton] at ht
      rw [ht]
      exact Nat.lt_succ_self _
  · unfold ratingTimerConsistent
    rw [hrt, f2]
    rfl

theorem inRatingMode_congr (a : RatingAdjustment) (s s' : StateManager)
    (h : s'.actions = s.actions) : a.inRatingMode s' = a.inRatingMode s := by
  cases a <;> simp [RatingAdjustment.inRatingMode, StateManager.getAction, h]

theorem adjustRatingBy_store (p : Plugin) (a : RatingAdjustment) (track : Track)
    (ht : p.state.currentTrack = some track) (hv : a.inRatingMode p.state = true) :
    ∃ v, adjustRatingBy p a = storeRating v a.time p := by
  cases a with
  | dial context ticks loc server now =>
    simp only [RatingAdjustment.inRatingMode] at hv
    split at hv
    · rename_i entry ha
      simp only [Bool.and_eq_true, beq_iff_eq] at hv
      exact ⟨_, onDialRotate_rating context ticks loc server now p entry track ha hv.1 hv.2 ht⟩
    · exact absurd hv (by simp)
  | button context loc server now =>
    exact ⟨_, (handleButtonAction_rating context loc server now p).trans
      (ratingButton_track context now p track ht)⟩

theorem adjustAll_append (xs : List RatingAdjustment) (a : RatingAdjustment) :
    ∀ p : Plugin, adjustAll (xs ++ [a]) p = adjustRatingBy (adjustAll xs p) a := by
  induction xs with
  | nil => intro p; rfl
  | cons x rest ih => intro p; exact ih (adjustRatingBy p x)

theorem adjustAll_invariant (xs : List RatingAdjustment) :
    ∀ (p : Plugin) (track : Track), p.state.currentTrack = some track → handlesFresh p →
      ratingTimerConsistent p → (∀ x ∈ xs, x.inRatingMode p.state = true) →
      (adjustAll xs p).state.currentTrack = some track ∧
        (adjustAll xs p).state.actions = p.state.actions ∧
        handlesFresh (adjustAll xs p) ∧ ratingTimerConsistent (adjustAll xs p) ∧
        (adjustAll xs p).requests = p.requests ∧ (adjustAll xs p).plex = p.plex := by
  induction xs with
  | nil => intro p track ht hf hc _; exact ⟨ht, rfl, hf, hc, rfl, rfl⟩
  | cons x rest ih =>
    intro p track ht hf hc hall
    obtain ⟨v, hv⟩ := adjustRatingBy_store p x track ht (hall x (List.mem_cons_self _ _))
    obtain ⟨_, _, _, _, f5, f6, f7, f8⟩ := storeRating_fields v x.time p
    obtain ⟨_, t2, t3, _⟩ := storeRating_timers v x.time p hf hc
    rw [← hv] at f5 f6 f7 f8 t2 t3
    obtain ⟨i1, i2, i3, i4, i5, i6⟩ := ih (adjustRatingBy p x) track (f7.trans ht) t2 t3
      (fun y hy => (inRatingMode_congr y p.state _ f8).trans (hall y (List.mem_cons_of_mem _ hy)))
    exact ⟨i1, i2.trans f8, i3, i4, i5.trans f5, i6.trans f6⟩

theorem find_last_fresh (old : List (Nat × Int × Task)) (h : Nat) (due now : Int) (task : Task)
    (hold : ∀ t ∈ old, t.1 < h) (hdue : due ≤ now) :
    (old ++ [(h, due, task)]).find? (fun t => t.1 == h && decide (t.2.1 ≤ now)) =
      some (h, due, task) := by
  induction old with
  | nil => simp [hdue]
  | cons t rest ih =>
    have ht : t.1 ≠ h := Nat.ne_of_lt (hold t (List.mem_cons_self _ _))
    rw [List.cons_append, List.find?_cons_of_neg _ (by simp [ht])]
    exact ih (fun t' ht' => hold t' (List.mem_cons_of_mem _ ht'))

theorem setRating_sends_one (plex : PlexConnection) (server : Response Unit) (rating : Int)
    (s : StateManager) (hk : truthy (currentRatingKey s) = true)
    (hm : truthy (getClientId s) = true) (hu : truthy plex.serverUrl = true)
    (ht : truthy plex.token = true) :
    (setRating plex server rating none s).2 =
      [(Target.server, Command.rate (currentRatingKey s) rating)] := by
  have ho : orStr none (currentRatingKey s) = currentRatingKey s := by simp [orStr, truthy]
  unfold setRating
  dsimp only
  rw [ho]
  simp only [hk, Bool.not_true, Bool.false_eq_true, if_false]
  split <;> simp [PlexConnection.serverRequests, hm, hu, ht]

theorem setRating_sends_at_most_one (plex : PlexConnection) (server : Response Unit)
    (rating : Int) (override : Option String) (s : StateManager) :
    (setRating plex server rating override s).2.length ≤ 1 := by
  have hlen : ∀ c : Command, (plex.serverRequests s c).length ≤ 1 := by
    intro c
    unfold PlexConnection.serverRequests
    split <;> simp
  unfold setRating
  dsimp only
  split
  · simp
  · split <;> exact hlen _

/-- C17: from a state with a stored track in which the pending rating-save
timeouts are consistent with `ratingSaveTimer`, after any sequence of rating
adjustments (dial rotations in rating mode and rating-button presses) ending
with the adjustment `a`: exactly one rating-save timeout is pending, its handle
is the one in `ratingSaveTimer`, it carries the `currentRating` that `a` stored
and is due 2000 ms after `a`; the adjustments themselves send no request. When
that timeout fires, `setRating` is called once with that value: at most one
request is sent, exactly one rating write for the current track with that value
when the track has a rating key and a machine identifier and the server is
configured; afterwards no rating-save timeout is pending. -/
theorem C17_rating_debounce (p : Plugin) (track : Track) (xs : List RatingAdjustment)
    (a : RatingAdjustment) (ht : p.state.currentTrack = some track) (hf : handlesFresh p)
    (hc : ratingTimerConsistent p)
    (hall : ∀ x ∈ xs ++ [a], x.inRatingMode p.state = true) :
    (ratingTimeouts (adjustAll (xs ++ [a]) p)).length ≤ 1 ∧
      (adjustAll (xs ++ [a]) p).requests = p.requests ∧
      ∃ h, (adjustAll (xs ++ [a]) p).state.ratingSaveTimer = some h ∧
        ratingTimeouts (adjustAll (xs ++ [a]) p) =
          [(h, a.time + 2000, Task.ratingSave (adjustAll (xs ++ [a]) p).state.currentRating)] ∧
        ∀ (loc server : Response Unit) (now : Int), a.time + 2000 ≤ now →
          (pluginStep (adjustAll (xs ++ [a]) p) (PluginEvent.timeout h loc server now)).requests =
              p.requests ++
                (setRating (adjustAll (xs ++ [a]) p).plex server
                  (adjustAll (xs ++ [a]) p).state.currentRating none
                  (adjustAll (xs ++ [a]) p).state).2 ∧
            (setRating (adjustAll (xs ++ [a]) p).plex server
              (adjustAll (xs ++ [a]) p).state.currentRating none
              (adjustAll (xs ++ [a]) p).state).2.length ≤ 1 ∧
            (truthy track.metadata.ratingKey = true →
              truthy (getClientId (adjustAll (xs ++ [a]) p).state) = true →
              truthy p.plex.serverUrl = true → truthy p.plex.token = true →
              (pluginStep (adjustAll (xs ++ [a]) p)
                  (PluginEvent.timeout h loc server now)).requests =
                p.requests ++
                  [(Target.server,
                    Command.rate track.metadata.ratingKey
                      (adjustAll (xs ++ [a]) p).state.currentRating)]) ∧
            ratingTimeouts
                (pluginStep (adjustAll (xs ++ [a]) p) (PluginEvent.timeout h loc server now)) =
              [] ∧
            (pluginStep (adjustAll (xs ++ [a]) p)
              (PluginEvent.timeout h loc server now)).state.ratingSaveTimer = none := by
  obtain ⟨i1, i2, i3, i4, i5, i6⟩ := adjustAll_invariant xs p track ht hf hc
    (fun x hx => hall x (List.mem_append_left _ hx))
  have hva : a.inRatingMode (adjustAll xs p).state = true :=
    (inRatingMode_congr a p.state _ i2).trans (hall a (by simp))
  obtain ⟨v, hv⟩ := adjustRatingBy_store (adjustAll xs p) a track i1 hva
  obtain ⟨f1, f2, _, _, f5, f6, f7, _⟩ := storeRating_fields v a.time (adjustAll xs p)
  obtain ⟨t1, _, _, old, t4, t5⟩ := storeRating_timers v a.time (adjustAll xs p) i3 i4
  rw [adjustAll_append, hv]
  rw [f1]
  refine ⟨by rw [t1]; simp, f5.trans i5, _, f2, t1, ?_⟩
  intro loc server now hdue
  have hfind := find_last_fresh old (adjustAll xs p).nextHandle (a.time + 2000) now
    (Task.ratingSave v) t5 hdue
  have hstep : pluginStep (storeRating v a.time (adjustAll xs p))
      (PluginEvent.timeout (adjustAll xs p).nextHandle loc server now) =
      ratingSaveFired v server
        ((storeRating v a.time (adjustAll xs p)).clearTimeout (adjustAll xs p).nextHandle) := by
    simp only [pluginStep, t4, hfind, runTask]
  have hclear : ratingTimeouts
      ((storeRating v a.time (adjustAll xs p)).clearTimeout (adjustAll xs p).nextHandle) = [] := by
    unfold ratingTimeouts Plugin.clearTimeout
    dsimp only
    rw [List.filter_filter, List.filter_eq_nil_iff]
    intro t htm hcond
    simp only [Bool.and_eq_true, bne_iff_ne, ne_eq] at hcond
    have hmem : t ∈ ratingTimeouts (storeRating v a.time (adjustAll xs p)) :=
      List.mem_filter.mpr ⟨htm, hcond.1⟩
    rw [t1, List.mem_singleton] at hmem
    exact hcond.2 (by rw [hmem])
  rw [hstep]
  have hreq : (ratingSaveFired v server
      ((storeRating v a.time (adjustAll xs p)).clearTimeout
        (adjustAll xs p).nextHandle)).requests =
      p.requests ++
        (setRating (storeRating v a.time (adjustAll xs p)).plex server v none
          (storeRating v a.time (adjustAll xs p)).state).2 := by
    show (storeRating v a.time (adjustAll xs p)).requests ++ _ = _
    rw [f5, i5]
    rfl
  refine ⟨hreq, setRating_sends_at_most_one _ _ _ _ _, ?_, hclear, rfl⟩
  intro hk hm hu htok
  rw [hreq]
  have hkey : currentRatingKey (storeRating v a.time (adjustAll xs p)).state =
      track.metadata.ratingKey := by
    simp [currentRatingKey, f7, i1]
  rw [setRating_sends_one _ server v _ (by rw [hkey]; exact hk) hm (by rw [f6, i6]; exact hu)
    (by rw [f6, i6]; exact htok), hkey]

/-- C17 at concrete inputs: three adjustments of track `"42"` within 600 ms (dial
+1, rating button, dial -3, from rating 8) leave one timeout, carrying 7 and due
2000 ms after the last one; its firing sends one rating write with 7. -/
theorem C17_rating_debounce_witness :
    samplePlugin.state.currentTrack = some ⟨sampleMetadata (some 6), some "player-1"⟩ ∧
      handlesFresh samplePlugin ∧ ratingTimerConsistent samplePlugin ∧
      (ratingTimeouts
        (adjustAll
          ([RatingAdjustment.dial "strip-1" 1 (Response.ok ()) Response.failed 1000000,
              RatingAdjustment.button "rate-1" (Response.ok ()) Response.failed 1000300] ++
            [RatingAdjustment.dial "strip-1" (-3) (Response.ok ()) Response.failed 1000600])
          samplePlugin)).length ≤ 1 ∧
      (adjustAll
        ([RatingAdjustment.dial "strip-1" 1 (Response.ok ()) Response.failed 1000000,
            RatingAdjustment.button "rate-1" (Response.ok ()) Response.failed 1000300] ++
          [RatingAdjustment.dial "strip-1" (-3) (Response.ok ()) Response.failed 1000600])
        samplePlugin).timeouts = [(3, 1002600, Task.ratingSave 7)] ∧
      (pluginStep
        (adjustAll
          ([RatingAdjustment.dial "strip-1" 1 (Response.ok ()) Response.failed 1000000,
              RatingAdjustment.button "rate-1" (Response.ok ()) Response.failed 1000300] ++
            [RatingAdjustment.dial "strip-1" (-3) (Response.ok ()) Response.failed 1000600])
          samplePlugin)
        (PluginEvent.timeout 3 (Response.ok ()) (Response.ok ()) 1002600)).requests =
        [(Target.server, Command.rate (some "42") 7)] :=
  ⟨by decide, by decide, by decide,
    (C17_rating_debounce samplePlugin ⟨sampleMetadata (some 6), some "player-1"⟩
      [RatingAdjustment.dial "strip-1" 1 (Response.ok ()) Response.failed 1000000,
        RatingAdjustment.button "rate-1" (Response.ok ()) Response.failed 1000300]
      (RatingAdjustment.dial "strip-1" (-3) (Response.ok ()) Response.failed 1000600)
      (by decide) (by decide) (by decide) (by decide)).1,
    by decide, by decide⟩

/-! ## Polls do not touch contexts, timers or workers -/

theorem applyRatingCache_hostFields (md : Metadata) (s : StateManager) :
    (applyRatingCache md s).hostFields = s.hostFields := by
  cases hc : s.getUserRating md.ratingKey with
  | none => rw [applyRatingCache_absent _ _ hc]; rfl
  | some c =>
    by_cases hS : orElse md.userRating 0 = c
    · rw [applyRatingCache_converged _ _ _ hc hS]
      rfl
    · rw [applyRatingCache_waiting _ _ _ hc hS]
      rfl

theorem loadAlbumArt_hostFields (art : Response String) (color : String) (s : StateManager) :
    (loadAlbumArt art color s).hostFields = s.hostFields := by
  cases art <;> rfl

theorem updateTrack_hostFields (s : StateManager) (track : Track) :
    (s.updateTrack track).hostFields = s.hostFields := by
  unfold StateManager.updateTrack
  split <;> rfl

theorem loadTrackData_hostFields (plex : PlexConnection) (env : Remote) (tl : Timeline)
    (s : StateManager) : (loadTrackData plex env tl s).hostFields = s.hostFields := by
  unfold loadTrackData
  split
  · rfl
  · split
    · rfl
    · rfl
    · rename_i md _
      have h2 : (applyRatingCache md (s.updateTrack ⟨md, tl.machineIdentifier⟩)).hostFields =
          s.hostFields :=
        (applyRatingCache_hostFields _ _).trans (updateTrack_hostFields _ _)
      dsimp only
      split <;> split <;>
        first
          | exact h2
          | exact (loadAlbumArt_hostFields _ _ _).trans h2

theorem updateFromTimeline_hostFields (plex : PlexConnection) (env : Remote) (now : Int)
    (tl : Timeline) (s : StateManager) :
    (updateFromTimeline plex env now (some tl) s).hostFields = s.hostFields := by
  cases h : trackChanged s tl with
  | false =>
    rw [updateFromTimeline_same_track plex env now s tl h, applyTimeline_eq]
    rfl
  | true =>
    rw [updateFromTimeline_changed plex env now s tl h, loadTrackData_hostFields,
      applyTimeline_eq]
    rfl

theorem handleNoSession_hostFields (s : StateManager) :
    (handleNoSession s).hostFields = s.hostFields := by
  unfold handleNoSession
  split <;> rfl

theorem pollTimeline_hostFields (plex : PlexConnection) (env : Remote) (now : Int)
    (s : StateManager) : (pollTimeline plex env now s).hostFields = s.hostFields := by
  have h1 : (plex.fetchTimeline env.timeline s).1.hostFields = s.hostFields := by
    rcases fetchTimeline_session_fields plex env.timeline s with h | h <;> rw [h]
    rfl
  unfold pollTimeline
  split
  · rename_i s1 timeline heq
    rw [heq] at h1
    split
    · exact (updateFromTimeline_hostFields plex env now timeline s1).trans h1
    · exact (handleNoSession_hostFields s1).trans h1
  · rename_i s1 heq
    rw [heq] at h1
    exact (handleNoSession_hostFields s1).trans h1

/-! ## C19: scheduler lifecycle -/

theorem hasActions_iff (s : StateManager) : s.hasActions = true ↔ s.actions ≠ [] := by
  simp [StateManager.hasActions, List.length_pos]

theorem entrySet_ne_nil {α : Type} (obj : List (String × α)) (k : String) (v : α) :
    entrySet obj k v ≠ [] := by
  cases obj with
  | nil => simp [entrySet]
  | cons e rest =>
    obtain ⟨k', v'⟩ := e
    simp only [entrySet]
    split <;> simp

theorem entryDelete_ne_nil {α : Type} (obj : List (String × α)) (k : String)
    (h : entryDelete obj k ≠ []) : obj ≠ [] := by
  intro hn
  rw [hn] at h
  exact h rfl

theorem applySettingsToGlobal_fields (settings : Settings) (p : Plugin) :
    (applySettingsToGlobal settings p).state.hostFields = p.state.hostFields ∧
      (applySettingsToGlobal settings p).workers = p.workers ∧
      (applySettingsToGlobal settings p).nextHandle = p.nextHandle := by
  unfold applySettingsToGlobal configurePlexConnection
  dsimp only
  split <;> split <;> split <;> split <;> split <;> (exact ⟨rfl, rfl, rfl⟩)

theorem startPolling_running (env : Remote) (now : Int) (p : Plugin)
    (h : p.state.pollWorker.isSome = true) : startPolling env now p = p := by
  simp [startPolling, h]

theorem startPolling_idle (env : Remote) (now : Int) (p : Plugin)
    (h : p.state.pollWorker = none) :
    (startPolling env now p).state.pollWorker = some p.nextHandle ∧
      (startPolling env now p).state.renderWorker = some (p.nextHandle + 1) ∧
      (startPolling env now p).workers = p.workers ++ [p.nextHandle, p.nextHandle + 1] ∧
      (startPolling env now p).state.actions = p.state.actions := by
  have hp := pollTimeline_hostFields p.plex env now
    (p.state.setWorkers p.nextHandle (p.nextHandle + 1))
  simp only [StateManager.hostFields, Prod.mk.injEq] at hp
  obtain ⟨a1, _, _, a4, a5⟩ := hp
  unfold startPolling
  rw [if_neg (by simp [h])]
  exact ⟨a4, a5, rfl, a1⟩

theorem stopPolling_fields (p : Plugin) (hw : workersConsistent p) :
    (stopPolling p).state.pollWorker = none ∧ (stopPolling p).state.renderWorker = none ∧
      (stopPolling p).workers = [] ∧ (stopPolling p).state.actions = p.state.actions := by
  rcases hw with ⟨h1, h2, h3⟩ | ⟨w, h1, h2, h3⟩
  · simp [stopPolling, Plugin.terminateWorker, StateManager.clearWorkers, h1, h2, h3]
  · simp [stopPolling, Plugin.terminateWorker, StateManager.clearWorkers, h1, h2, h3]

theorem onWillAppear_consistent (context action : String) (settings : Settings) (env : Remote)
    (now : Int) (p : Plugin) (hw : workersConsistent p) :
    workersConsistent (onWillAppear context action settings env now p) ∧
      ((onWillAppear context action settings env now p).state.pollWorker.isSome = true ↔
        (onWillAppear context action settings env now p).state.actions ≠ []) := by
  obtain ⟨f1, f2, _⟩ := applySettingsToGlobal_fields settings
    { p with state := p.state.addAction context action settings }
  simp only [StateManager.hostFields, Prod.mk.injEq] at f1
  obtain ⟨a1, _, _, a4, a5⟩ := f1
  have hact : (applySettingsToGlobal settings
      { p with state := p.state.addAction context action settings }).state.actions ≠ [] := by
    rw [a1]
    exact entrySet_ne_nil _ _ _
  unfold onWillAppear
  dsimp only
  rcases hw with ⟨h1, h2, h3⟩ | ⟨w, h1, h2, h3⟩
  · have hnone : (applySettingsToGlobal settings
        { p with state := p.state.addAction context action settings }).state.pollWorker =
        none := a4.trans h1
    obtain ⟨s1, s2, s3, s4⟩ := startPolling_idle env now _ hnone
    refine ⟨Or.inr ⟨_, s1, s2, ?_⟩, ?_⟩
    · rw [s3, f2, h3]
      rfl
    · rw [s1, s4]
      simp [hact]
  · have hsome : (applySettingsToGlobal settings
        { p with state := p.state.addAction context action settings }).state.pollWorker.isSome =
        true := by
      rw [a4]
      show p.state.pollWorker.isSome = true
      rw [h1]
      rfl
    rw [startPolling_running env now _ hsome]
    refine ⟨Or.inr ⟨w, a4.trans h1, a5.trans h2, f2.trans h3⟩, ?_⟩
    simp [hsome, hact]

theorem onWillDisappear_shape (context : String) (p : Plugin) :
    ∃ q : Plugin,
      onWillDisappear context p = (if !q.state.hasActions then stopPolling q else q) ∧
        q.state.actions = entryDelete p.state.actions context ∧
        q.state.pollWorker = p.state.pollWorker ∧
        q.state.renderWorker = p.state.renderWorker ∧ q.workers = p.workers := by
  unfold onWillDisappear
  cases h : entryGet p.state.buttonHoldState context with
  | none => exact ⟨{ p with state := p.state.removeAction context }, rfl, rfl, rfl, rfl, rfl⟩
  | some hold =>
    refine ⟨{ p.clearInterval hold.seekInterval with
        state :=
          ({ (p.clearInterval hold.seekInterval).state with
              buttonHoldState :=
                entryDelete (p.clearInterval hold.seekInterval).state.buttonHoldState
                  context } : StateManager).removeAction context },
      rfl, ?_, ?_, ?_, ?_⟩ <;> cases hold.seekInterval <;> rfl

theorem onWillDisappear_consistent (context : String) (p : Plugin) (hw : workersConsistent p)
    (hl : p.state.pollWorker.isSome = true ↔ p.state.actions ≠ []) :
    workersConsistent (onWillDisappear context p) ∧
      ((onWillDisappear context p).state.pollWorker.isSome = true ↔
        (onWillDisappear context p).state.actions ≠ []) := by
  obtain ⟨q, hq, q1, q2, q3, q4⟩ := onWillDisappear_shape context p
  have hwq : workersConsistent q := by
    unfold workersConsistent at hw ⊢
    rw [q2, q3, q4]
    exact hw
  rw [hq]
  by_cases hne : q.state.actions = []
  · have hno : q.state.hasActions = false := by
      cases hh : q.state.hasActions with
      | false => rfl
      | true => exact absurd hne ((hasActions_iff _).mp hh)
    simp only [hno, Bool.not_false, if_true]
    obtain ⟨s1, s2, s3, s4⟩ := stopPolling_fields q hwq
    refine ⟨Or.inl ⟨s1, s2, s3⟩, ?_⟩
    rw [s1, s4, hne]
    simp
  · have hyes : q.state.hasActions = true := (hasActions_iff _).mpr hne
    simp only [hyes, Bool.not_true, Bool.false_eq_true, if_false]
    refine ⟨hwq, ?_⟩
    have hp : p.state.actions ≠ [] := entryDelete_ne_nil _ context (q1 ▸ hne)
    rw [q2]
    simp [hl.mpr hp, hne]

theorem lifecycle_invariant (events : List PluginEvent) :
    ∀ p : Plugin, workersConsistent p →
      (p.state.pollWorker.isSome = true ↔ p.state.actions ≠ []) →
      (∀ e ∈ events, e.isLifecycle = true) →
      workersConsistent (pluginRun events p) ∧
        ((pluginRun events p).state.pollWorker.isSome = true ↔
          (pluginRun events p).state.actions ≠ []) := by
  induction events with
  | nil => intro p hw hl _; exact ⟨hw, hl⟩
  | cons e rest ih =>
    intro p hw hl hall
    have he := hall e (List.mem_cons_self _ _)
    have hrest : ∀ e' ∈ rest, e'.isLifecycle = true :=
      fun e' he' => hall e' (List.mem_cons_of_mem _ he')
    cases e with
    | willAppear context action settings env now =>
      obtain ⟨c1, c2⟩ := onWillAppear_consistent context action settings env now p hw
      exact ih _ c1 c2 hrest
    | willDisappear context =>
      obtain ⟨c1, c2⟩ := onWillDisappear_consistent context p hw hl
      exact ih _ c1 c2 hrest
    | keyDown _ _ _ => simp [PluginEvent.isLifecycle] at he
    | keyUp _ _ _ _ _ => simp [PluginEvent.isLifecycle] at he
    | dialRotate _ _ _ _ _ => simp [PluginEvent.isLifecycle] at he
    | timeout _ _ _ _ => simp [PluginEvent.isLifecycle] at he
    | interval _ _ _ _ => simp [PluginEvent.isLifecycle] at he
    | poll _ _ => simp [PluginEvent.isLifecycle] at he
    | renderTick _ => simp [PluginEvent.isLifecycle] at he

/-- C19: after every sequence of `willAppear` / `willDisappear` events from the
loaded plugin, the poll worker and the render worker both exist iff at least one
display context is registered, and the workers that have been created and not
terminated are exactly the stored poll and render worker (at most one pair); and
`startPolling` called while a poll worker is stored creates no worker and changes
no state. -/
theorem C19_scheduler_lifecycle :
    (∀ events : List PluginEvent, (∀ e ∈ events, e.isLifecycle = true) →
        (((pluginRun events Plugin.initial).state.pollWorker.isSome = true ∧
            (pluginRun events Plugin.initial).state.renderWorker.isSome = true) ↔
          (pluginRun events Plugin.initial).state.hasActions = true) ∧
        ((pluginRun events Plugin.initial).state.hasActions = false →
          (pluginRun events Plugin.initial).state.pollWorker = none ∧
            (pluginRun events Plugin.initial).state.renderWorker = none) ∧
        (pluginRun events Plugin.initial).workers =
          (pluginRun events Plugin.initial).state.pollWorker.toList ++
            (pluginRun events Plugin.initial).state.renderWorker.toList ∧
        (pluginRun events Plugin.initial).workers.length ≤ 2) ∧
      (∀ (p : Plugin) (env : Remote) (now : Int), p.state.pollWorker.isSome = true →
        startPolling env now p = p) := by
  refine ⟨?_, fun p env now h => startPolling_running env now p h⟩
  intro events hall
  obtain ⟨hw, hl⟩ := lifecycle_invariant events Plugin.initial
    (Or.inl ⟨rfl, rfl, rfl⟩) (by decide) hall
  rw [hasActions_iff]
  have hfalse : (pluginRun events Plugin.initial).state.hasActions = false ↔
      (pluginRun events Plugin.initial).state.actions = [] := by
    rw [← not_iff_not]
    simp [hasActions_iff]
  rw [hfalse]
  rcases hw with ⟨h1, h2, h3⟩ | ⟨w, h1, h2, h3⟩
  · rw [h1] at hl
    rw [h1, h2, h3]
    simp only [Option.isSome_none, Bool.false_eq_true, false_iff, ne_eq, not_not] at hl
    simp [hl]
  · rw [h1] at hl
    rw [h1, h2, h3]
    simp only [Option.isSome_some, true_iff] at hl
    simp [hl]

/-- C19 at a concrete input: two contexts appear (the second `willAppear` creates
no worker), one disappears (the workers stay), the other disappears (the workers
are terminated). -/
theorem C19_scheduler_lifecycle_witness :
    (pluginRun
        [PluginEvent.willAppear "a" ACTIONS_STRIP Settings.empty sampleFailed 1000000,
          PluginEvent.willAppear "b" ACTIONS_NEXT Settings.empty sampleFailed 1000100]
        Plugin.initial).workers = [1, 2] ∧
      (pluginRun
        [PluginEvent.willAppear "a" ACTIONS_STRIP Settings.empty sampleFailed 1000000,
          PluginEvent.willAppear "b" ACTIONS_NEXT Settings.empty sampleFailed 1000100,
          PluginEvent.willDisappear "a"] Plugin.initial).workers = [1, 2] ∧
      (pluginRun
        [PluginEvent.willAppear "a" ACTIONS_STRIP Settings.empty sampleFailed 1000000,
          PluginEvent.willAppear "b" ACTIONS_NEXT Settings.empty sampleFailed 1000100,
          PluginEvent.willDisappear "a", PluginEvent.willDisappear "b"]
        Plugin.initial).workers = [] ∧
      (pluginRun
        [PluginEvent.willAppear "a" ACTIONS_STRIP Settings.empty sampleFailed 1000000,
          PluginEvent.willAppear "b" ACTIONS_NEXT Settings.empty sampleFailed 1000100,
          PluginEvent.willDisappear "a", PluginEvent.willDisappear "b"]
        Plugin.initial).workers.length ≤ 2 ∧
      startPolling sampleFailed 1000200
          (pluginRun
            [PluginEvent.willAppear "a" ACTIONS_STRIP Settings.empty sampleFailed 1000000]
            Plugin.initial) =
        pluginRun [PluginEvent.willAppear "a" ACTIONS_STRIP Settings.empty sampleFailed 1000000]
          Plugin.initial :=
  ⟨by decide, by decide, by decide,
    (C19_scheduler_lifecycle.1
      [PluginEvent.willAppear "a" ACTIONS_STRIP Settings.empty sampleFailed 1000000,
        PluginEvent.willAppear "b" ACTIONS_NEXT Settings.empty sampleFailed 1000100,
        PluginEvent.willDisappear "a", PluginEvent.willDisappear "b"]
      (by decide)).2.2.2,
    C19_scheduler_lifecycle.2 _ sampleFailed 1000200 (by decide)⟩

/-! ## Hold-to-seek: one period of the repeat -/

theorem entryGet_entrySet_self {α : Type} (obj : List (String × α)) (k : String) (v : α) :
    entryGet (entrySet obj k v) k = some v := by
  induction obj with
  | nil => simp [entrySet, entryGet]
  | cons e rest ih =>
    obtain ⟨k', v'⟩ := e
    by_cases h : k' = k
    · simp [entrySet, entryGet, h]
    · simp [entrySet, entryGet, h, ih]

theorem seekTo_frame (plex : PlexConnection) (loc server : Response Unit) (now x : Int)
    (s : StateManager) :
    (seekTo plex loc server now x s).1.trackDuration = s.trackDuration ∧
      (seekTo plex loc server now x s).1.buttonHoldState = s.buttonHoldState := by
  cases hres : (plex.playerCommand loc server s).2 with
  | failed =>
    rw [seekTo_failed plex loc server now x s hres]
    exact ⟨rfl, rfl⟩
  | ok u =>
    cases u
    rw [seekTo_ok plex loc server now x s hres]
    exact ⟨rfl, rfl⟩

theorem playerSeeks_append (a b : List (Target × Command)) :
    playerSeeks (a ++ b) = playerSeeks a ++ playerSeeks b := by
  simp [playerSeeks, List.filterMap_append]

theorem playerSeeks_playerRequests (plex : PlexConnection) (loc : Response Unit)
    (s : StateManager) (offset : Int) :
    playerSeeks (plex.playerRequests loc s (Command.seekTo offset)) = [offset] := by
  cases loc with
  | ok u => rfl
  | failed =>
    unfold PlexConnection.playerRequests PlexConnection.serverRequests
    dsimp only
    split <;> rfl

theorem seekRepeat_in_range_iff (target duration : Int) (hD : 0 ≤ duration) :
    max 0 (min target duration) = target ↔ 0 ≤ target ∧ target ≤ duration := by
  omega

theorem seekRepeatFired_in_range (context action : String) (loc server : Response Unit)
    (now : Int) (p : Plugin) (hs : HoldState) (target : Int)
    (hget : entryGet p.state.buttonHoldState context = some hs)
    (htp : hs.targetPosition = some target) (hD : 0 ≤ p.state.trackDuration)
    (h0 : 0 ≤ target + seekDirection action * SEEK_AMOUNT)
    (h1 : target + seekDirection action * SEEK_AMOUNT ≤ p.state.trackDuration) :
    entryGet (seekRepeatFired context action loc server now p).state.buttonHoldState context =
        some { hs with
          animationFrame := some (orElse hs.animationFrame 0 + 1)
          targetPosition := some (target + seekDirection action * SEEK_AMOUNT) } ∧
      (seekRepeatFired context action loc server now p).intervals = p.intervals ∧
      (seekRepeatFired context action loc server now p).state.trackDuration =
        p.state.trackDuration ∧
      (seekRepeatFired context action loc server now p).requests =
        p.requests ++
          p.plex.playerRequests loc p.state
            (Command.seekTo (target + seekDirection action * SEEK_AMOUNT)) := by
  have hin := (seekRepeat_in_range_iff _ _ hD).mpr ⟨h0, h1⟩
  have hclamp : clamp (target + seekDirection action * SEEK_AMOUNT) 0 p.state.trackDuration =
      target + seekDirection action * SEEK_AMOUNT := by
    simp only [clamp]
    omega
  obtain ⟨f1, f2⟩ := seekTo_frame p.plex loc server now
    (target + seekDirection action * SEEK_AMOUNT) p.state
  unfold seekRepeatFired
  simp only [hget, htp, hin, if_true]
  refine ⟨entryGet_entrySet_self _ _ _, trivial, f1, ?_⟩
  rw [seekTo_requests, hclamp]

theorem seekRepeatFired_out_of_range (context action : String) (loc server : Response Unit)
    (now : Int) (p : Plugin) (hs : HoldState) (target : Int)
    (hget : entryGet p.state.buttonHoldState context = some hs)
    (htp : hs.targetPosition = some target) (hD : 0 ≤ p.state.trackDuration)
    (hout : ¬ (0 ≤ target + seekDirection action * SEEK_AMOUNT ∧
      target + seekDirection action * SEEK_AMOUNT ≤ p.state.trackDuration)) :
    entryGet (seekRepeatFired context action loc server now p).state.buttonHoldState context =
        some { hs with
          animationFrame := some (orElse hs.animationFrame 0 + 1)
          targetPosition := some (target + seekDirection action * SEEK_AMOUNT)
          seekInterval := none } ∧
      (seekRepeatFired context action loc server now p).intervals =
        (p.clearInterval hs.seekInterval).intervals ∧
      (seekRepeatFired context action loc server now p).requests = p.requests := by
  have hin : ¬ max 0 (min (target + seekDirection action * SEEK_AMOUNT) p.state.trackDuration) =
      target + seekDirection action * SEEK_AMOUNT :=
    fun h => hout ((seekRepeat_in_range_iff _ _ hD).mp h)
  unfold seekRepeatFired
  simp only [hget, htp, hin, if_false]
  refine ⟨?_, trivial, ?_⟩
  · have hst : (p.clearInterval hs.seekInterval).state = p.state := by
      cases hs.seekInterval <;> rfl
    rw [hst]
    exact entryGet_entrySet_self _ _ _
  · cases hs.seekInterval <;> rfl

theorem holdTick_fires (context action : String) (position : Int) (loc server : Response Unit)
    (now : Int) (p : Plugin) (handle : Nat) (target duration : Int)
    (ha : holdActive context action handle target duration p) :
    holdTick context position loc server now p =
      seekRepeatFired context action loc server now
        { p with state := { p.state with currentPosition := position } } := by
  obtain ⟨hs, g1, _, g3, g4, _⟩ := ha
  unfold holdTick
  simp only [g1, g3, Option.bind, pluginStep, g4, runTask]

theorem holdTick_in_range (context action : String) (position : Int)
    (loc server : Response Unit) (now : Int) (p : Plugin) (handle : Nat)
    (target duration : Int) (ha : holdActive context action handle target duration p)
    (hD : 0 ≤ duration) (h0 : 0 ≤ target + seekDirection action * SEEK_AMOUNT)
    (h1 : target + seekDirection action * SEEK_AMOUNT ≤ duration) :
    holdActive context action handle (target + seekDirection action * SEEK_AMOUNT) duration
        (holdTick context position loc server now p) ∧
      (holdTick context position loc server now p).requests =
        p.requests ++
          p.plex.playerRequests loc { p.state with currentPosition := position }
            (Command.seekTo (target + seekDirection action * SEEK_AMOUNT)) := by
  rw [holdTick_fires context action position loc server now p handle target duration ha]
  obtain ⟨hs, g1, g2, g3, g4, g5⟩ := ha
  obtain ⟨r1, r2, r3, r4⟩ := seekRepeatFired_in_range context action loc server now
    { p with state := { p.state with currentPosition := position } } hs target g1 g2
    (by rw [show ({ p.state with currentPosition := position } : StateManager).trackDuration =
      duration from g5]; exact hD)
    h0 (by rw [show ({ p.state with currentPosition := position } : StateManager).trackDuration =
      duration from g5]; exact h1)
  refine ⟨⟨_, r1, rfl, g3, ?_, ?_⟩, r4⟩
  · rw [r2]
    exact g4
  · rw [r3]
    exact g5

theorem holdTick_out_of_range (context action : String) (position : Int)
    (loc server : Response Unit) (now : Int) (p : Plugin) (handle : Nat)
    (target duration : Int) (ha : holdActive context action handle target duration p)
    (hD : 0 ≤ duration)
    (hout : ¬ (0 ≤ target + seekDirection action * SEEK_AMOUNT ∧
      target + seekDirection action * SEEK_AMOUNT ≤ duration)) :
    holdCancelled context (target + seekDirection action * SEEK_AMOUNT)
        (holdTick context position loc server now p) ∧
      (holdTick context position loc server now p).requests = p.requests ∧
      (holdTick context position loc server now p).intervals =
        p.intervals.filter fun t => t.1 != handle := by
  rw [holdTick_fires context action position loc server now p handle target duration ha]
  obtain ⟨hs, g1, g2, g3, g4, g5⟩ := ha
  obtain ⟨r1, r2, r3⟩ := seekRepeatFired_out_of_range context action loc server now
    { p with state := { p.state with currentPosition := position } } hs target g1 g2
    (by rw [show ({ p.state with currentPosition := position } : StateManager).trackDuration =
      duration from g5]; exact hD)
    (by rw [show ({ p.state with currentPosition := position } : StateManager).trackDuration =
      duration from g5]; exact hout)
  refine ⟨⟨_, r1, rfl, rfl⟩, r3, ?_⟩
  rw [r2, g3]
  rfl

theorem holdTick_cancelled (context : String) (position : Int) (loc server : Response Unit)
    (now : Int) (p : Plugin) (target : Int) (hc : holdCancelled context target p) :
    holdCancelled context target (holdTick context position loc server now p) ∧
      (holdTick context position loc server now p).requests = p.requests := by
  obtain ⟨hs, g1, g2, g3⟩ := hc
  unfold holdTick
  simp only [g1, g3, Option.bind]
  exact ⟨⟨hs, g1, g2, g3⟩, trivial⟩

theorem holdTicks_cancelled (context : String)
    (ticks : List (Int × Response Unit × Response Unit × Int)) :
    ∀ (p : Plugin) (target : Int), holdCancelled context target p →
      (holdTicks context ticks p).requests = p.requests := by
  induction ticks with
  | nil => intro p target _; rfl
  | cons t rest ih =>
    intro p target hc
    obtain ⟨position, loc, server, now⟩ := t
    obtain ⟨c1, c2⟩ := holdTick_cancelled context position loc server now p target hc
    show (holdTicks context rest (holdTick context position loc server now p)).requests = _
    rw [ih _ target c1, c2]

theorem holdTicks_active (context action : String) (handle : Nat) (duration : Int)
    (hD : 0 ≤ duration) (ticks : List (Int × Response Unit × Response Unit × Int)) :
    ∀ (p : Plugin) (target : Int), holdActive context action handle target duration p →
      playerSeeks (holdTicks context ticks p).requests =
          playerSeeks p.requests ++
            ((List.range ticks.length).map fun i : Nat =>
              target + seekDirection action * ((i : Int) + 1) * SEEK_AMOUNT).takeWhile
              (fun t => decide (0 ≤ t ∧ t ≤ duration)) ∧
        (∀ x ∈ (holdTicks context ticks p).requests,
          x ∈ p.requests ∨ ∃ o, x.2 = Command.seekTo o ∧ 0 ≤ o ∧ o ≤ duration) ∧
        ((∀ i : Nat, i < ticks.length →
            0 ≤ target + seekDirection action * ((i : Int) + 1) * SEEK_AMOUNT ∧
              target + seekDirection action * ((i : Int) + 1) * SEEK_AMOUNT ≤ duration) →
          holdActive context action handle
            (target + seekDirection action * (ticks.length : Int) * SEEK_AMOUNT) duration
            (holdTicks context ticks p)) := by
  induction ticks with
  | nil =>
    intro p target ha
    refine ⟨by simp [holdTicks], fun x hx => Or.inl hx, fun _ => ?_⟩
    simpa [holdTicks] using ha
  | cons t rest ih =>
    intro p target ha
    obtain ⟨position, loc, server, now⟩ := t
    have hmap : (List.range (rest.length + 1)).map (fun i : Nat =>
        target + seekDirection action * ((i : Int) + 1) * SEEK_AMOUNT) =
        (target + seekDirection action * SEEK_AMOUNT) ::
          (List.range rest.length).map (fun i : Nat =>
            (target + seekDirection action * SEEK_AMOUNT) +
              seekDirection action * ((i : Int) + 1) * SEEK_AMOUNT) := by
      rw [List.range_succ_eq_map, List.map_cons, List.map_map]
      refine congrArg₂ List.cons (by simp) (List.map_congr_left fun i _ => ?_)
      simp only [Function.comp, Nat.succ_eq_add_one]
      push_cast
      ring
    show playerSeeks
        (holdTicks context rest (holdTick context position loc server now p)).requests = _ ∧
      (∀ x ∈ (holdTicks context rest (holdTick context position loc server now p)).requests,
        _) ∧
      (_ → holdActive context action handle _ duration
        (holdTicks context rest (holdTick context position loc server now p)))
    rw [List.length_cons, hmap]
    by_cases hin : 0 ≤ target + seekDirection action * SEEK_AMOUNT ∧
        target + seekDirection action * SEEK_AMOUNT ≤ duration
    · obtain ⟨a1, a2⟩ := holdTick_in_range context action position loc server now p handle
        target duration ha hD hin.1 hin.2
      obtain ⟨i1, i2, i3⟩ := ih _ _ a1
      refine ⟨?_, ?_, ?_⟩
      · rw [i1, a2, playerSeeks_append, playerSeeks_playerRequests,
          List.takeWhile_cons_of_pos (by simpa using hin)]
        simp
      · intro x hx
        rcases i2 x hx with h | h
        · rw [a2, List.mem_append] at h
          rcases h with h | h
          · exact Or.inl h
          · exact Or.inr ⟨_, (playerRequests_command _ _ _ _).2 x h, hin.1, hin.2⟩
        · exact Or.inr h
      · intro hall
        have hrest : ∀ i : Nat, i < rest.length →
            0 ≤ (target + seekDirection action * SEEK_AMOUNT) +
                seekDirection action * ((i : Int) + 1) * SEEK_AMOUNT ∧
              (target + seekDirection action * SEEK_AMOUNT) +
                seekDirection action * ((i : Int) + 1) * SEEK_AMOUNT ≤ duration := by
          intro i hi
          have := hall (i + 1) (by omega)
          have he : target + seekDirection action * (((i + 1 : Nat) : Int) + 1) * SEEK_AMOUNT =
              (target + seekDirection action * SEEK_AMOUNT) +
                seekDirection action * ((i : Int) + 1) * SEEK_AMOUNT := by
            push_cast
            ring
          rw [he] at this
          exact this
        have hfin := i3 hrest
        have he : target + seekDirection action * ((rest.length + 1 : Nat) : Int) * SEEK_AMOUNT =
            (target + seekDirection action * SEEK_AMOUNT) +
              seekDirection action * (rest.length : Int) * SEEK_AMOUNT := by
          push_cast
          ring
        rw [he]
        exact hfin
    · obtain ⟨c1, c2, _⟩ := holdTick_out_of_range context action position loc server now p
        handle target duration ha hD hin
      have hreq := holdTicks_cancelled context rest _ _ c1
      refine ⟨?_, ?_, ?_⟩
      · rw [hreq, c2, List.takeWhile_cons_of_neg (by simpa using hin)]
        simp
      · intro x hx
        rw [hreq, c2] at hx
        exact Or.inl hx
      · intro hall
        have := hall 0 (by omega)
        simp only [Nat.cast_zero, zero_add, mul_one] at this
        exact absurd this hin

theorem seekDirection_cases (action : String) :
    seekDirection action = -1 ∨ seekDirection action = 1 := by
  unfold seekDirection
  split
  · exact Or.inl rfl
  · exact Or.inr rfl

theorem find_appended_fresh {α : Type} (l : List (Nat × α)) (handle : Nat) (a : α)
    (hfresh : ∀ t ∈ l, t.1 ≠ handle) :
    (l ++ [(handle, a)]).find? (fun t => t.1 == handle) = some (handle, a) := by
  induction l with
  | nil => simp
  | cons e rest ih =>
    have he : e.1 ≠ handle := hfresh e (List.mem_cons_self _ _)
    have hr := ih fun t ht => hfresh t (List.mem_cons_of_mem _ ht)
    have hb : (e.1 == handle) = false := by simpa using he
    rw [List.cons_append, List.find?_cons, hb]
    exact hr

theorem holdThresholdFired_starts (context action : String) (loc server : Response Unit)
    (now : Int) (p : Plugin) (hold : HoldState)
    (hget : entryGet p.state.buttonHoldState context = some hold) (hds : hold.didSeek = false)
    (hfresh : ∀ t ∈ p.intervals, t.1 ≠ p.nextHandle) (hD : 0 ≤ p.state.trackDuration) :
    holdActive context action p.nextHandle
        (p.state.currentPosition + seekDirection action * SEEK_AMOUNT) p.state.trackDuration
        (holdThresholdFired context action loc server now p) ∧
      (holdThresholdFired context action loc server now p).requests =
        p.requests ++
          p.plex.playerRequests loc p.state
            (Command.seekTo
              (clamp (p.state.currentPosition + seekDirection action * SEEK_AMOUNT) 0
                p.state.trackDuration)) := by
  have hclamp : clamp (max 0 (min (p.state.currentPosition + seekDirection action * SEEK_AMOUNT)
      p.state.trackDuration)) 0 p.state.trackDuration =
      clamp (p.state.currentPosition + seekDirection action * SEEK_AMOUNT) 0
        p.state.trackDuration := by
    simp only [clamp]
    omega
  obtain ⟨f1, f2⟩ := seekTo_frame p.plex loc server now
    (max 0 (min (p.state.currentPosition + seekDirection action * SEEK_AMOUNT)
      p.state.trackDuration)) p.state
  unfold holdThresholdFired
  simp only [hget, hds, Bool.false_eq_true, if_false, Plugin.setInterval]
  refine ⟨⟨_, entryGet_entrySet_self _ _ _, rfl, rfl, ?_, f1⟩, ?_⟩
  · exact find_appended_fresh p.intervals p.nextHandle _ hfresh
  · show p.requests ++ _ = _
    rw [seekTo_requests, hclamp]

theorem takeWhile_range_head {β : Type} (f : Nat → β) (q : β → Bool) (n : Nat)
    (h : q (f 0) = false) : ((List.range n).map f).takeWhile q = [] := by
  cases n with
  | zero => rfl
  | succ m =>
    rw [List.range_succ_eq_map, List.map_cons, List.takeWhile_cons_of_neg (by simp [h])]

/-! ## C14: the targets of a hold-to-seek -/

/-- C14: let the hold threshold of a held key fire in a state with
`currentPosition = p0` and `trackDuration = D ≥ 0`, and let `d` be the direction of
the control. Then `d` is `-1` or `1`, exactly one seek is issued, to
`clamp (p0 + d * SEEK_AMOUNT) 0 D`, and the repeat starts with local target
`p0 + d * SEEK_AMOUNT`. For every run of repeat periods that follows, whatever
`currentPosition` has become before each period: the seeks issued are the targets
`p0 + d * (k + 1) * SEEK_AMOUNT` for `k = 1, 2, ...` up to the first one outside
`[0, D]`; every request the hold sends is a seek to an offset in `[0, D]`; after `n` periods
with targets in range the local target is `p0 + d * (n + 1) * SEEK_AMOUNT`, and the
next period sets it to `p0 + d * (n + 2) * SEEK_AMOUNT`, seeking there if that lies in
`[0, D]` and otherwise sending nothing, clearing the interval and storing no handle;
and when `p0` lies in `[0, D]` but the first target does not, no period issues a
seek. -/
theorem C14_hold_seek_targets (context action : String) (loc server : Response Unit)
    (now : Int) (p : Plugin) (hold : HoldState)
    (hget : entryGet p.state.buttonHoldState context = some hold) (hds : hold.didSeek = false)
    (hfresh : ∀ t ∈ p.intervals, t.1 ≠ p.nextHandle) (hD : 0 ≤ p.state.trackDuration) :
    (seekDirection action = -1 ∨ seekDirection action = 1) ∧
      playerSeeks (holdThresholdFired context action loc server now p).requests =
        playerSeeks p.requests ++
          [clamp (p.state.currentPosition + seekDirection action * SEEK_AMOUNT) 0
            p.state.trackDuration] ∧
      (∀ x ∈ (holdThresholdFired context action loc server now p).requests,
        x ∈ p.requests ∨
          x.2 = Command.seekTo
            (clamp (p.state.currentPosition + seekDirection action * SEEK_AMOUNT) 0
              p.state.trackDuration)) ∧
      holdActive context action p.nextHandle
        (p.state.currentPosition + seekDirection action * SEEK_AMOUNT) p.state.trackDuration
        (holdThresholdFired context action loc server now p) ∧
      ∀ ticks : List (Int × Response Unit × Response Unit × Int),
        playerSeeks
            (holdTicks context ticks
              (holdThresholdFired context action loc server now p)).requests =
          playerSeeks (holdThresholdFired context action loc server now p).requests ++
            ((List.range ticks.length).map fun k : Nat =>
              p.state.currentPosition +
                seekDirection action * ((k : Int) + 2) * SEEK_AMOUNT).takeWhile
              (fun t => decide (0 ≤ t ∧ t ≤ p.state.trackDuration)) ∧
        (∀ x ∈ (holdTicks context ticks
            (holdThresholdFired context action loc server now p)).requests,
          x ∈ p.requests ∨
            ∃ o, x.2 = Command.seekTo o ∧ 0 ≤ o ∧ o ≤ p.state.trackDuration) ∧
        ((∀ k : Nat, k < ticks.length →
            0 ≤ p.state.currentPosition + seekDirection action * ((k : Int) + 2) * SEEK_AMOUNT ∧
              p.state.currentPosition + seekDirection action * ((k : Int) + 2) * SEEK_AMOUNT ≤
                p.state.trackDuration) →
          holdActive context action p.nextHandle
              (p.state.currentPosition +
                seekDirection action * ((ticks.length : Int) + 1) * SEEK_AMOUNT)
              p.state.trackDuration
              (holdTicks context ticks (holdThresholdFired context action loc server now p)) ∧
            ∀ (position : Int) (loc2 server2 : Response Unit) (now2 : Int),
              ((0 ≤ p.state.currentPosition +
                    seekDirection action * ((ticks.length : Int) + 2) * SEEK_AMOUNT ∧
                  p.state.currentPosition +
                    seekDirection action * ((ticks.length : Int) + 2) * SEEK_AMOUNT ≤
                      p.state.trackDuration) →
                holdActive context action p.nextHandle
                    (p.state.currentPosition +
                      seekDirection action * ((ticks.length : Int) + 2) * SEEK_AMOUNT)
                    p.state.trackDuration
                    (holdTick context position loc2 server2 now2
                      (holdTicks context ticks
                        (holdThresholdFired context action loc server now p))) ∧
                  playerSeeks
                      (holdTick context position loc2 server2 now2
                        (holdTicks context ticks
                          (holdThresholdFired context action loc server now p))).requests =
                    playerSeeks
                        (holdTicks context ticks
                          (holdThresholdFired context action loc server now p)).requests ++
                      [p.state.currentPosition +
                        seekDirection action * ((ticks.length : Int) + 2) * SEEK_AMOUNT]) ∧
              (¬ (0 ≤ p.state.currentPosition +
                    seekDirection action * ((ticks.length : Int) + 2) * SEEK_AMOUNT ∧
                  p.state.currentPosition +
                    seekDirection action * ((ticks.length : Int) + 2) * SEEK_AMOUNT ≤
                      p.state.trackDuration) →
                holdCancelled context
                    (p.state.currentPosition +
                      seekDirection action * ((ticks.length : Int) + 2) * SEEK_AMOUNT)
                    (holdTick context position loc2 server2 now2
                      (holdTicks context ticks
                        (holdThresholdFired context action loc server now p))) ∧
                  (holdTick context position loc2 server2 now2
                      (holdTicks context ticks
                        (holdThresholdFired context action loc server now p))).requests =
                    (holdTicks context ticks
                      (holdThresholdFired context action loc server now p)).requests ∧
                  ∀ t ∈ (holdTick context position loc2 server2 now2
                      (holdTicks context ticks
                        (holdThresholdFired context action loc server now p))).intervals,
                    t.1 ≠ p.nextHandle)) ∧
        (0 ≤ p.state.currentPosition → p.state.currentPosition ≤ p.state.trackDuration →
          ¬ (0 ≤ p.state.currentPosition + seekDirection action * SEEK_AMOUNT ∧
            p.state.currentPosition + seekDirection action * SEEK_AMOUNT ≤
              p.state.trackDuration) →
          playerSeeks
              (holdTicks context ticks
                (holdThresholdFired context action loc server now p)).requests =
            playerSeeks (holdThresholdFired context action loc server now p).requests) := by
  obtain ⟨hA, hR⟩ := holdThresholdFired_starts context action loc server now p hold hget hds
    hfresh hD
  refine ⟨seekDirection_cases action, ?_, ?_, hA, fun ticks => ?_⟩
  · rw [hR, playerSeeks_append, playerSeeks_playerRequests]
  · intro x hx
    rw [hR, List.mem_append] at hx
    rcases hx with h | h
    · exact Or.inl h
    · exact Or.inr ((playerRequests_command _ _ _ _).2 x h)
  · obtain ⟨i1, i2, i3⟩ := holdTicks_active context action p.nextHandle p.state.trackDuration
      hD ticks _ _ hA
    have hfun : (fun i : Nat =>
        p.state.currentPosition + seekDirection action * SEEK_AMOUNT +
          seekDirection action * ((i : Int) + 1) * SEEK_AMOUNT) =
        fun k : Nat =>
          p.state.currentPosition + seekDirection action * ((k : Int) + 2) * SEEK_AMOUNT := by
      funext i
      ring
    rw [hfun] at i1
    refine ⟨i1, ?_, ?_, ?_⟩
    · intro x hx
      rcases i2 x hx with h | h
      · rw [hR, List.mem_append] at h
        rcases h with h | h
        · exact Or.inl h
        · exact Or.inr ⟨_, (playerRequests_command _ _ _ _).2 x h,
            clamp_range _ _ hD⟩
      · exact Or.inr h
    · intro hall
      have hall2 : ∀ i : Nat, i < ticks.length →
          0 ≤ p.state.currentPosition + seekDirection action * SEEK_AMOUNT +
              seekDirection action * ((i : Int) + 1) * SEEK_AMOUNT ∧
            p.state.currentPosition + seekDirection action * SEEK_AMOUNT +
              seekDirection action * ((i : Int) + 1) * SEEK_AMOUNT ≤ p.state.trackDuration := by
        intro i hi
        have he : p.state.currentPosition + seekDirection action * SEEK_AMOUNT +
            seekDirection action * ((i : Int) + 1) * SEEK_AMOUNT =
            p.state.currentPosition + seekDirection action * ((i : Int) + 2) * SEEK_AMOUNT := by
          ring
        rw [he]
        exact hall i hi
      have hact := i3 hall2
      have he1 : p.state.currentPosition + seekDirection action * SEEK_AMOUNT +
          seekDirection action * (ticks.length : Int) * SEEK_AMOUNT =
          p.state.currentPosition +
            seekDirection action * ((ticks.length : Int) + 1) * SEEK_AMOUNT := by
        ring
      rw [he1] at hact
      have he2 : p.state.currentPosition +
          seekDirection action * ((ticks.length : Int) + 2) * SEEK_AMOUNT =
          p.state.currentPosition +
            seekDirection action * ((ticks.length : Int) + 1) * SEEK_AMOUNT +
            seekDirection action * SEEK_AMOUNT := by
        ring
      refine ⟨hact, fun position loc2 server2 now2 => ?_⟩
      rw [he2]
      constructor
      · intro hin
        obtain ⟨a1, a2⟩ := holdTick_in_range context action position loc2 server2 now2 _
          p.nextHandle _ p.state.trackDuration hact hD hin.1 hin.2
        refine ⟨a1, ?_⟩
        rw [a2, playerSeeks_append, playerSeeks_playerRequests]
      · intro hout
        obtain ⟨c1, c2, c3⟩ := holdTick_out_of_range context action position loc2 server2 now2
          _ p.nextHandle _ p.state.trackDuration hact hD hout
        refine ⟨c1, c2, ?_⟩
        rw [c3]
        intro t ht
        have := (List.mem_filter.mp ht).2
        simpa using this
    · intro h0 h1 hout
      rw [i1, takeWhile_range_head]
      · simp
      · rw [decide_eq_false_iff_not]
        simp only [SEEK_AMOUNT] at hout ⊢
        rcases seekDirection_cases action with h | h <;> rw [h] at hout ⊢ <;>
          simp only [Nat.cast_zero] <;> omega

/-- C14 at a concrete input: a NEXT key is held from position 4000 of a track of
180000 ms; the threshold seeks to 14000 and three periods, before which the stored
position has become 14200, 3000 and 34100, seek to 24000, 34000 and 44000. -/
theorem C14_hold_seek_targets_witness :
    entryGet (onKeyDown "next-1" ACTIONS_NEXT 1000000 samplePlugin).state.buttonHoldState
          "next-1" =
        some
          { pressTime := 1000000, action := ACTIONS_NEXT, seekInterval := none,
            didSeek := false, animationFrame := none, targetPosition := none } ∧
      (∀ t ∈ (onKeyDown "next-1" ACTIONS_NEXT 1000000 samplePlugin).intervals,
        t.1 ≠ (onKeyDown "next-1" ACTIONS_NEXT 1000000 samplePlugin).nextHandle) ∧
      0 ≤ (onKeyDown "next-1" ACTIONS_NEXT 1000000 samplePlugin).state.trackDuration ∧
      playerSeeks
          (holdThresholdFired "next-1" ACTIONS_NEXT (Response.ok ()) Response.failed 1000400
            (onKeyDown "next-1" ACTIONS_NEXT 1000000 samplePlugin)).requests =
        playerSeeks (onKeyDown "next-1" ACTIONS_NEXT 1000000 samplePlugin).requests ++
          [clamp
            ((onKeyDown "next-1" ACTIONS_NEXT 1000000 samplePlugin).state.currentPosition +
              seekDirection ACTIONS_NEXT * SEEK_AMOUNT) 0
            (onKeyDown "next-1" ACTIONS_NEXT 1000000 samplePlugin).state.trackDuration] ∧
      playerSeeks
          (holdTicks "next-1"
            [(14200, Response.ok (), Response.failed, 1000900),
              (3000, Response.failed, Response.ok (), 1001400),
              (34100, Response.ok (), Response.failed, 1001900)]
            (holdThresholdFired "next-1" ACTIONS_NEXT (Response.ok ()) Response.failed 1000400
              (onKeyDown "next-1" ACTIONS_NEXT 1000000 samplePlugin))).requests =
        [14000, 24000, 34000, 44000] :=
  ⟨by decide, by decide, by decide,
    (C14_hold_seek_targets "next-1" ACTIONS_NEXT (Response.ok ()) Response.failed 1000400
      (onKeyDown "next-1" ACTIONS_NEXT 1000000 samplePlugin)
      { pressTime := 1000000, action := ACTIONS_NEXT, seekInterval := none,
        didSeek := false, animationFrame := none, targetPosition := none }
      (by decide) rfl (by decide) (by decide)).2.1,
    by decide⟩

/-! ## C23: toggling a stopped player -/

/-- C23: when `playbackState` is `'stopped'`, `togglePlayPause` sends no request
and returns the state unchanged, whatever the player and the server would answer;
a press of the play/pause key or of the album-art key, which call it, leaves the
plugin (state, timers and request log) unchanged. -/
theorem C23_toggle_stopped (loc server : Response Unit) (now : Int) (context : String)
    (p : Plugin) (h : p.state.playbackState = "stopped") :
    togglePlayPause p.plex loc server now p.state = (p.state, []) ∧
      handleButtonAction ACTIONS_PLAY_PAUSE context loc server now p = p ∧
      handleButtonAction ACTIONS_ALBUM_ART context loc server now p = p := by
  have ht : togglePlayPause p.plex loc server now p.state = (p.state, []) := by
    simp [togglePlayPause, h]
  have hN : ¬ ACTIONS_PLAY_PAUSE = ACTIONS_ALBUM_ART := by decide
  refine ⟨ht, ?_, ?_⟩
  · unfold handleButtonAction
    rw [if_neg hN, if_pos rfl, ht]
    simp [Plugin.apply]
  · unfold handleButtonAction
    rw [if_pos rfl, ht]
    simp [Plugin.apply]

/-- C23 at a concrete input: the plugin after module load is stopped; with both
requests bound to succeed, the toggle sends nothing and changes nothing. -/
theorem C23_toggle_stopped_witness :
    Plugin.initial.state.playbackState = "stopped" ∧
      togglePlayPause Plugin.initial.plex (Response.ok ()) (Response.ok ()) 1000000
        Plugin.initial.state = (Plugin.initial.state, []) :=
  ⟨rfl,
    (C23_toggle_stopped (Response.ok ()) (Response.ok ()) 1000000 "play-1" Plugin.initial
      rfl).1⟩

/-! ## C24: local request, then server -/

theorem serverCommand_commandID (plex : PlexConnection) (server : Response Unit)
    (s : StateManager) :
    plex.serverCommand server s.getNextCommandID.1 = plex.serverCommand server s := rfl

/-- C24: `playerCommand` tries the local player first. When that request succeeds,
its response is the outcome and the only request made is the local one. When it
fails, the outcome is the one of `serverCommand` with the same command, and the
requests are the local one followed by those of `serverCommand`, at most one. So
`playerCommand` fails iff the local request fails and `serverCommand` fails. When
the machine identifier, the server URL or the token is missing `serverCommand`
fails and sends nothing; otherwise it sends one request, whose outcome is its
outcome. -/
theorem C24_local_then_server (plex : PlexConnection) (loc server : Response Unit)
    (s : StateManager) (c : Command) :
    (∀ r, loc = Response.ok r →
        (plex.playerCommand loc server s).2 = Response.ok r ∧
          plex.playerRequests loc s c = [(Target.player, c)]) ∧
      (loc = Response.failed →
        (plex.playerCommand loc server s).2 = plex.serverCommand server s ∧
          plex.playerRequests loc s c = (Target.player, c) :: plex.serverRequests s c ∧
          (plex.serverRequests s c).length ≤ 1) ∧
      ((plex.playerCommand loc server s).2 = Response.failed ↔
        loc = Response.failed ∧ plex.serverCommand server s = Response.failed) ∧
      ((truthy (getClientId s) = false ∨ truthy plex.serverUrl = false ∨
          truthy plex.token = false) →
        plex.serverCommand server s = Response.failed ∧ plex.serverRequests s c = []) ∧
      (truthy (getClientId s) = true → truthy plex.serverUrl = true →
        truthy plex.token = true →
        plex.serverCommand server s = server ∧
          plex.serverRequests s c = [(Target.server, c)]) := by
  refine ⟨?_, ?_, ?_, ?_, ?_⟩
  · intro r hr
    subst hr
    exact ⟨rfl, rfl⟩
  · intro hl
    subst hl
    refine ⟨serverCommand_commandID plex server s, rfl, ?_⟩
    unfold PlexConnection.serverRequests
    split <;> simp
  · cases loc with
    | ok r => simp [PlexConnection.playerCommand]
    | failed =>
      simp only [PlexConnection.playerCommand, serverCommand_commandID, true_and]
  · intro hm
    unfold PlexConnection.serverCommand PlexConnection.serverRequests
    rcases hm with hm | hm | hm <;> simp [hm]
  · intro h1 h2 h3
    unfold PlexConnection.serverCommand PlexConnection.serverRequests
    simp [h1, h2, h3]

/-- C24 at a concrete input: track `"42"` is stored and the connection
configured; the local request fails and the server request succeeds. -/
theorem C24_local_then_server_witness :
    (samplePlex.playerCommand Response.failed (Response.ok ()) sampleCurrent).2 =
        samplePlex.serverCommand (Response.ok ()) sampleCurrent ∧
      samplePlex.playerRequests Response.failed sampleCurrent Command.pause =
        (Target.player, Command.pause) ::
          samplePlex.serverRequests sampleCurrent Command.pause ∧
      (samplePlex.serverRequests sampleCurrent Command.pause).length ≤ 1 :=
  (C24_local_then_server samplePlex Response.failed (Response.ok ()) sampleCurrent
    Command.pause).2.1 rfl

/-! ## C26: a failed rating write -/

/-- C26: when the request of `setRating` fails (`serverCommand` fails: the request
fails, or the machine identifier, the server URL or the token is missing),
`setRating` (with or without a key override) and `adjustRating` return the state
unchanged, and the rating-save callback changes nothing but `ratingSaveTimer`,
which it sets to `null`: `currentRating` and the pending-rating cache, with the
value the adjustment recorded, are as before. -/
theorem C26_rating_failure_keeps_state (server : Response Unit) (rating delta : Int)
    (ratingKeyOverride : Option String) (p : Plugin)
    (h : p.plex.serverCommand server p.state = Response.failed) :
    (setRating p.plex server rating ratingKeyOverride p.state).1 = p.state ∧
      (adjustRating p.plex server delta p.state).1 = p.state ∧
      (ratingSaveFired rating server p).state = { p.state with ratingSaveTimer := none } ∧
      (ratingSaveFired rating server p).state.currentRating = p.state.currentRating ∧
      (ratingSaveFired rating server p).state.userSetRatings = p.state.userSetRatings := by
  have hs : ∀ (r : Int) (o : Option String), (setRating p.plex server r o p.state).1 = p.state := by
    intro r o
    unfold setRating
    dsimp only
    split
    · rfl
    · rw [h]
  refine ⟨hs _ _, hs _ _, ?_, ?_, ?_⟩ <;>
    simp only [ratingSaveFired, hs]

/-- C26 at a concrete input: the dial sets rating 10 for track `"42"`, and the
server request of the rating save fails; rating 10 stays shown and pending. -/
theorem C26_rating_failure_keeps_state_witness :
    samplePlex.serverCommand Response.failed
        (onDialRotate "strip-1" 2 (Response.ok ()) Response.failed 1000000 samplePlugin).state =
        Response.failed ∧
      (ratingSaveFired 10 Response.failed
        (onDialRotate "strip-1" 2 (Response.ok ()) Response.failed 1000000
          samplePlugin)).state.currentRating = 10 ∧
      (ratingSaveFired 10 Response.failed
        (onDialRotate "strip-1" 2 (Response.ok ()) Response.failed 1000000
          samplePlugin)).state.userSetRatings = [("42", 10)] :=
  ⟨by decide,
    ((C26_rating_failure_keeps_state Response.failed 10 0 none
      (onDialRotate "strip-1" 2 (Response.ok ()) Response.failed 1000000 samplePlugin)
      (by decide)).2.2.2.1).trans (by decide),
    ((C26_rating_failure_keeps_state Response.failed 10 0 none
      (onDialRotate "strip-1" 2 (Response.ok ()) Response.failed 1000000 samplePlugin)
      (by decide)).2.2.2.2).trans (by decide)⟩

/-! ## The playback fields under reconciliation -/

theorem applyRatingCache_playbackFields (md : Metadata) (s : StateManager) :
    (applyRatingCache md s).playbackFields = s.playbackFields := by
  cases hc : s.getUserRating md.ratingKey with
  | none => rw [applyRatingCache_absent _ _ hc]; rfl
  | some c =>
    by_cases hS : orElse md.userRating 0 = c
    · rw [applyRatingCache_converged _ _ _ hc hS]
      rfl
    · rw [applyRatingCache_waiting _ _ _ hc hS]
      rfl

theorem loadAlbumArt_playbackFields (art : Response String) (color : String)
    (s : StateManager) : (loadAlbumArt art color s).playbackFields = s.playbackFields := by
  cases art <;> rfl

theorem updateTrack_playbackFields (s : StateManager) (track : Track) :
    (s.updateTrack track).playbackFields = s.playbackFields := by
  unfold StateManager.updateTrack
  split <;> rfl

theorem loadTrackData_playbackFields (plex : PlexConnection) (env : Remote) (tl : Timeline)
    (s : StateManager) : (loadTrackData plex env tl s).playbackFields = s.playbackFields := by
  unfold loadTrackData
  split
  · rfl
  · split
    · rfl
    · rfl
    · rename_i md _
      have h2 : (applyRatingCache md (s.updateTrack ⟨md, tl.machineIdentifier⟩)).playbackFields =
          s.playbackFields :=
        (applyRatingCache_playbackFields _ _).trans (updateTrack_playbackFields _ _)
      dsimp only
      split <;> split <;>
        first
          | exact h2
          | exact (loadAlbumArt_playbackFields _ _ _).trans h2

theorem updateFromTimeline_playbackFields (plex : PlexConnection) (env : Remote) (now : Int)
    (tl : Timeline) (s : StateManager) :
    (updateFromTimeline plex env now (some tl) s).playbackFields =
      (strOr tl.state "stopped", orElse tl.time 0, orElse tl.duration 0, now) := by
  cases h : trackChanged s tl with
  | false =>
    rw [updateFromTimeline_same_track plex env now s tl h, applyTimeline_eq]
    rfl
  | true =>
    rw [updateFromTimeline_changed plex env now s tl h, loadTrackData_playbackFields,
      applyTimeline_eq]
    rfl

theorem playbackFields_eq (s t : StateManager) (h : s.playbackFields = t.playbackFields) :
    s.playbackState = t.playbackState ∧ s.currentPosition = t.currentPosition ∧
      s.trackDuration = t.trackDuration ∧
      s.lastPositionTimestamp = t.lastPositionTimestamp := by
  simp only [StateManager.playbackFields, Prod.mk.injEq] at h
  exact h

theorem updateFromTimeline_playback (plex : PlexConnection) (env : Remote) (now : Int)
    (tl : Timeline) (s : StateManager) :
    (updateFromTimeline plex env now (some tl) s).playbackState = strOr tl.state "stopped" ∧
      (updateFromTimeline plex env now (some tl) s).currentPosition = orElse tl.time 0 ∧
      (updateFromTimeline plex env now (some tl) s).trackDuration = orElse tl.duration 0 := by
  have h := updateFromTimeline_playbackFields plex env now tl s
  simp only [StateManager.playbackFields, Prod.mk.injEq] at h
  exact ⟨h.1, h.2.1, h.2.2.1⟩

theorem handleNoSession_cases (s : StateManager) :
    handleNoSession s = s ∨ handleNoSession s = s.clearTrack := by
  unfold handleNoSession
  split
  · exact Or.inr rfl
  · exact Or.inl rfl

theorem seekTo_position (plex : PlexConnection) (loc server : Response Unit) (now x : Int)
    (s : StateManager) :
    (seekTo plex loc server now x s).1.trackDuration = s.trackDuration ∧
      ((seekTo plex loc server now x s).1.currentPosition = s.currentPosition ∨
        (seekTo plex loc server now x s).1.currentPosition = clamp x 0 s.trackDuration) := by
  cases hres : (plex.playerCommand loc server s).2 with
  | failed =>
    rw [seekTo_failed plex loc server now x s hres]
    exact ⟨rfl, Or.inl rfl⟩
  | ok u =>
    cases u
    rw [seekTo_ok plex loc server now x s hres]
    exact ⟨rfl, Or.inr rfl⟩

theorem seekTo_positionClamped (plex : PlexConnection) (loc server : Response Unit)
    (now x : Int) (s : StateManager) (h : positionClamped s) :
    positionClamped (seekTo plex loc server now x s).1 := by
  obtain ⟨h1, h2⟩ := seekTo_position plex loc server now x s
  unfold positionClamped at h ⊢
  rw [h1]
  rcases h2 with h2 | h2 <;> rw [h2]
  · exact h
  · exact clamp_range x s.trackDuration (le_trans h.1 h.2)

/-! ## C21: the position between 0 and the duration -/

/-- C21 as stated fails. Track `"42"` is stored at position 4000 of 180000 ms.
A snapshot of the same track with `time = 200000` and `duration = 180000` is stored
as it is, which leaves the position beyond the duration; and with
`syncOffset = -5000` configured, the render tick 200 ms after the position was
taken gives position `-800`. -/
theorem C21_counterexample :
    positionClamped sampleCurrent ∧
      (updateFromTimeline samplePlex (sampleRemote none) 1001000
        (some { sampleTimeline with time := some 200000 }) sampleCurrent).currentPosition =
        200000 ∧
      ¬ positionClamped
        (updateFromTimeline samplePlex (sampleRemote none) 1001000
          (some { sampleTimeline with time := some 200000 }) sampleCurrent) ∧
      positionClamped { sampleCurrent with syncOffset := some (-5000) } ∧
      (updateDisplayPosition 1000200
        { sampleCurrent with syncOffset := some (-5000) }).currentPosition = -800 ∧
      ¬ positionClamped
        (updateDisplayPosition 1000200 { sampleCurrent with syncOffset := some (-5000) }) := by
  decide

/-- C21, amended: `0 ≤ currentPosition ≤ trackDuration` holds after `reset()` and
after `clearTrack`, and is preserved by `handleNoSession`, `seekTo` and `seek`.
`updateDisplayPosition` keeps `currentPosition ≤ trackDuration`, and keeps
`0 ≤ currentPosition` when the elapsed time plus `syncOffset` is not negative.
`updateFromTimeline` stores the snapshot's `time || 0` and `duration || 0` as they
are, so the bounds hold after it exactly when `0 ≤ time || 0 ≤ duration || 0`. -/
theorem C21_position_clamped_amended :
    positionClamped StateManager.reset ∧
      (∀ s : StateManager, positionClamped s.clearTrack ∧
        (positionClamped s → positionClamped (handleNoSession s))) ∧
      (∀ (plex : PlexConnection) (loc server : Response Unit) (now x : Int) (s : StateManager),
        positionClamped s →
        positionClamped (seekTo plex loc server now x s).1 ∧
          positionClamped (seek plex loc server now x s).1) ∧
      (∀ (now : Int) (s : StateManager), positionClamped s →
        (updateDisplayPosition now s).currentPosition ≤
            (updateDisplayPosition now s).trackDuration ∧
          (0 ≤ now - s.lastPositionTimestamp + nullish s.syncOffset 0 →
            positionClamped (updateDisplayPosition now s))) ∧
      (∀ (plex : PlexConnection) (env : Remote) (now : Int) (tl : Timeline) (s : StateManager),
        (updateFromTimeline plex env now (some tl) s).currentPosition = orElse tl.time 0 ∧
          (updateFromTimeline plex env now (some tl) s).trackDuration = orElse tl.duration 0 ∧
          (positionClamped (updateFromTimeline plex env now (some tl) s) ↔
            0 ≤ orElse tl.time 0 ∧ orElse tl.time 0 ≤ orElse tl.duration 0)) := by
  refine ⟨by decide, ?_, ?_, ?_, ?_⟩
  · intro s
    have hc : positionClamped s.clearTrack := ⟨le_refl _, le_refl _⟩
    refine ⟨hc, fun h => ?_⟩
    rcases handleNoSession_cases s with h1 | h1 <;> rw [h1]
    · exact h
    · exact hc
  · intro plex loc server now x s h
    exact ⟨seekTo_positionClamped plex loc server now x s h,
      seekTo_positionClamped plex loc server now _ s h⟩
  · intro now s h
    unfold positionClamped at h ⊢
    by_cases hp : s.playbackState = "playing" ∧ s.lastPositionTimestamp > 0
    · obtain ⟨e1, _, _, e4, _⟩ := updateDisplayPosition_playing now s hp.1 hp.2
      rw [e1, e4]
      refine ⟨min_le_right _ _, fun h0 => ⟨?_, min_le_right _ _⟩⟩
      exact le_min (by omega) (le_trans h.1 h.2)
    · have e : (updateDisplayPosition now s).currentPosition = s.currentPosition ∧
          (updateDisplayPosition now s).trackDuration = s.trackDuration := by
        unfold updateDisplayPosition
        simp only [hp, if_false, and_self]
      rw [e.1, e.2]
      exact ⟨h.2, fun _ => h⟩
  · intro plex env now tl s
    obtain ⟨_, e2, e3⟩ := updateFromTimeline_playback plex env now tl s
    refine ⟨e2, e3, ?_⟩
    unfold positionClamped
    rw [e2, e3]

/-- C21, amended, at concrete inputs: from track `"42"` at position 4000 of
180000 ms, `seekTo(500000)` and a render tick with `syncOffset = 500` keep the
bounds, and so does the snapshot that reports `time = 5000`. -/
theorem C21_position_clamped_amended_witness :
    positionClamped sampleCurrent ∧
      positionClamped
        (seekTo samplePlex (Response.ok ()) Response.failed 1000100 500000 sampleCurrent).1 ∧
      positionClamped sampleOffset ∧
      0 ≤ (1000200 : Int) - sampleOffset.lastPositionTimestamp +
        nullish sampleOffset.syncOffset 0 ∧
      positionClamped (updateDisplayPosition 1000200 sampleOffset) ∧
      positionClamped
        (updateFromTimeline samplePlex (sampleRemote none) 1001000 (some sampleTimeline)
          sampleCurrent) :=
  ⟨by decide,
    ((C21_position_clamped_amended.2.2.1 samplePlex (Response.ok ()) Response.failed 1000100
      500000 sampleCurrent) (by decide)).1,
    by decide, by decide,
    (C21_position_clamped_amended.2.2.2.1 1000200 sampleOffset (by decide)).2 (by decide),
    (C21_position_clamped_amended.2.2.2.2 samplePlex (sampleRemote none) 1001000
      sampleTimeline sampleCurrent).2.2.mpr (by decide)⟩

/-! ## C22: the values of `playbackState` -/

theorem playerCommand_playbackState (plex : PlexConnection) (loc server : Response Unit)
    (s : StateManager) : (plex.playerCommand loc server s).1.playbackState = s.playbackState := by
  rw [playerCommand_fst]
  rfl

theorem togglePlayPause_playbackState (plex : PlexConnection) (loc server : Response Unit)
    (now : Int) (s : StateManager) :
    (togglePlayPause plex loc server now s).1.playbackState = s.playbackState ∨
      (togglePlayPause plex loc server now s).1.playbackState = "paused" ∨
      (togglePlayPause plex loc server now s).1.playbackState = "playing" := by
  have h1 := playerCommand_playbackState plex loc server s
  unfold togglePlayPause
  split
  · exact Or.inl rfl
  · dsimp only
    split
    · split
      · exact Or.inr (Or.inl rfl)
      · exact Or.inr (Or.inr rfl)
    · rename_i s1 heq
      rw [heq] at h1
      exact Or.inl h1

theorem play_playbackState (plex : PlexConnection) (loc server : Response Unit) (now : Int)
    (s : StateManager) :
    (play plex loc server now s).1.playbackState = s.playbackState ∨
      (play plex loc server now s).1.playbackState = "playing" := by
  have h1 := playerCommand_playbackState plex loc server s
  unfold play
  split
  · exact Or.inr rfl
  · rename_i s1 heq
    rw [heq] at h1
    exact Or.inl h1

theorem pause_playbackState (plex : PlexConnection) (loc server : Response Unit)
    (s : StateManager) :
    (pause plex loc server s).1.playbackState = s.playbackState ∨
      (pause plex loc server s).1.playbackState = "paused" := by
  have h1 := playerCommand_playbackState plex loc server s
  unfold pause
  split
  · exact Or.inr rfl
  · rename_i s1 heq
    rw [heq] at h1
    exact Or.inl h1

theorem strOr_valid_iff (x : Option String) :
    (strOr x "stopped" = "stopped" ∨ strOr x "stopped" = "playing" ∨
        strOr x "stopped" = "paused") ↔
      (x = none ∨ x = some "" ∨ x = some "stopped" ∨ x = some "playing" ∨
        x = some "paused") := by
  cases x with
  | none => simp [strOr]
  | some v =>
    by_cases hv : v = ""
    · subst hv
      simp [strOr]
    · simp [strOr, hv]

theorem playbackStateValid_commands (plex : PlexConnection) (loc server : Response Unit)
    (now : Int) (s : StateManager) (h : playbackStateValid s) :
    playbackStateValid s.clearTrack ∧ playbackStateValid (handleNoSession s) ∧
      playbackStateValid (togglePlayPause plex loc server now s).1 ∧
      playbackStateValid (play plex loc server now s).1 ∧
      playbackStateValid (pause plex loc server s).1 := by
  have hc : playbackStateValid s.clearTrack := Or.inl rfl
  refine ⟨hc, ?_, ?_, ?_, ?_⟩
  · rcases handleNoSession_cases s with h1 | h1 <;> rw [h1]
    · exact h
    · exact hc
  · unfold playbackStateValid at h ⊢
    rcases togglePlayPause_playbackState plex loc server now s with e | e | e <;> rw [e]
    · exact h
    · exact Or.inr (Or.inr rfl)
    · exact Or.inr (Or.inl rfl)
  · unfold playbackStateValid at h ⊢
    rcases play_playbackState plex loc server now s with e | e <;> rw [e]
    · exact h
    · exact Or.inr (Or.inl rfl)
  · unfold playbackStateValid at h ⊢
    rcases pause_playbackState plex loc server s with e | e <;> rw [e]
    · exact h
    · exact Or.inr (Or.inr rfl)

/-- C22 evaluated at a snapshot that reports the state `buffering`. For every
snapshot `updateFromTimeline` stores the reported `state` as it is (`'stopped'`
only when it is missing or empty), so `playbackState` is one of `'stopped'`,
`'playing'`, `'paused'` afterwards only when the reported state is. Track `"42"`
is stored and playing; the poll whose timeline reports `buffering` for it passes
the snapshot to `updateFromTimeline`, and `playbackState` becomes `'buffering'`,
none of the three values that `stateManager.js` line 27 lists. -/
theorem C22_reported_state_stored :
    (∀ (plex : PlexConnection) (env : Remote) (now : Int) (tl : Timeline) (s : StateManager),
        (updateFromTimeline plex env now (some tl) s).playbackState =
            strOr tl.state "stopped" ∧
          (playbackStateValid (updateFromTimeline plex env now (some tl) s) ↔
            (tl.state = none ∨ tl.state = some "" ∨ tl.state = some "stopped" ∨
              tl.state = some "playing" ∨ tl.state = some "paused"))) ∧
      playbackStateValid StateManager.reset ∧
      playbackStateValid sampleCurrent ∧
      (pollTimeline samplePlex
        { sampleRemote none with
          timeline := Response.ok (some { sampleTimeline with state := some "buffering" }) }
        1001000 sampleCurrent).playbackState = "buffering" ∧
      ¬ playbackStateValid
        (pollTimeline samplePlex
          { sampleRemote none with
            timeline := Response.ok (some { sampleTimeline with state := some "buffering" }) }
          1001000 sampleCurrent) := by
  refine ⟨?_, by decide, by decide, by decide, by decide⟩
  intro plex env now tl s
  obtain ⟨e1, _, _⟩ := updateFromTimeline_playback plex env now tl s
  refine ⟨e1, ?_⟩
  unfold playbackStateValid
  rw [e1]
  exact strOr_valid_iff tl.state

/-! ## C25: polls whose request is pending -/

theorem pollTimeline_split (plex : PlexConnection) (env : Remote) (now : Int)
    (s : StateManager) :
    pollTimeline plex env now s =
      if (pollBegin plex s).2 then pollEnd plex env now (pollBegin plex s).1
      else (pollBegin plex s).1 := by
  unfold pollTimeline pollBegin pollEnd PlexConnection.fetchTimeline
  by_cases hc : (!truthy plex.token || !truthy plex.serverUrl) = true
  · simp only [hc, if_true, Bool.false_eq_true, if_false]
  · simp only [hc, if_false, if_true]
    cases env.timeline with
    | failed => rfl
    | ok parsed => cases parsed <;> rfl

theorem pollBegin_configured (plex : PlexConnection) (s : StateManager)
    (ht : truthy plex.token = true) (hs : truthy plex.serverUrl = true) :
    pollBegin plex s = (s.getNextCommandID.1, true) := by
  simp [pollBegin, ht, hs]

theorem pollLoopStep_tick (l : PollLoop) (ht : truthy l.plex.token = true)
    (hs : truthy l.plex.serverUrl = true) :
    pollLoopStep l PollEvent.tick =
      { l with
        state := l.state.getNextCommandID.1
        inFlight := l.inFlight ++ [l.state.localCommandID + 1]
        started := l.started + 1 } := by
  simp only [pollLoopStep, pollBegin_configured l.plex l.state ht hs]
  rfl

theorem pollLoopRun_ticks (n : Nat) :
    ∀ l : PollLoop, truthy l.plex.token = true → truthy l.plex.serverUrl = true →
      (pollLoopRun (List.replicate n PollEvent.tick) l).inFlight.length =
          l.inFlight.length + n ∧
        (pollLoopRun (List.replicate n PollEvent.tick) l).started = l.started + n := by
  induction n with
  | zero =>
    intro l _ _
    exact ⟨rfl, rfl⟩
  | succ k ih =>
    intro l ht hs
    have hstep := pollLoopStep_tick l ht hs
    have hrun : pollLoopRun (List.replicate (k + 1) PollEvent.tick) l =
        pollLoopRun (List.replicate k PollEvent.tick) (pollLoopStep l PollEvent.tick) := rfl
    have hp : (pollLoopStep l PollEvent.tick).plex = l.plex := by rw [hstep]
    obtain ⟨i1, i2⟩ := ih (pollLoopStep l PollEvent.tick) (by rw [hp]; exact ht)
      (by rw [hp]; exact hs)
    rw [hrun, i1, i2, hstep]
    simp only [List.length_append, List.length_singleton]
    omega

/-- C25 as stated fails. From a configured plugin with no request pending, two
messages of the poll worker with no answer in between leave two timeline requests
pending (command ids 1 and 2); when request 2 is answered first (position 6000)
and request 1 afterwards (position 5000), both answers are reconciled and the
state ends with the older snapshot. -/
theorem C25_counterexample :
    (pollBegin samplePollLoop.plex samplePollLoop.state).2 = true ∧
      (pollLoopRun [PollEvent.tick] samplePollLoop).inFlight = [1] ∧
      (pollLoopRun [PollEvent.tick, PollEvent.tick] samplePollLoop).inFlight = [1, 2] ∧
      (pollLoopRun [PollEvent.tick, PollEvent.tick] samplePollLoop).started = 2 ∧
      (pollLoopRun
        [PollEvent.tick, PollEvent.tick, PollEvent.answer 2 (sampleRemoteAt 6000) 1002200]
        samplePollLoop).state.currentPosition = 6000 ∧
      (pollLoopRun
        [PollEvent.tick, PollEvent.tick, PollEvent.answer 2 (sampleRemoteAt 6000) 1002200,
          PollEvent.answer 1 (sampleRemoteAt 5000) 1002300]
        samplePollLoop).state.currentPosition = 5000 ∧
      (pollLoopRun
        [PollEvent.tick, PollEvent.tick, PollEvent.answer 2 (sampleRemoteAt 6000) 1002200,
          PollEvent.answer 1 (sampleRemoteAt 5000) 1002300]
        samplePollLoop).inFlight = [] := by
  decide

/-- C25, amended: polls may overlap. With the connection configured, every
message of the poll worker calls `pollTimeline()`, which draws a command id and
makes a timeline request whatever requests are pending: the request joins the
pending ones and nothing but the command counter changes, so `n` messages with no
answer in between add `n` pending requests. The answer to a pending request is
reconciled when it arrives, on the state as it is then, and the request stops
being pending. A message followed by the answer to its request gives the state of
one `pollTimeline()` run to completion. -/
theorem C25_polls_overlap_amended (l : PollLoop) (ht : truthy l.plex.token = true)
    (hs : truthy l.plex.serverUrl = true) :
    (pollLoopStep l PollEvent.tick).inFlight = l.inFlight ++ [l.state.localCommandID + 1] ∧
      (pollLoopStep l PollEvent.tick).started = l.started + 1 ∧
      (pollLoopStep l PollEvent.tick).state =
        { l.state with localCommandID := l.state.localCommandID + 1 } ∧
      (∀ n : Nat,
        (pollLoopRun (List.replicate n PollEvent.tick) l).inFlight.length =
            l.inFlight.length + n ∧
          (pollLoopRun (List.replicate n PollEvent.tick) l).started = l.started + n) ∧
      (∀ (commandID : Int) (env : Remote) (now : Int), commandID ∈ l.inFlight →
        (pollLoopStep l (PollEvent.answer commandID env now)).state =
            pollEnd l.plex env now l.state ∧
          commandID ∉ (pollLoopStep l (PollEvent.answer commandID env now)).inFlight ∧
          (pollLoopStep l (PollEvent.answer commandID env now)).started = l.started) ∧
      (∀ (env : Remote) (now : Int),
        (pollLoopRun
          [PollEvent.tick, PollEvent.answer (l.state.localCommandID + 1) env now] l).state =
          pollTimeline l.plex env now l.state) := by
  have hstep := pollLoopStep_tick l ht hs
  refine ⟨by rw [hstep], by rw [hstep], by rw [hstep]; rfl, fun n => pollLoopRun_ticks n l ht hs,
    ?_, ?_⟩
  · intro commandID env now hmem
    simp only [pollLoopStep, hmem, if_true]
    refine ⟨trivial, ?_, trivial⟩
    simp [List.mem_filter]
  · intro env now
    have hsplit := pollTimeline_split l.plex env now l.state
    rw [pollBegin_configured l.plex l.state ht hs] at hsplit
    simp only [if_true] at hsplit
    rw [hsplit]
    show (pollLoopStep (pollLoopStep l PollEvent.tick)
      (PollEvent.answer (l.state.localCommandID + 1) env now)).state = _
    rw [hstep]
    simp [pollLoopStep]

/-- C25, amended, at a concrete input: the poll loop of the configured plugin with
track `"42"` stored; three messages leave three requests pending, and a message
answered at once gives the state of `pollTimeline()`. -/
theorem C25_polls_overlap_amended_witness :
    truthy samplePollLoop.plex.token = true ∧ truthy samplePollLoop.plex.serverUrl = true ∧
      (pollLoopRun (List.replicate 3 PollEvent.tick) samplePollLoop).inFlight.length =
        samplePollLoop.inFlight.length + 3 ∧
      (pollLoopRun
        [PollEvent.tick,
          PollEvent.answer (samplePollLoop.state.localCommandID + 1) (sampleRemoteAt 6000)
            1001200]
        samplePollLoop).state =
        pollTimeline samplePollLoop.plex (sampleRemoteAt 6000) 1001200 samplePollLoop.state :=
  ⟨by decide, by decide,
    ((C25_polls_overlap_amended samplePollLoop (by decide) (by decide)).2.2.2.1 3).1,
    (C25_polls_overlap_amended samplePollLoop (by decide) (by decide)).2.2.2.2.2
      (sampleRemoteAt 6000) 1001200⟩

/-! ## C27: the track a debounced rating is written to -/

/-- C27 evaluated at a track change before the rating save. The dial sets rating
10 while track `"42"` is current; the timeout it leaves carries the rating only.
The next poll finds track `"43"` (server rating 4). When the timeout fires,
`setRating(10)` takes the key of the track that is current then: the request
rates track `"43"` with 10, the pending entry recorded is for `"43"`, and
`currentRating` of track `"43"` becomes 10; no request is made for track `"42"`. -/
theorem C27_write_goes_to_current_track :
    currentRatingKey samplePlugin.state = some "42" ∧
      (pluginRun (sampleTrackChange.take 1) samplePlugin).timeouts =
        [(1, 1002000, Task.ratingSave 10)] ∧
      (pluginRun (sampleTrackChange.take 1) samplePlugin).state.userSetRatings =
        [("42", 10)] ∧
      currentRatingKey (pluginRun (sampleTrackChange.take 2) samplePlugin).state =
        some "43" ∧
      (pluginRun (sampleTrackChange.take 2) samplePlugin).state.currentRating = 4 ∧
      (pluginRun (sampleTrackChange.take 2) samplePlugin).requests = [] ∧
      (pluginRun sampleTrackChange samplePlugin).requests =
        [(Target.server, Command.rate (some "43") 10)] ∧
      (pluginRun sampleTrackChange samplePlugin).state.userSetRatings =
        [("42", 10), ("43", 10)] ∧
      (pluginRun sampleTrackChange samplePlugin).state.currentRating = 10 := by
  decide

/-! ## C28: a polled volume of 0 -/

/-- C28 evaluated at a timeline with the volume attribute `"0"`.
`parseTimelineXML` computes `parseInt(volume) || 50`, so the volume of the object
it returns is never 0 (and never missing): `parseInt` gives 0, the parsed volume is
50, and the poll, outside the volume guard window, stores `currentVolume = 50`. -/
theorem C28_polled_volume_zero :
    (∀ el : TimelineElement,
        (parseTimelineXML (some el)).bind (fun tl => tl.volume) ≠ some 0 ∧
          (parseTimelineXML (some el)).bind (fun tl => tl.volume) ≠ none) ∧
      parseInt sampleMutedElement.volume = some 0 ∧
      (parseTimelineXML (some sampleMutedElement)).bind (fun tl => tl.volume) = some 50 ∧
      (1001000 : Int) - sampleCurrent.lastVolumeCommandTime > 2000 ∧
      (pollTimeline samplePlex sampleMutedRemote 1001000 sampleCurrent).currentVolume = 50 := by
  refine ⟨?_, by decide, by decide, by decide, by decide⟩
  intro el
  simp only [parseTimelineXML, Option.bind, ne_eq, Option.some.injEq, not_false_eq_true,
    and_true]
  cases parseInt el.volume with
  | none => simp [orElse]
  | some v =>
    by_cases hv : v = 0
    · simp [orElse, hv]
    · simp [orElse, hv]

/-! ## C30: the stars of a rating -/

/-- C30: for every integer rating `r` with `0 ≤ r ≤ 10` and `mode` one of `'half'`
and `'full'`, `formatRating(r, mode)` has exactly 5 symbols: `floor(r / 2)` full
stars, then one half star iff the mode is `'half'` and `r` is odd, then empty
stars; in half mode twice the number of full stars plus the number of half stars
is `r`; and `r = 0` gives five empty stars. -/
theorem C30_formatRating (r : Int) (mode : String) (h0 : 0 ≤ r) (h10 : r ≤ 10)
    (hm : mode = "half" ∨ mode = "full") :
    (formatRating r mode).length = 5 ∧
      (formatRating r mode).toList =
        List.replicate (r / 2).toNat '★' ++
          List.replicate (if mode = "half" ∧ r % 2 = 1 then 1 else 0) '⯨' ++
          List.replicate (5 - (r / 2).toNat - (if mode = "half" ∧ r % 2 = 1 then 1 else 0))
            '☆' ∧
      (mode = "half" →
        2 * (((formatRating r mode).toList.count '★' : Nat) : Int) +
          (((formatRating r mode).toList.count '⯨' : Nat) : Int) = r) ∧
      (r = 0 → formatRating r mode = "☆☆☆☆☆") := by
  interval_cases r <;> rcases hm with rfl | rfl <;> decide

/-- C30 at concrete inputs: rating 7 is three full stars, a half star and an empty
star in half mode, and three full stars and two empty stars in full mode. -/
theorem C30_formatRating_witness :
    formatRating 7 "half" = "★★★⯨☆" ∧ formatRating 7 "full" = "★★★☆☆" ∧
      (formatRating 7 "half").length = 5 :=
  ⟨by decide, by decide,
    (C30_formatRating 7 "half" (by decide) (by decide) (Or.inl rfl)).1⟩

/-! ## Decimal digits and the fields of a formatted time -/

theorem digitChar_value :
    ∀ d : Nat, d < 10 → (Nat.digitChar d).toNat - 48 = d ∧ Nat.digitChar d ≠ ':' := by
  decide

theorem valueRev_decimalRev : ∀ fuel n : Nat, n < fuel → valueRev (decimalRev fuel n) = n := by
  intro fuel
  induction fuel with
  | zero =>
    intro n h
    omega
  | succ f ih =>
    intro n h
    have hd := (digitChar_value (n % 10) (Nat.mod_lt _ (by decide))).1
    rw [decimalRev]
    by_cases hq : n / 10 = 0
    · simp only [hq, if_true, valueRev, hd]
      omega
    · simp only [hq, if_false, valueRev, hd]
      rw [ih (n / 10) (by omega)]
      omega

theorem decimalRev_no_colon : ∀ fuel n : Nat, ':' ∉ decimalRev fuel n := by
  intro fuel
  induction fuel with
  | zero =>
    intro n
    simp [decimalRev]
  | succ f ih =>
    intro n
    have hd := (digitChar_value (n % 10) (Nat.mod_lt _ (by decide))).2
    rw [decimalRev]
    by_cases hq : n / 10 = 0
    · simp [hq, Ne.symm hd]
    · simp [hq, Ne.symm hd, ih (n / 10)]

theorem decimalRev_length (fuel n : Nat) (h : n < 100) :
    1 ≤ (decimalRev (fuel + 1) n).length ∧ (decimalRev (fuel + 1) n).length ≤ 2 := by
  rw [decimalRev]
  by_cases hq : n / 10 = 0
  · simp [hq]
  · simp only [hq, if_false, List.length_cons]
    cases fuel with
    | zero => simp [decimalRev]
    | succ g =>
      rw [decimalRev]
      have hq2 : n / 10 / 10 = 0 := by omega
      simp [hq2]

theorem numberToString_value (n : Nat) : valueRev (numberToString n).reverse = n := by
  unfold numberToString
  rw [List.reverse_reverse]
  exact valueRev_decimalRev (n + 1) n (Nat.lt_succ_self n)

theorem numberToString_no_colon (n : Nat) : ':' ∉ numberToString n := by
  unfold numberToString
  rw [List.mem_reverse]
  exact decimalRev_no_colon (n + 1) n

theorem numberToString_length (n : Nat) (h : n < 100) :
    1 ≤ (numberToString n).length ∧ (numberToString n).length ≤ 2 := by
  unfold numberToString
  rw [List.length_reverse]
  exact decimalRev_length n n h

theorem padStart2_length (text : List Char) (h : text.length ≤ 2) :
    (padStart2 text).length = 2 := by
  simp only [padStart2, List.length_append, List.length_replicate]
  omega

theorem valueRev_zeros (k : Nat) : valueRev (List.replicate k '0') = 0 := by
  induction k with
  | zero => rfl
  | succ j ih =>
    show (Char.toNat '0' - 48) + 10 * valueRev (List.replicate j '0') = 0
    rw [ih]
    rfl

theorem valueRev_append_zeros (xs : List Char) (k : Nat) :
    valueRev (xs ++ List.replicate k '0') = valueRev xs := by
  induction xs with
  | nil => exact valueRev_zeros k
  | cons c rest ih =>
    show (c.toNat - 48) + 10 * valueRev (rest ++ List.replicate k '0') =
      (c.toNat - 48) + 10 * valueRev rest
    rw [ih]

theorem padStart2_value (text : List Char) :
    valueRev (padStart2 text).reverse = valueRev text.reverse := by
  rw [padStart2, List.reverse_append, List.reverse_replicate, valueRev_append_zeros]

theorem padStart2_no_colon (text : List Char) (h : ':' ∉ text) : ':' ∉ padStart2 text := by
  intro hmem
  rw [padStart2, List.mem_append] at hmem
  rcases hmem with hmem | hmem
  · exact absurd (List.eq_of_mem_replicate hmem) (by decide)
  · exact h hmem

theorem splitColon_no_colon (xs : List Char) (h : ':' ∉ xs) : splitColon xs = [xs] := by
  induction xs with
  | nil => rfl
  | cons c rest ih =>
    have hc : c ≠ ':' := fun e => h (by rw [e]; exact List.mem_cons_self _ _)
    have hr : ':' ∉ rest := fun e => h (List.mem_cons_of_mem _ e)
    rw [splitColon, if_neg hc, ih hr]

theorem splitColon_field (xs ys : List Char) (h : ':' ∉ xs) :
    splitColon (xs ++ ':' :: ys) = xs :: splitColon ys := by
  induction xs with
  | nil =>
    rw [List.nil_append, splitColon, if_pos rfl]
  | cons c rest ih =>
    have hc : c ≠ ':' := fun e => h (by rw [e]; exact List.mem_cons_self _ _)
    have hr : ':' ∉ rest := fun e => h (List.mem_cons_of_mem _ e)
    rw [List.cons_append, splitColon, if_neg hc, ih hr]

theorem readTime_short (m s : Nat) :
    readTime (String.mk (numberToString m ++ ':' :: padStart2 (numberToString s))) =
      m * 60 + s := by
  unfold readTime
  rw [show (String.mk (numberToString m ++ ':' :: padStart2 (numberToString s))).toList =
      numberToString m ++ ':' :: padStart2 (numberToString s) from rfl,
    splitColon_field _ _ (numberToString_no_colon m),
    splitColon_no_colon _ (padStart2_no_colon _ (numberToString_no_colon s))]
  simp only [List.map_cons, List.map_nil, numberToString_value, padStart2_value]

theorem readTime_long (h m s : Nat) :
    readTime
        (String.mk
          (numberToString h ++ ':' :: padStart2 (numberToString m) ++
            ':' :: padStart2 (numberToString s))) =
      h * 3600 + m * 60 + s := by
  unfold readTime
  rw [show (String.mk
        (numberToString h ++ ':' :: padStart2 (numberToString m) ++
          ':' :: padStart2 (numberToString s))).toList =
      numberToString h ++
        ':' :: (padStart2 (numberToString m) ++ ':' :: padStart2 (numberToString s)) from by
        show _ ++ _ ++ _ = _
        rw [List.append_assoc, List.cons_append],
    splitColon_field _ _ (numberToString_no_colon h),
    splitColon_field _ _ (padStart2_no_colon _ (numberToString_no_colon m)),
    splitColon_no_colon _ (padStart2_no_colon _ (numberToString_no_colon s))]
  simp only [List.map_cons, List.map_nil, numberToString_value, padStart2_value]

theorem formatTime_short (ms : Int) (hpos : 0 < ms) (h : (ms / 1000).toNat < 3600) :
    formatTime (some ms) =
      String.mk
        (numberToString ((ms / 1000).toNat % 3600 / 60) ++
          ':' :: padStart2 (numberToString ((ms / 1000).toNat % 60))) := by
  have h1 : ¬ (ms = 0 ∨ ms ≤ 0) := by omega
  have h2 : ¬ (ms / 1000).toNat / 3600 > 0 := by omega
  simp only [formatTime, h1, if_false, h2]

theorem formatTime_long (ms : Int) (hpos : 0 < ms) (h : 3600 ≤ (ms / 1000).toNat) :
    formatTime (some ms) =
      String.mk
        (numberToString ((ms / 1000).toNat / 3600) ++
          ':' :: padStart2 (numberToString ((ms / 1000).toNat % 3600 / 60)) ++
          ':' :: padStart2 (numberToString ((ms / 1000).toNat % 60))) := by
  have h1 : ¬ (ms = 0 ∨ ms ≤ 0) := by omega
  have h2 : (ms / 1000).toNat / 3600 > 0 := by omega
  simp only [formatTime, h1, if_false, h2, if_true]

theorem readTime_formatTime (ms : Int) (hpos : 0 < ms) :
    readTime (formatTime (some ms)) = (ms / 1000).toNat := by
  by_cases h : (ms / 1000).toNat < 3600
  · rw [formatTime_short ms hpos h, readTime_short]
    omega
  · rw [formatTime_long ms hpos (by omega), readTime_long]
    omega

/-! ## C29: the text of a time -/

/-- C29: `formatTime(ms)` is `"0:00"` when `ms` is missing and for every `ms ≤ 0`.
For every `ms > 0`, with `total = floor(ms / 1000)`, `H = total div 3600`,
`M = (total mod 3600) div 60` and `S = total mod 60`: the result is `M:SS` when
`total < 3600` and `H:MM:SS` otherwise, the digits of `M` (in the second form) and
of `S` padded with zeros to exactly two characters; `M < 60`, `S < 60` and
`H * 3600 + M * 60 + S = total`; and the text determines `total`: reading it back
gives `total`, so two positive arguments with the same text have the same
`total`. -/
theorem C29_formatTime (ms : Int) :
    formatTime none = "0:00" ∧
      (ms ≤ 0 → formatTime (some ms) = "0:00") ∧
      (0 < ms →
        (((ms / 1000).toNat : Nat) : Int) = ms / 1000 ∧
          ((ms / 1000).toNat < 3600 →
            formatTime (some ms) =
              String.mk
                (numberToString ((ms / 1000).toNat % 3600 / 60) ++
                  ':' :: padStart2 (numberToString ((ms / 1000).toNat % 60)))) ∧
          (3600 ≤ (ms / 1000).toNat →
            formatTime (some ms) =
              String.mk
                (numberToString ((ms / 1000).toNat / 3600) ++
                  ':' :: padStart2 (numberToString ((ms / 1000).toNat % 3600 / 60)) ++
                  ':' :: padStart2 (numberToString ((ms / 1000).toNat % 60)))) ∧
          (padStart2 (numberToString ((ms / 1000).toNat % 3600 / 60))).length = 2 ∧
          (padStart2 (numberToString ((ms / 1000).toNat % 60))).length = 2 ∧
          (ms / 1000).toNat % 3600 / 60 < 60 ∧
          (ms / 1000).toNat % 60 < 60 ∧
          (ms / 1000).toNat / 3600 * 3600 + (ms / 1000).toNat % 3600 / 60 * 60 +
            (ms / 1000).toNat % 60 = (ms / 1000).toNat ∧
          readTime (formatTime (some ms)) = (ms / 1000).toNat ∧
          ∀ ms2 : Int, 0 < ms2 → formatTime (some ms) = formatTime (some ms2) →
            ms / 1000 = ms2 / 1000) := by
  refine ⟨rfl, ?_, ?_⟩
  · intro h
    have h1 : ms = 0 ∨ ms ≤ 0 := Or.inr h
    simp only [formatTime, h1, if_true]
  · intro hpos
    refine ⟨by omega, formatTime_short ms hpos, formatTime_long ms hpos, ?_, ?_, by omega,
      by omega, by omega, readTime_formatTime ms hpos, ?_⟩
    · exact padStart2_length _ (numberToString_length _ (by omega)).2
    · exact padStart2_length _ (numberToString_length _ (by omega)).2
    · intro ms2 hpos2 heq
      have e1 := readTime_formatTime ms hpos
      have e2 := readTime_formatTime ms2 hpos2
      rw [heq, e2] at e1
      omega

/-- C29 at concrete inputs: 65000 ms is `1:05`, 3725000 ms is `1:02:05`, 999 ms is
`0:00`, and reading `1:02:05` back gives 3725 seconds. -/
theorem C29_formatTime_witness :
    formatTime (some 65000) = "1:05" ∧ formatTime (some 3725000) = "1:02:05" ∧
      formatTime (some 999) = "0:00" ∧ formatTime (some (-5)) = "0:00" ∧
      readTime (formatTime (some 3725000)) = 3725 :=
  ⟨by decide, by decide, by decide, (C29_formatTime (-5)).2.1 (by decide),
    ((C29_formatTime 3725000).2.2 (by decide)).2.2.2.2.2.2.2.2.1.trans (by decide)⟩

end Ampdeck
